/-
  Verification of the Auphere backend against its specification.

  The Python source is shallowly embedded: dynamically-typed values become
  the inductive type `PyVal`, dictionaries become association lists,
  fallible code returns `Except String`, and stateful router handlers pass
  the database state explicitly.
-/
import Mathlib

namespace Auphere

/-! ### String helpers (kernel-computable models of the Python string methods used) -/

/-- ASCII lower-casing of one character (model of `str.lower` on the tables used). -/
def lowerChar (c : Char) : Char :=
  if 65 ≤ c.toNat ∧ c.toNat ≤ 90 then Char.ofNat (c.toNat + 32) else c

/-- `s.lower()`. -/
def strLower (s : String) : String := String.mk (s.data.map lowerChar)

/-- Whitespace recognised by `str.strip()` (the forms occurring in this code base). -/
def isPyWS (c : Char) : Bool := c == ' ' || c == '\t' || c == '\n' || c == '\r'

/-- `s.strip()`. -/
def strTrim (s : String) : String :=
  String.mk (((s.data.dropWhile isPyWS).reverse.dropWhile isPyWS).reverse)

/-- `s.startswith(pat)`. -/
def strStarts (s pat : String) : Bool := pat.data.isPrefixOf s.data

/-- `s[n:]` for a non-negative index. -/
def strDrop (s : String) (n : Nat) : String := String.mk (s.data.drop n)

/-- `len(s)` (character count, as in Python). -/
def strLen (s : String) : Nat := s.data.length

/-- Substring occurrence on character lists. -/
def listInfix (pat : List Char) : List Char → Bool
  | [] => pat.isEmpty
  | c :: rest => pat.isPrefixOf (c :: rest) || listInfix pat rest

/-- `pat in s` (Python substring containment). -/
def strContains (s pat : String) : Bool := listInfix pat.data s.data

/-- Join strings with a separator (kernel-computable `sep.join(parts)`). -/
def strJoinSep (sep : String) : List String → String
  | [] => ""
  | [x] => x
  | x :: rest => x ++ sep ++ strJoinSep sep rest

/-- Concatenate a list of strings. -/
def strConcat : List String → String
  | [] => ""
  | x :: rest => x ++ strConcat rest

/-- `s.split(sep)` for a one-character separator. -/
def splitCharAux (sep : Char) : List Char → List Char → List String
  | [], acc => [String.mk acc.reverse]
  | c :: rest, acc =>
    if c = sep then String.mk acc.reverse :: splitCharAux sep rest []
    else splitCharAux sep rest (c :: acc)

/-- `s.split(sep)` for a one-character separator (always non-empty result). -/
def splitChar (sep : Char) (s : String) : List String := splitCharAux sep s.data []

/-- `s.split(sep, 1)[1]` when `sep` occurs: everything after the first separator. -/
def afterFirst (sep : Char) (s : String) : String :=
  String.mk ((s.data.dropWhile (fun c => c ≠ sep)).drop 1)

/-- `s.replace(old, "")` for a one-character pattern. -/
def removeChar (sep : Char) (s : String) : String :=
  String.mk (s.data.filter (fun c => c ≠ sep))

/-- Digits of a natural number (fuel-driven to stay kernel-computable). -/
def natDecAux : Nat → Nat → List Char
  | 0, _ => []
  | fuel + 1, n =>
    if n < 10 then [Char.ofNat (48 + n)]
    else natDecAux fuel (n / 10) ++ [Char.ofNat (48 + n % 10)]

/-- Decimal rendering of a natural number. -/
def natDec (n : Nat) : String := String.mk (natDecAux (n + 1) n)

/-- Decimal rendering of an integer (`str(int)` in Python). -/
def intDec (n : Int) : String :=
  if n < 0 then "-" ++ natDec n.natAbs else natDec n.natAbs

/-- Parse a non-empty run of decimal digits. -/
def digitsToNat : List Char → Option Nat
  | [] => none
  | cs =>
    if cs.all Char.isDigit then
      some (cs.foldl (fun acc c => acc * 10 + (c.toNat - 48)) 0)
    else none

/-- Model of Python `int(str)`: optional sign and digits, surrounding blanks allowed. -/
def parseIntStr (s : String) : Option Int :=
  let cs := (strTrim s).data
  match cs with
  | '-' :: rest => (digitsToNat rest).map (fun n => -(n : Int))
  | '+' :: rest => (digitsToNat rest).map (fun n => (n : Int))
  | _ => (digitsToNat cs).map (fun n => (n : Int))

/-- Mantissa of a decimal literal: `digits`, `digits.digits`, `.digits` or `digits.`. -/
def parseMantissa (cs : List Char) : Option ℚ :=
  let intPart := cs.takeWhile Char.isDigit
  let rest := cs.dropWhile Char.isDigit
  match rest with
  | [] => (digitsToNat intPart).map (fun n => (n : ℚ))
  | '.' :: frac =>
    if frac.all Char.isDigit ∧ (intPart ≠ [] ∨ frac ≠ []) then
      let iv : Nat := (digitsToNat intPart).getD 0
      let fv : Nat := (digitsToNat frac).getD 0
      some ((iv : ℚ) + (fv : ℚ) / ((10 : ℚ) ^ frac.length))
    else none
  | _ => none

/-- Model of Python `float(str)`: sign, decimal mantissa, optional exponent. -/
def parseFloatStr (s : String) : Option ℚ :=
  let cs := (strTrim s).data
  let signed : Bool × List Char :=
    match cs with
    | '-' :: rest => (true, rest)
    | '+' :: rest => (false, rest)
    | _ => (false, cs)
  let body := signed.2
  let mant := body.takeWhile (fun c => c ≠ 'e' ∧ c ≠ 'E')
  let expPart := body.dropWhile (fun c => c ≠ 'e' ∧ c ≠ 'E')
  let value : Option ℚ :=
    match expPart with
    | [] => parseMantissa mant
    | _ :: ex =>
      match parseMantissa mant, parseIntStr (String.mk ex) with
      | some m, some e =>
        some (if e ≥ 0 then m * (10 : ℚ) ^ e.toNat else m / (10 : ℚ) ^ (-e).toNat)
      | _, _ => none
  value.map (fun q => if signed.1 then -q else q)

/-- Model of a Python/JSON value as used throughout the backend. -/
inductive PyVal where
  | pnone
  | pbool (b : Bool)
  | pint (n : Int)
  | pfloat (q : ℚ)
  | pstr (s : String)
  | plist (xs : List PyVal)
  | pdict (kvs : List (String × PyVal))

mutual
/-- Structural decidable equality (the derive handler does not support this
nested inductive). -/
def pvDecEq : (a b : PyVal) → Decidable (a = b)
  | .pnone, .pnone => isTrue rfl
  | .pbool a, .pbool b =>
    match decEq a b with
    | isTrue h => isTrue (by rw [h])
    | isFalse h => isFalse (fun hh => h (by cases hh; rfl))
  | .pint a, .pint b =>
    match decEq a b with
    | isTrue h => isTrue (by rw [h])
    | isFalse h => isFalse (fun hh => h (by cases hh; rfl))
  | .pfloat a, .pfloat b =>
    match decEq a b with
    | isTrue h => isTrue (by rw [h])
    | isFalse h => isFalse (fun hh => h (by cases hh; rfl))
  | .pstr a, .pstr b =>
    match decEq a b with
    | isTrue h => isTrue (by rw [h])
    | isFalse h => isFalse (fun hh => h (by cases hh; rfl))
  | .plist xs, .plist ys =>
    match pvListDecEq xs ys with
    | isTrue h => isTrue (by rw [h])
    | isFalse h => isFalse (fun hh => h (by cases hh; rfl))
  | .pdict xs, .pdict ys =>
    match pvKvsDecEq xs ys with
    | isTrue h => isTrue (by rw [h])
    | isFalse h => isFalse (fun hh => h (by cases hh; rfl))
  | .pnone, .pbool _ => isFalse (fun h => by cases h)
  | .pnone, .pint _ => isFalse (fun h => by cases h)
  | .pnone, .pfloat _ => isFalse (fun h => by cases h)
  | .pnone, .pstr _ => isFalse (fun h => by cases h)
  | .pnone, .plist _ => isFalse (fun h => by cases h)
  | .pnone, .pdict _ => isFalse (fun h => by cases h)
  | .pbool _, .pnone => isFalse (fun h => by cases h)
  | .pbool _, .pint _ => isFalse (fun h => by cases h)
  | .pbool _, .pfloat _ => isFalse (fun h => by cases h)
  | .pbool _, .pstr _ => isFalse (fun h => by cases h)
  | .pbool _, .plist _ => isFalse (fun h => by cases h)
  | .pbool _, .pdict _ => isFalse (fun h => by cases h)
  | .pint _, .pnone => isFalse (fun h => by cases h)
  | .pint _, .pbool _ => isFalse (fun h => by cases h)
  | .pint _, .pfloat _ => isFalse (fun h => by cases h)
  | .pint _, .pstr _ => isFalse (fun h => by cases h)
  | .pint _, .plist _ => isFalse (fun h => by cases h)
  | .pint _, .pdict _ => isFalse (fun h => by cases h)
  | .pfloat _, .pnone => isFalse (fun h => by cases h)
  | .pfloat _, .pbool _ => isFalse (fun h => by cases h)
  | .pfloat _, .pint _ => isFalse (fun h => by cases h)
  | .pfloat _, .pstr _ => isFalse (fun h => by cases h)
  | .pfloat _, .plist _ => isFalse (fun h => by cases h)
  | .pfloat _, .pdict _ => isFalse (fun h => by cases h)
  | .pstr _, .pnone => isFalse (fun h => by cases h)
  | .pstr _, .pbool _ => isFalse (fun h => by cases h)
  | .pstr _, .pint _ => isFalse (fun h => by cases h)
  | .pstr _, .pfloat _ => isFalse (fun h => by cases h)
  | .pstr _, .plist _ => isFalse (fun h => by cases h)
  | .pstr _, .pdict _ => isFalse (fun h => by cases h)
  | .plist _, .pnone => isFalse (fun h => by cases h)
  | .plist _, .pbool _ => isFalse (fun h => by cases h)
  | .plist _, .pint _ => isFalse (fun h => by cases h)
  | .plist _, .pfloat _ => isFalse (fun h => by cases h)
  | .plist _, .pstr _ => isFalse (fun h => by cases h)
  | .plist _, .pdict _ => isFalse (fun h => by cases h)
  | .pdict _, .pnone => isFalse (fun h => by cases h)
  | .pdict _, .pbool _ => isFalse (fun h => by cases h)
  | .pdict _, .pint _ => isFalse (fun h => by cases h)
  | .pdict _, .pfloat _ => isFalse (fun h => by cases h)
  | .pdict _, .pstr _ => isFalse (fun h => by cases h)
  | .pdict _, .plist _ => isFalse (fun h => by cases h)
def pvListDecEq : (xs ys : List PyVal) → Decidable (xs = ys)
  | [], [] => isTrue rfl
  | a :: as, b :: bs =>
    match pvDecEq a b, pvListDecEq as bs with
    | isTrue h1, isTrue h2 => isTrue (by rw [h1, h2])
    | isFalse h1, _ => isFalse (fun hh => h1 (by cases hh; rfl))
    | _, isFalse h2 => isFalse (fun hh => h2 (by cases hh; rfl))
  | [], _ :: _ => isFalse (fun h => by cases h)
  | _ :: _, [] => isFalse (fun h => by cases h)
def pvKvsDecEq : (xs ys : List (String × PyVal)) → Decidable (xs = ys)
  | [], [] => isTrue rfl
  | (k, a) :: as, (k2, b) :: bs =>
    match decEq k k2, pvDecEq a b, pvKvsDecEq as bs with
    | isTrue h0, isTrue h1, isTrue h2 => isTrue (by rw [h0, h1, h2])
    | isFalse h0, _, _ => isFalse (fun hh => h0 (by cases hh; rfl))
    | _, isFalse h1, _ => isFalse (fun hh => h1 (by cases hh; rfl))
    | _, _, isFalse h2 => isFalse (fun hh => h2 (by cases hh; rfl))
  | [], _ :: _ => isFalse (fun h => by cases h)
  | _ :: _, [] => isFalse (fun h => by cases h)
end

instance : DecidableEq PyVal := pvDecEq

instance {ε α : Type} [DecidableEq ε] [DecidableEq α] : DecidableEq (Except ε α) :=
  fun a b =>
  match a, b with
  | .error x, .error y =>
    match decEq x y with
    | isTrue h => isTrue (by rw [h])
    | isFalse h => isFalse (fun hh => h (by cases hh; rfl))
  | .ok x, .ok y =>
    match decEq x y with
    | isTrue h => isTrue (by rw [h])
    | isFalse h => isFalse (fun hh => h (by cases hh; rfl))
  | .error _, .ok _ => isFalse (fun h => by cases h)
  | .ok _, .error _ => isFalse (fun h => by cases h)

namespace PyVal

/-- Python truthiness (`bool(v)`). -/
def truthy : PyVal → Bool
  | .pnone => false
  | .pbool b => b
  | .pint n => n != 0
  | .pfloat q => q != 0
  | .pstr s => s ≠ ""
  | .plist xs => !xs.isEmpty
  | .pdict kvs => !kvs.isEmpty

/-- `d.get(k)` on a dict: `None` when the key is absent. -/
def dget : PyVal → String → PyVal
  | .pdict kvs, k =>
    match kvs.find? (fun kv => kv.1 = k) with
    | some kv => kv.2
    | none => .pnone
  | _, _ => .pnone

/-- `d.get(k, default)`. -/
def dgetD (v : PyVal) (k : String) (dflt : PyVal) : PyVal :=
  match v with
  | .pdict kvs =>
    match kvs.find? (fun kv => kv.1 = k) with
    | some kv => kv.2
    | none => dflt
  | _ => dflt

/-- Python `a or b` (value-returning, both operands already evaluated). -/
def pyOr (a b : PyVal) : PyVal := if a.truthy then a else b

/-- Key lookup as an `Option` (present/absent distinction). -/
def lookup : PyVal → String → Option PyVal
  | .pdict kvs, k => (kvs.find? (fun kv => kv.1 = k)).map Prod.snd
  | _, _ => none

/-- `d[k] = v` on an association list: replace in place, else append. -/
def alistSet : List (String × PyVal) → String → PyVal → List (String × PyVal)
  | [], k, v => [(k, v)]
  | (k', v') :: rest, k, v =>
    if k' = k then (k, v) :: rest else (k', v') :: alistSet rest k v

/-- `d[k] = v` on a dict value. -/
def dset : PyVal → String → PyVal → PyVal
  | .pdict kvs, k, v => .pdict (alistSet kvs k v)
  | w, _, _ => w

/-- `v is None`. -/
def isNone : PyVal → Bool
  | .pnone => true
  | _ => false

/-- `isinstance(v, dict)`. -/
def isDict : PyVal → Bool
  | .pdict _ => true
  | _ => false

/-- `isinstance(v, list)`. -/
def isList : PyVal → Bool
  | .plist _ => true
  | _ => false

/-- `isinstance(v, str)`. -/
def isStr : PyVal → Bool
  | .pstr _ => true
  | _ => false

/-- `isinstance(v, int)` — in Python `bool` is a subtype of `int`. -/
def isInt : PyVal → Bool
  | .pint _ => true
  | .pbool _ => true
  | _ => false

/-- Key membership for a dict value. -/
def hasKey (v : PyVal) (k : String) : Bool :=
  match v with
  | .pdict kvs => kvs.any (fun kv => kv.1 = k)
  | _ => false

end PyVal

/-- Decimal rendering approximating CPython float `repr` (exact when the value
has a finite decimal expansion of at most 17 fractional digits). -/
def ratRepr (q : ℚ) : String :=
  let sign := if q < 0 then "-" else ""
  let a := |q|
  let ip : Nat := a.floor.toNat
  let frac : ℚ := a - (ip : ℚ)
  if frac = 0 then sign ++ natDec ip ++ ".0"
  else
    let scaled : Nat := (frac * (10 : ℚ) ^ (17 : Nat)).floor.toNat
    let digits := natDecAux 18 scaled
    let padded := List.replicate (17 - digits.length) '0' ++ digits
    let trimmed := padded.reverse.dropWhile (fun c => c = '0') |>.reverse
    sign ++ natDec ip ++ "." ++ String.mk trimmed

/-- Rendering of scalar values, shared by `str` and `repr`. -/
def pyScalarStr : PyVal → String
  | .pnone => "None"
  | .pbool b => if b then "True" else "False"
  | .pint n => intDec n
  | .pfloat q => ratRepr q
  | .pstr s => s
  | _ => ""

mutual
/-- Model of Python `str(v)` (exact on the scalar shapes that reach it here;
container rendering follows `repr`). -/
def pyStr : PyVal → String
  | .plist xs => "[" ++ pyStrList xs ++ "]"
  | .pdict kvs => "\x7b" ++ pyStrKvs kvs ++ "\x7d"
  | v => pyScalarStr v

/-- `repr` of a value in container position (strings get quotes). -/
def pyRepr : PyVal → String
  | .pstr s => "\x27" ++ s ++ "\x27"
  | .plist xs => "[" ++ pyStrList xs ++ "]"
  | .pdict kvs => "\x7b" ++ pyStrKvs kvs ++ "\x7d"
  | v => pyScalarStr v

def pyStrList : List PyVal → String
  | [] => ""
  | [x] => pyRepr x
  | x :: rest => pyRepr x ++ ", " ++ pyStrList rest

def pyStrKvs : List (String × PyVal) → String
  | [] => ""
  | [(k, v)] => "\x27" ++ k ++ "\x27: " ++ pyRepr v
  | (k, v) :: rest => "\x27" ++ k ++ "\x27: " ++ pyRepr v ++ ", " ++ pyStrKvs rest
end

/-- Model of Python `float(v)`. -/
def pyFloat : PyVal → Except String ℚ
  | .pint n => .ok (n : ℚ)
  | .pfloat q => .ok q
  | .pbool b => .ok (if b then 1 else 0)
  | .pstr s =>
    match parseFloatStr s with
    | some q => .ok q
    | none => .error "ValueError: could not convert string to float"
  | _ => .error "TypeError: float() argument"

/-- Model of Python `int(v)` (floats truncate toward zero). -/
def pyIntFn : PyVal → Except String Int
  | .pint n => .ok n
  | .pbool b => .ok (if b then 1 else 0)
  | .pfloat q => .ok (q.num.tdiv q.den)
  | .pstr s =>
    match parseIntStr s with
    | some n => .ok n
    | none => .error "ValueError: invalid literal for int"
  | _ => .error "TypeError: int() argument"

/-- Iteration over a Python value (`for x in v`): lists yield elements,
dicts yield their keys, strings yield characters; other values raise. -/
def toIter : PyVal → Except String (List PyVal)
  | .plist xs => .ok xs
  | .pdict kvs => .ok (kvs.map (fun kv => .pstr kv.1))
  | .pstr s => .ok (s.data.map (fun c => .pstr (String.mk [c])))
  | _ => .error "TypeError: not iterable"

/-- Membership test `k in v` for a string key. -/
def pyContains (v : PyVal) (k : String) : Except String Bool :=
  match v with
  | .pdict _ => .ok (v.hasKey k)
  | .pstr s => .ok (strContains s k)
  | .plist xs =>
    .ok (xs.any (fun x => match x with | .pstr t => t = k | _ => false))
  | _ => .error "TypeError: argument of type is not iterable"

/-- Item assignment `v[k] = w` for a string key. -/
def setItem (v : PyVal) (k : String) (w : PyVal) : Except String PyVal :=
  match v with
  | .pdict kvs => .ok (.pdict (PyVal.alistSet kvs k w))
  | _ => .error "TypeError: object does not support item assignment"

open PyVal

/-! ### `app/utils/normalizers.py` -/

def IMAGE_PLACEHOLDER : String :=
  "https://images.unsplash.com/photo-1504674900247-0877df9cc836"

/-- `_map_type_to_category` (raises unless given a string, via `.lower()`). -/
def mapTypeToCategory (placeType : PyVal) : Except String String :=
  match placeType with
  | .pstr s =>
    let t := strLower s
    if ["restaurant", "food", "meal", "dining"].any (fun p => strContains t p) then
      .ok "restaurant"
    else if ["bar", "pub", "tavern"].any (fun p => strContains t p) then .ok "bar"
    else if ["night_club", "club", "disco"].any (fun p => strContains t p) then .ok "club"
    else if ["cafe", "coffee"].any (fun p => strContains t p) then .ok "cafe"
    else if ["lounge", "cocktail"].any (fun p => strContains t p) then .ok "lounge"
    else .ok "activity"
  | _ => .error "AttributeError: lower"

/-- `_extract_neighborhood_from_address` (reached only when the address is truthy;
non-string truthy addresses raise on `.split`). -/
def extractNeighborhood (address : PyVal) : Except String PyVal :=
  if !address.truthy then .ok .pnone
  else
    match address with
    | .pstr s =>
      let parts := splitChar ',' s
      if parts.length ≥ 2 then .ok (.pstr (strTrim (parts.headI)))
      else .ok .pnone
    | _ => .error "AttributeError: split"

/-- The image filter of `normalize_place`: drop strings longer than 50 characters
that are not absolute URLs (provider photo-reference tokens). -/
def keepImg (img : PyVal) : Bool :=
  !(match img with
    | .pstr s => decide (strLen s > 50) && !strStarts s "http"
    | _ => false)

/-- The photo-list walk of `normalize_place` (`photos[:3]`). -/
def collectPhotoUrls : List PyVal → Except String (List PyVal)
  | [] => .ok []
  | p :: rest => do
    let tail ← collectPhotoUrls rest
    match p with
    | .pstr s => if strStarts s "http" then pure (.pstr s :: tail) else pure tail
    | .pdict _ =>
      let url := pyOr (p.dget "url") (p.dget "photo_url")
      if url.truthy then
        match url with
        | .pstr s => if strStarts s "http" then pure (.pstr s :: tail) else pure tail
        | _ => .error "AttributeError: startswith"
      else pure tail
    | _ => pure tail

/-- The `lon`/`lng` synchronisation of `normalize_place`. -/
def syncLocation (loc : PyVal) : Except String PyVal :=
  if !loc.truthy then pure loc
  else do
    let hasLng ← pyContains loc "lng"
    let hasLon ← pyContains loc "lon"
    if hasLng && !hasLon then setItem loc "lon" (loc.dget "lng")
    else if hasLon && !hasLng then setItem loc "lng" (loc.dget "lon")
    else pure loc

/-- The fields of the normalized place object, in the order the source builds them. -/
structure NormFields where
  idV : PyVal
  placeIdV : PyVal
  nameV : PyVal
  categoryV : PyVal
  descriptionV : PyVal
  vibeV : List PyVal
  crowdLevelV : PyVal
  musicTypeV : PyVal
  priceLevelV : PyVal
  ratingV : PyVal
  reviewCountV : PyVal
  addressV : PyVal
  neighborhoodV : PyVal
  distanceV : PyVal
  openNowV : Bool
  imagesV : List PyVal
  locationV : PyVal
  currentStatusV : PyVal
  phoneV : PyVal
  websiteV : PyVal
  emailV : PyVal
  openingHoursV : PyVal
  weeklyHoursV : PyVal
  amenitiesV : PyVal
  featuresV : PyVal
  reviewsV : PyVal
  socialMediaV : PyVal

/-- An optional trailing entry's value: the value when truthy, else `None`
(the following `is not None` filter then drops it, matching the source's
conditional `normalized[k] = v` insertions). -/
def optVal (v : PyVal) : PyVal :=
  if v.truthy then v else .pnone

/-- Build the emitted dict: fixed key order, then the source's final
`{k: v for k, v in ... if v is not None}` filter. -/
def emitNorm (f : NormFields) : PyVal :=
  .pdict
    (([("id", f.idV), ("place_id", f.placeIdV), ("name", f.nameV),
       ("category", f.categoryV), ("description", f.descriptionV),
       ("vibe", .plist f.vibeV), ("crowdLevel", f.crowdLevelV),
       ("musicType", f.musicTypeV), ("priceLevel", f.priceLevelV),
       ("rating", f.ratingV), ("reviewCount", f.reviewCountV),
       ("address", f.addressV), ("neighborhood", f.neighborhoodV),
       ("distance", f.distanceV), ("openNow", .pbool f.openNowV),
       ("images", .plist f.imagesV), ("location", f.locationV),
       ("currentStatus", optVal f.currentStatusV),
       ("phone", optVal f.phoneV),
       ("website", optVal f.websiteV),
       ("email", optVal f.emailV),
       ("openingHours", optVal f.openingHoursV),
       ("weeklyHours", optVal f.weeklyHoursV),
       ("amenities", optVal f.amenitiesV),
       ("features", optVal f.featuresV),
       ("reviews", optVal f.reviewsV),
       ("socialMedia", optVal f.socialMediaV)].filter
      (fun kv => !kv.2.isNone)))

/-- `types[0]` when `types` is a non-empty list, else the value itself (the
source indexes `types[0]` only after `if types`; a non-list truthy value
reaches `_map_type_to_category` unchanged in the model, which then raises for
non-strings exactly as `.lower()` would). -/
def firstOrSelf : PyVal → PyVal
  | .plist (x :: _) => x
  | other => other

/-- `images if isinstance(images, list) else [images]`. -/
def listOrWrap : PyVal → List PyVal
  | .plist xs => xs
  | other => [other]

/-- `vibe if isinstance(vibe, list) else ([vibe] if vibe else [])`. -/
def vibeList : PyVal → List PyVal
  | .plist xs => xs
  | other => if other.truthy then [other] else []

/-- The price clamp applied to the resolved `priceLevel or price_level or 2`
value (the `isinstance(price, int)` branch of the source, recalling that a
Python `bool` is an `int`). -/
def clampPrice (price0 : PyVal) : PyVal :=
  match price0 with
  | .pint n => if n < 1 then .pint 2 else if n > 4 then .pint 4 else .pint n
  | .pbool b => if b then .pbool true else .pint 2
  | _ => .pint 2

/-- The `category` sub-computation of `computeFields`. -/
def catComp (raw : PyVal) : Except String PyVal :=
  let g := raw.dget
  let c := g "category"
  if c.truthy then pure c
  else
    let types := raw.dgetD "types" (.plist [])
    if types.truthy then
      (mapTypeToCategory (firstOrSelf types)).map PyVal.pstr
    else pure (.pstr "place")

/-- The `neighborhood` sub-computation of `computeFields`. -/
def neighComp (raw : PyVal) : Except String PyVal :=
  let g := raw.dget
  let address :=
    pyOr (g "address") (pyOr (g "formatted_address") (pyOr (g "vicinity") (.pstr "")))
  let n1 := g "neighborhood"
  if n1.truthy then pure n1
  else
    let n2 := g "neighbourhood"
    if n2.truthy then pure n2
    else do
      let e ← extractNeighborhood address
      if e.truthy then pure e else pure .pnone

/-- The `images` sub-computation of `computeFields` (before the placeholder
fallback). -/
def imagesComp (raw : PyVal) : Except String (List PyVal) :=
  let g := raw.dget
  let iv := g "images"
  if iv.truthy then
    pure ((listOrWrap iv).filter keepImg)
  else if (g "photo_url").truthy then pure [g "photo_url"]
  else if (g "primary_photo_url").truthy then pure [g "primary_photo_url"]
  else if (g "primary_photo_thumbnail_url").truthy then
    pure [g "primary_photo_thumbnail_url"]
  else if (g "photos").truthy then
    match g "photos" with
    | .plist xs => if !xs.isEmpty then collectPhotoUrls (xs.take 3) else pure []
    | _ => pure []
  else pure []

/-- The `location` sub-computation of `computeFields`. -/
def locComp (raw : PyVal) : Except String PyVal :=
  let g := raw.dget
  let loc0 := g "location"
  let loc1 := if loc0.truthy then loc0
    else
      let geom := raw.dgetD "geometry" (.pdict [])
      if geom.isDict && geom.hasKey "location" then geom.dget "location" else loc0
  syncLocation loc1

/-- The `rating` conversion sub-computation of `computeFields`. -/
def ratingComp (raw : PyVal) : Except String PyVal :=
  let g := raw.dget
  let rating := pyOr (g "rating") (pyOr (g "google_rating") (pyOr (g "googleRating") (.pint 0)))
  if rating.truthy then (pyFloat rating).map PyVal.pfloat else pure (.pint 0)

/-- The `review_count` conversion sub-computation of `computeFields`. -/
def rcComp (raw : PyVal) : Except String PyVal :=
  let g := raw.dget
  let reviewCount :=
    pyOr (g "reviewCount")
      (pyOr (g "user_ratings_total")
        (pyOr (g "google_rating_count") (pyOr (g "googleReviewCount") (.pint 0))))
  if reviewCount.truthy then (pyIntFn reviewCount).map PyVal.pint else pure (.pint 0)

/-- The final record `computeFields` builds, as a function of the input and the
values delivered by the six effectful sub-computations. -/
def recordOf (raw : PyVal) (category neighborhood : PyVal) (images : List PyVal)
    (location ratingE reviewCountE : PyVal) : NormFields :=
  let g := raw.dget
  let placeId := pyOr (g "db_id") (pyOr (g "id") (pyOr (g "place_id") (g "_id")))
  let googlePlaceId :=
    pyOr (g "place_id")
      (pyOr (g "google_place_id") (if (g "db_id").truthy then .pnone else g "id"))
  let o1 := g "openNow"
  let o2 := if o1.isNone then g "open_now" else o1
  let o3 := if o2.isNone then
      let oh := raw.dgetD "opening_hours" (.pdict [])
      if oh.isDict then oh.dgetD "open_now" (.pbool true) else .pbool true
    else o2
  let es := g "editorial_summary"
  let description :=
    if es.isDict then pyOr (g "description") (es.dget "overview")
    else pyOr (g "summary") (.pstr "")
  { idV := if placeId.truthy then .pstr (pyStr placeId) else .pnone
    placeIdV :=
      if googlePlaceId.truthy then .pstr (pyStr googlePlaceId)
      else if placeId.truthy then .pstr (pyStr placeId) else .pnone
    nameV := g "name"
    categoryV := category
    descriptionV := description
    vibeV := vibeList (pyOr (g "vibe") (pyOr (g "vibe_descriptor") (.plist [])))
    crowdLevelV := pyOr (g "crowdLevel") (pyOr (g "crowd_level") (.pstr "moderate"))
    musicTypeV := pyOr (g "musicType") (pyOr (g "music_type") (.pstr "ambient"))
    priceLevelV := clampPrice (pyOr (g "priceLevel") (pyOr (g "price_level") (.pint 2)))
    ratingV := ratingE
    reviewCountV := reviewCountE
    addressV :=
      pyOr (g "address") (pyOr (g "formatted_address") (pyOr (g "vicinity") (.pstr "")))
    neighborhoodV := neighborhood
    distanceV := g "distance"
    openNowV := o3.truthy
    imagesV := if !images.isEmpty then images else [.pstr IMAGE_PLACEHOLDER]
    locationV := location
    currentStatusV := pyOr (g "currentStatus") (g "current_status")
    phoneV := g "phone"
    websiteV := g "website"
    emailV := g "email"
    openingHoursV := g "opening_hours"
    weeklyHoursV := g "weekly_hours"
    amenitiesV := g "amenities"
    featuresV := g "features"
    reviewsV := g "reviews"
    socialMediaV := g "socialMedia" }

/-- The body of `normalize_place` on a truthy dict with a truthy name.  The
six fallible steps run in the source's statement order; every remaining
statement of the source is a pure `let` over `raw` alone and is carried by the
sub-computations and `recordOf` verbatim. -/
def computeFields (raw : PyVal) : Except String NormFields := do
  let category ← catComp raw
  let neighborhood ← neighComp raw
  let images ← imagesComp raw
  let location ← locComp raw
  let ratingE ← ratingComp raw
  let reviewCountE ← rcComp raw
  pure (recordOf raw category neighborhood images location ratingE reviewCountE)

/-- `normalize_place`: `none` models Python's `None` result (dropped place). -/
def normalize_place (raw : PyVal) : Except String (Option PyVal) :=
  if !raw.truthy then .ok none
  else
    match raw with
    | .pdict _ =>
      if !(raw.dget "name").truthy then .ok none
      else (computeFields raw).map (fun f => some (emitNorm f))
    | _ => .error "AttributeError: get"

/-- The loop body of `normalize_places`. -/
def normalizePlacesList : List PyVal → Except String (List PyVal)
  | [] => .ok []
  | p :: rest => do
    let n ← normalize_place p
    let tail ← normalizePlacesList rest
    match n with
    | some v => pure (v :: tail)
    | none => pure tail

/-- `normalize_places`. -/
def normalize_places (rawPlaces : PyVal) : Except String PyVal :=
  if !rawPlaces.truthy then .ok (.plist [])
  else do
    let items ← toIter rawPlaces
    let out ← normalizePlacesList items
    pure (.plist out)

/-- `_parse_duration_string` (its internal `try` turns every failure into 0). -/
def parseDurationString (v : PyVal) : Int :=
  match v with
  | .pstr s =>
    let ds := strLower s
    if strContains ds "h" then
      let parts := splitChar 'h' ds
      match parseIntStr (strTrim parts.headI) with
      | none => 0
      | some hours =>
        let rest := parts.getD 1 ""
        if strContains rest "m" then
          let mstr := strTrim (splitChar 'm' rest).headI
          match (if mstr = "" then some (0 : Int) else parseIntStr mstr) with
          | none => 0
          | some minutes => hours * 60 + minutes
        else hours * 60
    else if strContains ds "m" then
      match parseIntStr (strTrim (removeChar 'm' ds)) with
      | none => 0
      | some minutes => minutes
    else 0
  | _ => 0

/-- The per-stop vibe coercion loop of `_normalize_new_plan_format`. -/
def processDetailedStops : List PyVal → Except String (List PyVal)
  | [] => .ok []
  | stop :: rest => do
    let stop' ←
      match stop with
      | .pdict _ => do
        let details := stop.dget "details"
        if details.truthy then
          match details with
          | .pdict _ =>
            let vf := details.dget "vibes"
            if vf.truthy then
              if !vf.isList then
                pure (stop.dset "details" (details.dset "vibes" (.plist [vf])))
              else pure stop
            else pure stop
          | _ => .error "AttributeError: get"
        else pure stop
      | _ => .error "AttributeError: get"
    let tail ← processDetailedStops rest
    pure (stop' :: tail)

/-- The backward-compatible lightweight `stops` projection. -/
def buildSimpleStops : List PyVal → Except String (List PyVal)
  | [] => .ok []
  | stop :: rest => do
    match stop with
    | .pdict _ => do
      let timing := stop.dgetD "timing" (.pdict [])
      let locv := stop.dgetD "location" (.pdict [])
      let addr ←
        match locv with
        | .pdict _ => pure (locv.dget "address")
        | _ => .error "AttributeError: get"
      let dur ←
        match timing with
        | .pdict _ => pyIntFn (timing.dgetD "suggestedDurationMinutes" (.pint 60))
        | _ => .error "AttributeError: get"
      let entry : PyVal := .pdict
        [("place", .pdict
            [("id", pyOr (stop.dget "localId") (stop.dget "name")),
             ("name", stop.dget "name"), ("address", addr)]),
         ("duration", .pint dur),
         ("startTime", pyOr (timing.dget "recommendedStart") (.pstr "19:00")),
         ("activity", pyOr (stop.dget "typeLabel") (pyOr (stop.dget "category") (.pstr "Visit")))]
      let tail ← buildSimpleStops rest
      pure (entry :: tail)
    | _ => .error "AttributeError: get"

/-- `_normalize_new_plan_format`. -/
def normalizeNewPlanFormat (raw : PyVal) : Except String PyVal := do
  let g := raw.dget
  let planId := pyOr (g "planId") (pyOr (g "id") (g "_id"))
  let name := pyOr (g "title") (pyOr (g "name") (.pstr "Untitled Plan"))
  let description := raw.dgetD "description" (.pstr "")
  let category := g "category"
  let vibes := raw.dgetD "vibes" (.plist [])
  let tags := raw.dgetD "tags" (.plist [])
  let execution := g "execution"
  let summary := g "summary"
  let finalRecs := raw.dgetD "finalRecommendations" (.plist [])
  let rawStops := raw.dgetD "stops" (.plist [])
  let stopsIter ← toIter rawStops
  let stopsDetailed ← processDetailedStops stopsIter
  let stopsSimple ← buildSimpleStops stopsDetailed
  let totalDurationMinutes : Int ←
    if summary.truthy then
      match summary with
      | .pdict _ =>
        pure (if (summary.dget "totalDuration").truthy
          then parseDurationString (summary.dget "totalDuration") else 0)
      | _ => .error "AttributeError: get"
    else pure 0
  let totalDistanceKm : PyVal ←
    if summary.truthy then
      match summary with
      | .pdict _ =>
        if !(summary.dget "totalDistanceKm").isNone then
          (pyFloat (summary.dget "totalDistanceKm")).map PyVal.pfloat
        else pure .pnone
      | _ => .error "AttributeError: get"
    else pure .pnone
  let vibesOut : PyVal :=
    match vibes with
    | .plist xs => .plist xs
    | other => if other.truthy then .plist [other] else .plist []
  pure (.pdict
    ([("id", if planId.truthy then .pstr (pyStr planId) else .pnone),
      ("name", name), ("description", description), ("category", category),
      ("vibes", vibesOut), ("tags", tags), ("execution", execution),
      ("stops", .plist stopsSimple), ("stopsDetailed", .plist stopsDetailed),
      ("summary", summary), ("finalRecommendations", finalRecs),
      ("totalDuration", .pint totalDurationMinutes),
      ("totalDistance", totalDistanceKm)].filter (fun kv => !kv.2.isNone)))

/-- The legacy stop-normalisation loop. -/
def legacyStops : List PyVal → Except String (List PyVal)
  | [] => .ok []
  | stop :: rest =>
    if !stop.truthy then legacyStops rest
    else
      match stop with
      | .pdict _ => do
        let placeData := stop.dgetD "place" (.pdict [])
        let np ← if placeData.truthy then normalize_place placeData else pure none
        match np with
        | none => legacyStops rest
        | some nplace => do
          let dur ← pyIntFn (stop.dgetD "duration" (.pint 60))
          let entry : PyVal := .pdict
            [("place", nplace), ("duration", .pint dur),
             ("startTime",
              pyOr (stop.dget "startTime") (pyOr (stop.dget "start_time") (.pstr "19:00"))),
             ("activity", stop.dgetD "activity" (.pstr "Visit"))]
          let tail ← legacyStops rest
          pure (entry :: tail)
      | _ => .error "AttributeError: get"

/-- `_normalize_legacy_plan_format`. -/
def normalizeLegacyPlanFormat (raw : PyVal) : Except String PyVal := do
  let g := raw.dget
  let planId := pyOr (g "id") (g "_id")
  let stops := raw.dgetD "stops" (.plist [])
  let items ← toIter stops
  let normStops ← legacyStops items
  let vibe0 := raw.dgetD "vibe" (.pstr "casual")
  let vibe : PyVal :=
    match vibe0 with
    | .plist (x :: _) => x
    | .plist [] => .pstr "casual"
    | other => other
  let totalDuration ← pyIntFn (pyOr (g "totalDuration") (raw.dgetD "total_duration" (.pint 0)))
  let totalDistance ← pyFloat (pyOr (g "totalDistance") (raw.dgetD "total_distance" (.pint 0)))
  pure (.pdict
    ([("id", if planId.truthy then .pstr (pyStr planId) else .pnone),
      ("name", raw.dgetD "name" (.pstr "Unnamed Plan")),
      ("description", raw.dgetD "description" (.pstr "")),
      ("vibe", vibe),
      ("totalDuration", .pint totalDuration),
      ("totalDistance", .pfloat totalDistance),
      ("stops", .plist normStops)].filter (fun kv => !kv.2.isNone)))

/-- `normalize_plan` (the structured path's failures fall back to the legacy path). -/
def normalize_plan (raw : PyVal) : Except String PyVal :=
  if !raw.truthy then .ok .pnone
  else
    match raw with
    | .pdict _ =>
      if (raw.dget "planId").truthy
          || ((raw.dget "stops").truthy && (raw.dget "summary").truthy) then
        match normalizeNewPlanFormat raw with
        | .ok v => .ok v
        | .error _ => normalizeLegacyPlanFormat raw
      else normalizeLegacyPlanFormat raw
    | _ => .error "AttributeError: get"

/-! ### Sorted string lists (Python `sorted` over code points) -/

/-- Lexicographic order on character lists by code point. -/
def charsLt : List Char → List Char → Bool
  | [], [] => false
  | [], _ :: _ => true
  | _ :: _, [] => false
  | a :: as, b :: bs =>
    if a.toNat < b.toNat then true
    else if b.toNat < a.toNat then false
    else charsLt as bs

/-- Python string `<`. -/
def strLt (a b : String) : Bool := charsLt a.data b.data

/-- Stable insertion into a sorted list. -/
def insertSorted (x : String) : List String → List String
  | [] => [x]
  | y :: rest => if strLt x y then x :: y :: rest else y :: insertSorted x rest

/-- `sorted(xs)` for strings. -/
def sortStrings : List String → List String
  | [] => []
  | x :: rest => insertSorted x (sortStrings rest)

/-- `sorted(list(set(xs)))` for strings. -/
def sortDedup (xs : List String) : List String := sortStrings xs.eraseDups

/-! ### `app/utils/feature_inference.py` -/

def AMENITY_TO_FEATURE : List (String × String) :=
  [("outdoor_seating", "Outdoor Seating"), ("wifi", "Free WiFi"),
   ("parking", "Parking Available"), ("wheelchair_accessible", "Wheelchair Accessible"),
   ("accepts_reservations", "Reservations"), ("live_music", "Live Music"),
   ("pet_friendly", "Pet Friendly"), ("family_friendly", "Family Friendly"),
   ("romantic_atmosphere", "Romantic Atmosphere"), ("good_for_groups", "Good for Groups"),
   ("takeout", "Takeout Available"), ("delivery", "Delivery"),
   ("vegan_options", "Vegan Options"), ("vegetarian_friendly", "Vegetarian Friendly"),
   ("full_bar", "Full Bar"), ("beer_wine", "Beer & Wine"), ("happy_hour", "Happy Hour"),
   ("late_night", "Late Night"), ("rooftop", "Rooftop"), ("waterfront", "Waterfront"),
   ("private_room", "Private Room Available"), ("dj", "DJ"),
   ("dance_floor", "Dance Floor"), ("karaoke", "Karaoke"), ("pool_table", "Pool Table"),
   ("tv_screens", "TV Screens"), ("sports_bar", "Sports Bar"),
   ("craft_cocktails", "Craft Cocktails"), ("wine_selection", "Wine Selection"),
   ("specialty_coffee", "Specialty Coffee"), ("brunch", "Brunch"),
   ("breakfast", "Breakfast"), ("lunch", "Lunch"), ("dinner", "Dinner")]

def CATEGORY_FEATURES : List (String × List String) :=
  [("restaurant", ["Table Service", "Menu Available"]),
   ("bar", ["Bar Seating", "Drinks Menu"]),
   ("cafe", ["Coffee & Pastries", "Quick Service"]),
   ("night_club", ["Nightlife", "Dance Floor"]),
   ("lounge", ["Lounge Seating", "Relaxed Atmosphere"])]

def VIBE_FEATURES : List (String × List String) :=
  [("romantic", ["Intimate Setting", "Great for Dates", "Romantic Ambiance"]),
   ("energetic", ["Lively Atmosphere", "High Energy", "Social Scene"]),
   ("sophisticated", ["Upscale", "Premium Experience", "Elegant Decor"]),
   ("casual", ["Relaxed Vibe", "No Dress Code", "Laid Back"]),
   ("chill", ["Quiet Atmosphere", "Comfortable Seating", "Peaceful"]),
   ("fun", ["Entertaining", "Social", "Good Vibes"])]

def PRICE_LEVEL_FEATURES : List (Int × List String) :=
  [(1, ["Budget-Friendly", "Good Value", "Affordable"]),
   (2, ["Moderate Pricing", "Fair Prices"]),
   (3, ["Upscale", "Premium", "Fine Dining"]),
   (4, ["Luxury", "High-End", "Exclusive"])]

def RATING_FEATURES : List ((ℚ × ℚ) × List String) :=
  [((45/10, 5), ["Highly Rated", "Excellent Reviews", "Top Rated"]),
   ((4, 45/10), ["Well Reviewed", "Popular Choice"]),
   ((35/10, 4), ["Good Reviews"])]

/-- `infer_features_from_amenities`. -/
def inferFeaturesFromAmenities (amenities : PyVal) : Except String (List String) :=
  if !amenities.truthy then .ok []
  else do
    let items ← toIter amenities
    let lowered ← items.mapM (fun a =>
      match a with
      | .pstr s => pure (strLower s)
      | _ => Except.error "AttributeError: lower")
    pure (AMENITY_TO_FEATURE.foldl (fun acc kv =>
      let words := String.mk (kv.1.data.map (fun c => if c = '_' then ' ' else c))
      if lowered.any (fun a => strContains a words || strContains words a) then
        acc ++ [kv.2]
      else acc) [])

/-- `infer_features_from_category`. -/
def inferFeaturesFromCategory (category : PyVal) : Except String (List String) :=
  if !category.truthy then .ok []
  else
    match category with
    | .pstr s =>
      let cl := strLower s
      .ok (CATEGORY_FEATURES.foldl (fun acc kv =>
        if strContains cl kv.1 then acc ++ kv.2 else acc) [])
    | _ => .error "AttributeError: lower"

/-- `infer_features_from_vibes`. -/
def inferFeaturesFromVibes (vibes : PyVal) : Except String (List String) :=
  if !vibes.truthy then .ok []
  else do
    let items ← toIter vibes
    items.foldlM (fun acc v =>
      match v with
      | .pstr s =>
        let vl := strLower s
        pure (acc ++ VIBE_FEATURES.foldl (fun acc2 kv =>
          if strContains vl kv.1 then acc2 ++ kv.2 else acc2) [])
      | _ => Except.error "AttributeError: lower") []

/-- Numeric view of a value (Python treats `bool` as a number). -/
def asNum : PyVal → Option ℚ
  | .pint n => some (n : ℚ)
  | .pfloat q => some q
  | .pbool b => some (if b then 1 else 0)
  | _ => none

/-- `infer_features_from_price_level` (comparisons raise on non-numeric input). -/
def inferFeaturesFromPriceLevel (priceLevel : PyVal) : Except String (List String) :=
  if !priceLevel.truthy then .ok []
  else
    match asNum priceLevel with
    | none => .error "TypeError: comparison"
    | some q =>
      if q < 1 ∨ q > 4 then .ok []
      else
        match (PRICE_LEVEL_FEATURES.find? (fun kv => (kv.1 : ℚ) = q)) with
        | some kv => .ok kv.2
        | none => .ok []

/-- `infer_features_from_rating` (first matching band wins via `break`). -/
def inferFeaturesFromRating (rating ratingCount : PyVal) : Except String (List String) :=
  if !rating.truthy then .ok []
  else
    match asNum ratingCount with
    | none => .error "TypeError: comparison"
    | some rc =>
      if rc < 10 then .ok []
      else
        match asNum rating with
        | none => .error "TypeError: comparison"
        | some r =>
          match RATING_FEATURES.find? (fun kv => kv.1.1 ≤ r ∧ r ≤ kv.1.2) with
          | some kv => .ok kv.2
          | none => .ok []

/-- One evaluation of the unparenthesised close-time condition
`close_time and int(close_time) >= 2400 or int(close_time) <= 400`. -/
def closeTimeCond (ct : PyVal) : Except String Bool :=
  if ct.truthy then do
    let n ← pyIntFn ct
    pure (n ≥ 2400 || n ≤ 400)
  else do
    let n ← pyIntFn ct
    pure (n ≤ 400)

/-- The `periods` loop of `infer_features_from_opening_hours` (stops at the
first matching period, like the source's `break`). -/
def lateNightScan : List PyVal → Except String Bool
  | [] => .ok false
  | period :: rest => do
    let ct ←
      match period with
      | .pdict _ =>
        match period.lookup "close" with
        | none => pure ((PyVal.pdict []).dget "time")
        | some (.pdict kvs) => pure ((PyVal.pdict kvs).dget "time")
        | some _ => .error "AttributeError: get"
      | _ => .error "AttributeError: get"
    let hit ← closeTimeCond ct
    if hit then pure true else lateNightScan rest

/-- `infer_features_from_opening_hours`. -/
def infer_features_from_opening_hours (openingHours : PyVal) : Except String (List String) :=
  if !openingHours.truthy then .ok []
  else
    match openingHours with
    | .pdict _ => do
      let base := if (openingHours.dget "open_24_hours").truthy then ["Open 24 Hours"] else []
      let periods := openingHours.dgetD "periods" (.plist [])
      let items ← toIter periods
      let late ← lateNightScan items
      pure (if late then base ++ ["Late Night"] else base)
    | _ => .error "AttributeError: get"

/-- `len(v)` for sized values. -/
def pyLen : PyVal → Except String Nat
  | .plist xs => .ok xs.length
  | .pstr s => .ok s.data.length
  | .pdict kvs => .ok kvs.length
  | _ => .error "TypeError: len"

/-- `infer_features_from_photos`. -/
def inferFeaturesFromPhotos (photos : PyVal) : Except String (List String) :=
  if !photos.truthy then .ok []
  else do
    let n ← pyLen photos
    pure ((if n ≥ 10 then ["Well Documented"] else [])
      ++ (if n ≥ 50 then ["Popular Venue"] else []))

/-- `infer_features` (the union of the seven passes, sorted). -/
def infer_features (placeData : PyVal) : Except String (List String) :=
  match placeData with
  | .pdict _ => do
    let g := placeData.dget
    let f1 ← inferFeaturesFromAmenities (placeData.dgetD "amenities" (.plist []))
    let category := pyOr (g "type") (g "category")
    let f2 ← if category.truthy then inferFeaturesFromCategory category else pure []
    let mainCats ← toIter (placeData.dgetD "main_categories" (.plist []))
    let f3 ← mainCats.foldlM (fun acc c => do
      let fs ← inferFeaturesFromCategory c
      pure (acc ++ fs)) []
    let f4 ← inferFeaturesFromVibes (placeData.dgetD "tags" (.plist []))
    let vd := g "vibe_descriptor"
    let f5 ← if vd.truthy then inferFeaturesFromVibes (.plist [vd]) else pure []
    let pl := g "price_level"
    let f6 ← if pl.truthy then inferFeaturesFromPriceLevel pl else pure []
    let rating := g "google_rating"
    let rc := placeData.dgetD "google_rating_count" (.pint 0)
    let f7 ← if rating.truthy then inferFeaturesFromRating rating rc else pure []
    let oh := g "opening_hours"
    let f8 ← if oh.truthy then infer_features_from_opening_hours oh else pure []
    let f9 ← inferFeaturesFromPhotos (placeData.dgetD "photos" (.plist []))
    pure (sortDedup (f1 ++ f2 ++ f3 ++ f4 ++ f5 ++ f6 ++ f7 ++ f8 ++ f9))
  | _ => .error "AttributeError: get"

/-- Python `set` elements must be hashable. -/
def hashable : PyVal → Bool
  | .plist _ => false
  | .pdict _ => false
  | _ => true

/-- `enrich_place_with_features`, with the process-dependent enumeration order of
`list(set(...))` supplied as the parameter `σ`. -/
def enrich_place_with_features (σ : List PyVal → List PyVal) (placeData : PyVal) :
    Except String PyVal :=
  match placeData with
  | .pdict _ => do
    let existing := placeData.dgetD "features" (.plist [])
    let inferred ← infer_features placeData
    let existingList ←
      match existing with
      | .plist xs => pure xs
      | _ => .error "TypeError: can only concatenate list"
    let combined := existingList ++ inferred.map PyVal.pstr
    if combined.all hashable then
      pure (placeData.dset "features" (.plist (σ combined)))
    else .error "TypeError: unhashable type"
  | _ => .error "AttributeError: get"

/-- A valid enumeration of `list(set(xs))`: duplicate-free and with exactly the
members of `xs`. -/
def IsSetEnum (σ : List PyVal → List PyVal) : Prop :=
  ∀ xs : List PyVal, (σ xs).Nodup ∧ ∀ v, v ∈ σ xs ↔ v ∈ xs

/-! ### `app/utils/amenities_mapper.py` -/

def GOOGLE_TYPE_TO_AMENITIES : List (String × List String) :=
  [("restaurant", ["Dining", "Table Service"]), ("bar", ["Bar", "Drinks"]),
   ("cafe", ["Coffee", "Quick Service"]), ("night_club", ["Nightlife", "Dance Floor"]),
   ("park", ["Outdoor Space", "Green Space"]), ("gym", ["Fitness", "Exercise Equipment"]),
   ("spa", ["Wellness", "Relaxation"]), ("parking", ["Parking"]),
   ("lodging", ["Accommodation"]), ("movie_theater", ["Entertainment", "Cinema"]),
   ("bowling_alley", ["Entertainment", "Games"]), ("museum", ["Culture", "Educational"]),
   ("art_gallery", ["Art", "Culture"]), ("library", ["Quiet Space", "Books"]),
   ("store", ["Shopping"]), ("supermarket", ["Groceries", "Shopping"])]

def GOOGLE_AMENITY_KEYWORDS : List (String × List String) :=
  [("wheelchair", ["Wheelchair Accessible"]), ("accessible", ["Wheelchair Accessible"]),
   ("takeout", ["Takeout Available"]), ("delivery", ["Delivery"]),
   ("reservations", ["Reservations"]), ("reservable", ["Reservations"]),
   ("outdoor", ["Outdoor Seating"]), ("seating", ["Seating Available"]),
   ("rooftop", ["Rooftop"]), ("terrace", ["Terrace"]), ("patio", ["Patio"]),
   ("garden", ["Garden"]), ("credit_card", ["Credit Cards Accepted"]),
   ("wifi", ["Free WiFi"]), ("internet", ["WiFi Available"]),
   ("parking", ["Parking Available"]), ("valet", ["Valet Parking"]),
   ("free_parking", ["Free Parking"]), ("vegetarian", ["Vegetarian Friendly"]),
   ("vegan", ["Vegan Options"]), ("gluten_free", ["Gluten-Free Options"]),
   ("halal", ["Halal Options"]), ("kosher", ["Kosher Options"]),
   ("organic", ["Organic Options"]), ("breakfast", ["Breakfast"]),
   ("brunch", ["Brunch"]), ("lunch", ["Lunch"]), ("dinner", ["Dinner"]),
   ("happy_hour", ["Happy Hour"]), ("late_night", ["Late Night"]),
   ("full_bar", ["Full Bar"]), ("wine", ["Wine Selection"]),
   ("beer", ["Beer Selection"]), ("cocktails", ["Cocktails"]),
   ("craft", ["Craft Drinks"]), ("live_music", ["Live Music"]),
   ("music", ["Music"]), ("dj", ["DJ"]), ("karaoke", ["Karaoke"]),
   ("pool", ["Pool Table"]), ("billiards", ["Pool Table"]), ("games", ["Games"]),
   ("sports", ["Sports Viewing"]), ("tv", ["TV Screens"]),
   ("kid", ["Family Friendly"]), ("child", ["Family Friendly"]),
   ("family", ["Family Friendly"]), ("pet", ["Pet Friendly"]),
   ("dog", ["Pet Friendly"]), ("group", ["Good for Groups"]),
   ("private", ["Private Room Available"]), ("romantic", ["Romantic Atmosphere"]),
   ("intimate", ["Intimate Setting"]), ("cozy", ["Cozy Atmosphere"]),
   ("elegant", ["Elegant Decor"]), ("modern", ["Modern Design"]),
   ("vintage", ["Vintage Decor"])]

def SERVICE_ATTRIBUTES : List (String × String) :=
  [("dine_in", "Dine-in"), ("serves_breakfast", "Breakfast"),
   ("serves_brunch", "Brunch"), ("serves_lunch", "Lunch"),
   ("serves_dinner", "Dinner"), ("serves_beer", "Beer"), ("serves_wine", "Wine"),
   ("serves_vegetarian_food", "Vegetarian Friendly"),
   ("outdoor_seating", "Outdoor Seating"), ("live_music", "Live Music"),
   ("wheelchair_accessible_entrance", "Wheelchair Accessible"),
   ("wheelchair_accessible_parking", "Accessible Parking"),
   ("wheelchair_accessible_restroom", "Accessible Restroom"),
   ("wheelchair_accessible_seating", "Accessible Seating"),
   ("gender_neutral_restroom", "Gender Neutral Restroom"),
   ("restroom", "Restrooms Available"), ("wi_fi", "WiFi"), ("free_wi_fi", "Free WiFi")]

/-- `extract_amenities_from_types`. -/
def extractAmenitiesFromTypes (types : PyVal) : Except String (List String) :=
  if !types.truthy then .ok []
  else do
    let items ← toIter types
    items.foldlM (fun acc t =>
      match t with
      | .pstr s =>
        let ptl := String.mk ((strLower s).data.map (fun c => if c = '_' then ' ' else c))
        pure (acc ++ GOOGLE_TYPE_TO_AMENITIES.foldl (fun acc2 kv =>
          if strContains ptl kv.1 then acc2 ++ kv.2 else acc2) [])
      | _ => Except.error "AttributeError: lower") []

/-- `" ".join(str(field) for field in text_fields if field)`. -/
def joinTruthyStrs (fields : List PyVal) : String :=
  strJoinSep " " ((fields.filter PyVal.truthy).map pyStr)

/-- `extract_amenities_from_attributes`. -/
def extractAmenitiesFromAttributes (attributes : PyVal) : Except String (List String) :=
  if !attributes.truthy then .ok []
  else
    match attributes with
    | .pdict _ => do
      let fromService := SERVICE_ATTRIBUTES.foldl (fun acc kv =>
        match attributes.dget kv.1 with
        | .pbool true => acc ++ [kv.2]
        | _ => acc) []
      let typesField := attributes.dgetD "types" (.plist [])
      let typeItems ← toIter typesField
      let joinedTypes ← typeItems.foldlM (fun acc t =>
        match t with
        | .pstr s => pure (acc ++ [s])
        | _ => Except.error "TypeError: join") ([] : List String)
      let textFields : List PyVal :=
        [attributes.dgetD "description" (.pstr ""),
         attributes.dgetD "editorial_summary" (.pstr ""),
         .pstr (strJoinSep " " joinedTypes)]
      let combined := strLower (joinTruthyStrs textFields)
      pure (fromService ++ GOOGLE_AMENITY_KEYWORDS.foldl (fun acc kv =>
        if strContains combined kv.1 then acc ++ kv.2 else acc) [])
    | _ => .error "AttributeError: get"

/-- `extract_amenities_from_reviews`. -/
def extractAmenitiesFromReviews (reviews : PyVal) : Except String (List String) :=
  if !reviews.truthy then .ok []
  else do
    let first10 ←
      match reviews with
      | .plist xs => pure (xs.take 10)
      | .pstr s => pure ((s.data.take 10).map (fun c => PyVal.pstr (String.mk [c])))
      | _ => .error "TypeError: slice"
    let texts ← first10.mapM (fun r =>
      match r with
      | .pdict _ =>
        match r.dgetD "text" (.pstr "") with
        | .pstr s => pure (strLower s)
        | _ => Except.error "AttributeError: lower"
      | _ => Except.error "AttributeError: get")
    let reviewText := strLower (strJoinSep " " texts)
    pure (GOOGLE_AMENITY_KEYWORDS.foldl (fun acc kv =>
      if strContains reviewText kv.1 then acc ++ kv.2 else acc) [])

/-- `extract_amenities_from_google`. -/
def extract_amenities_from_google (placeData : PyVal) : Except String (List String) :=
  match placeData with
  | .pdict _ => do
    let types0 := placeData.dgetD "types" (.plist [])
    let types := if !types0.truthy then placeData.dgetD "main_categories" (.plist []) else types0
    let a1 ← extractAmenitiesFromTypes types
    let attrs0 := placeData.dgetD "custom_attributes" (.pdict [])
    let attributes := if !attrs0.truthy then placeData else attrs0
    let a2 ← extractAmenitiesFromAttributes attributes
    let a3 ← extractAmenitiesFromReviews (placeData.dgetD "reviews" (.plist []))
    let existing := placeData.dgetD "amenities" (.plist [])
    let a4 ←
      if existing.truthy then do
        let items ← toIter existing
        items.mapM (fun e =>
          match e with
          | .pstr s => pure s
          | _ => Except.error "TypeError: sort of mixed types")
      else pure []
    pure (sortDedup (a1 ++ a2 ++ a3 ++ a4))
  | _ => .error "AttributeError: get"

/-- `enrich_place_with_amenities`. -/
def enrich_place_with_amenities (placeData : PyVal) : Except String PyVal := do
  let amenities ← extract_amenities_from_google placeData
  pure (placeData.dset "amenities" (.plist (amenities.map PyVal.pstr)))

/-! ### `GET /places/{id}`: the enrichment guard of `get_place_details` -/

/-- The `try: amenities; features except Exception: pass` block of the router.
The amenity call mutates and returns the dict, so its result survives when the
feature call raises. -/
def routerEnrichGuard (σ : List PyVal → List PyVal) (placeData : PyVal) : PyVal :=
  match enrich_place_with_amenities placeData with
  | .error _ => placeData
  | .ok pd1 =>
    match enrich_place_with_features σ pd1 with
    | .error _ => pd1
    | .ok pd2 => pd2

/-- The enriched-data attachment of `get_place_details`: the values placed in
`custom_attributes` under `features`/`amenities` (absent unless truthy). -/
def placeDetailsEnrichedAttrs (σ : List PyVal → List PyVal) (placeData : PyVal) :
    Option PyVal × Option PyVal :=
  let pd := routerEnrichGuard σ placeData
  ((if (pd.dget "features").truthy then some (pd.dget "features") else none),
   (if (pd.dget "amenities").truthy then some (pd.dget "amenities") else none))

/-! ### `app/services/google_places_popular_times.py` -/

/-- `_calculate_popularity`. -/
def calculate_popularity (currentHour : Nat) (isWeekend : Bool) (boost : Nat) : Nat :=
  let base : Nat :=
    if 12 ≤ currentHour ∧ currentHour ≤ 15 then 70
    else if 19 ≤ currentHour ∧ currentHour ≤ 22 then 85
    else if currentHour ≥ 23 ∨ currentHour ≤ 2 then (if isWeekend then 60 else 30)
    else if 6 ≤ currentHour ∧ currentHour < 12 then 40
    else if 16 ≤ currentHour ∧ currentHour < 19 then 55
    else 10
  let afterWeekend := if isWeekend then min 100 (base + 10) else base
  min 100 (afterWeekend + boost)

/-- `_generate_mock_popular_times`, as a function of the current hour. -/
def generate_mock_popular_times (currentHour : Nat) : List (String × Nat) :=
  [("Monday", calculate_popularity currentHour false 0),
   ("Tuesday", calculate_popularity currentHour false 0),
   ("Wednesday", calculate_popularity currentHour false 0),
   ("Thursday", calculate_popularity currentHour false 5),
   ("Friday", calculate_popularity currentHour true 10),
   ("Saturday", calculate_popularity currentHour true 15),
   ("Sunday", calculate_popularity currentHour true 0)]

/-! ### `app/dependencies.py` -/

/-- Outcome of the JWKS fetch plus `jwt.decode` on one token. -/
inductive TokenResult where
  | valid (payload : PyVal)
  | expired
  | invalid (msg : String)
  | failure (msg : String)

/-- The authentication environment: configured domain and the (network- and
key-dependent) verification outcome per token. -/
structure Auth0Env where
  auth0Domain : Option String
  validate : String → TokenResult

/-- An HTTP error response (`HTTPException`). -/
structure HttpError where
  statusCode : Nat
  detail : PyVal  deriving DecidableEq

/-- `verify_auth0_token`. The `HTTPException` raised for a missing domain is
itself caught by the trailing `except Exception` and re-wrapped. -/
def verify_auth0_token (env : Auth0Env) (_token : String) : Except HttpError PyVal :=
  match env.auth0Domain with
  | none =>
    .error ⟨401, .pstr "Authentication failed: 401: Auth0 not configured on server"⟩
  | some domain =>
    match env.validate _token with
    | .valid payload =>
      let userId := payload.dget "sub"
      let email := pyOr (payload.dget "email") (payload.dget ("https://" ++ domain ++ "/email"))
      let name := pyOr (payload.dget "name") (payload.dget ("https://" ++ domain ++ "/name"))
      .ok (.pdict
        [("id", userId), ("email", email), ("name", name), ("user_metadata", payload)])
    | .expired => .error ⟨401, .pstr "Token has expired"⟩
    | .invalid msg => .error ⟨401, .pstr ("Invalid authentication credentials: " ++ msg)⟩
    | .failure msg => .error ⟨401, .pstr ("Authentication failed: " ++ msg)⟩

/-- `verify_user_token`. -/
def verify_user_token (env : Auth0Env) (token : String) : Except HttpError PyVal :=
  verify_auth0_token env token

/-- `get_current_user` (requires bearer credentials). -/
def get_current_user (env : Auth0Env) (credentials : String) : Except HttpError PyVal :=
  verify_user_token env credentials

/-- `get_optional_user`: `none` credentials model a missing `Authorization`
header (`HTTPBearer(auto_error=False)`). -/
def get_optional_user (env : Auth0Env) (credentials : Option String) : Option PyVal :=
  match credentials with
  | none => none
  | some token =>
    match verify_user_token env token with
    | .ok user => some user
    | .error _ => none

/-! ### `app/routers/plans.py` -/

/-- One row of the `plans` table. JSON columns are `PyVal`; timestamps are
readings of an abstract clock. -/
structure PlanRow where
  id : String
  user_id : String
  name : PyVal
  description : PyVal
  category : PyVal
  state : String
  vibes : PyVal
  tags : PyVal
  execution : PyVal
  stops : PyVal
  summary : PyVal
  final_recommendations : PyVal
  extra_data : PyVal
  executed : Int
  execution_date : Option String
  rating_post_execution : Option ℚ
  feedback : Option String
  created_at : Nat
  updated_at : Nat
  vibe : Option String
  total_duration : Option Int
  total_distance : Option ℚ
  deriving DecidableEq

/-- `PlanUpdateRequest` (every field optional; `none` = not supplied). -/
structure PlanPatch where
  name : Option String := none
  description : Option String := none
  category : Option String := none
  vibes : Option PyVal := none
  tags : Option PyVal := none
  execution : Option PyVal := none
  stops : Option PyVal := none
  summary : Option PyVal := none
  final_recommendations : Option PyVal := none
  state : Option String := none
  metadata : Option PyVal := none
  ai_edit : Option PyVal := none  deriving DecidableEq

/-- `PlanCreateRequest` (the body of `PUT /plans/{id}`); structured sub-objects
appear already converted to their JSON form. -/
structure PlanCreate where
  name : String
  description : Option String := none
  category : Option String := none
  vibes : PyVal := .plist []
  tags : PyVal := .plist []
  execution : PyVal := .pnone
  stops : PyVal := .plist []
  summary : PyVal := .pnone
  final_recommendations : PyVal := .pnone
  metadata : PyVal := .pdict []
  state : Option String := some "saved"
  vibe : Option String := none
  total_duration : Option Int := none
  total_distance : Option ℚ := none  deriving DecidableEq

/-- The shared lookup of the plans router:
`select(Plan).where(Plan.id == plan_id, Plan.user_id == current_user["id"])`. -/
def findPlan (db : List PlanRow) (planId userId : String) : Option PlanRow :=
  db.find? (fun r => r.id = planId && r.user_id = userId)

/-- Commit of an updated row (same primary key). -/
def replaceRow (db : List PlanRow) (planId userId : String) (row : PlanRow) :
    List PlanRow :=
  db.map (fun r => if r.id = planId && r.user_id = userId then row else r)

/-- `GET /plans/{plan_id}` (the database is read-only here). -/
def get_plan (db : List PlanRow) (userId planId : String) : Except HttpError PlanRow :=
  match findPlan db planId userId with
  | none => .error ⟨404, .pstr "Plan not found"⟩
  | some plan => .ok plan

/-- `PUT /plans/{plan_id}`. -/
def update_plan (db : List PlanRow) (userId planId : String) (payload : PlanCreate)
    (now : Nat) : Except HttpError PlanRow × List PlanRow :=
  match findPlan db planId userId with
  | none => (.error ⟨404, .pstr "Plan not found"⟩, db)
  | some plan =>
    let row : PlanRow :=
      { plan with
        name := .pstr payload.name
        description := match payload.description with | some s => .pstr s | none => .pnone
        category := match payload.category with | some s => .pstr s | none => .pnone
        state := (payload.state.filter (fun s => s ≠ "")).getD plan.state
        vibes := pyOr payload.vibes (.plist [])
        tags := pyOr payload.tags (.plist [])
        execution := payload.execution
        stops := payload.stops
        summary := payload.summary
        final_recommendations := pyOr payload.final_recommendations (.plist [])
        extra_data := pyOr payload.metadata (.pdict [])
        updated_at := now
        vibe := payload.vibe
        total_duration := payload.total_duration
        total_distance := payload.total_distance }
    (.ok row, replaceRow db planId userId row)

/-- `DELETE /plans/{plan_id}`. -/
def delete_plan (db : List PlanRow) (userId planId : String) :
    Except HttpError PyVal × List PlanRow :=
  match findPlan db planId userId with
  | none => (.error ⟨404, .pstr "Plan not found"⟩, db)
  | some _ =>
    (.ok (.pdict [("message", .pstr "Plan deleted successfully")]),
     db.filter (fun r => !(r.id = planId && r.user_id = userId)))

/-- The last `n` elements of a list (`xs[-n:]`). -/
def lastN (n : Nat) (l : List PyVal) : List PyVal := l.drop (l.length - n)

/-- The list currently stored under `metadata.ai_edits`
(`extra.get("ai_edits") or []`, discarded unless a list). -/
def aiEditsList (row : PlanRow) : List PyVal :=
  match pyOr (pyOr row.extra_data (.pdict []) |>.dget "ai_edits") (.plist []) with
  | .plist xs => xs
  | _ => []

/-- The agent payload built by the `ai_edit` branch of `patch_plan`. -/
def aiEditAgentPayload (userId : String) (plan : PlanRow) (aiEdit : PyVal) : PyVal :=
  .pdict
    [("user_id", .pstr userId), ("plan_id", .pstr plan.id),
     ("plan", .pdict
        [("id", .pstr plan.id), ("user_id", .pstr plan.user_id),
         ("name", plan.name), ("description", plan.description),
         ("category", plan.category), ("state", .pstr plan.state),
         ("vibes", pyOr plan.vibes (.plist [])), ("tags", pyOr plan.tags (.plist [])),
         ("execution", pyOr plan.execution (.pdict [])),
         ("stops", pyOr plan.stops (.plist [])),
         ("summary", pyOr plan.summary (.pdict [])),
         ("final_recommendations", pyOr plan.final_recommendations (.plist [])),
         ("metadata", pyOr plan.extra_data (.pdict []))]),
     ("edit", aiEdit)]

/-- The audit record appended to `metadata.ai_edits` (timestamp, the edit
instruction, the agent's summary). -/
def auditRecord (aiEdit agentResult : PyVal) (now : Nat) : PyVal :=
  .pdict
    [("at", .pstr (natDec now)), ("edit", aiEdit),
     ("agent_summary", agentResult.dget "summary")]

/-- The row update of the `ai_edit` branch once the agent reported success:
selective field adoption, audit-record append capped at 20, clock bump.
Raises (an unhandled exception, surfacing as a 500 with no commit) when the
agent's `updated_plan` is truthy but not a dict, or when the stored
`extra_data` is truthy but not a dict. -/
def applyAiEdit (plan : PlanRow) (aiEdit agentResult : PyVal) (now : Nat) :
    Except String PlanRow := do
  let updatedPlan := pyOr (agentResult.dget "updated_plan") (.pdict [])
  if !updatedPlan.isDict then throw "AttributeError: get" else
  let p :=
    { plan with
      name := if (updatedPlan.dget "name").truthy then updatedPlan.dget "name" else plan.name
      description := updatedPlan.dgetD "description" plan.description
      category := updatedPlan.dgetD "category" plan.category
      vibes := if (updatedPlan.dget "vibes").isList then updatedPlan.dget "vibes" else plan.vibes
      tags := if (updatedPlan.dget "tags").isList then updatedPlan.dget "tags" else plan.tags
      execution :=
        if (updatedPlan.dget "execution").isDict then updatedPlan.dget "execution"
        else plan.execution
      stops := if (updatedPlan.dget "stops").isList then updatedPlan.dget "stops" else plan.stops
      summary :=
        if (updatedPlan.dget "summary").isDict then updatedPlan.dget "summary" else plan.summary
      final_recommendations :=
        if (updatedPlan.dget "final_recommendations").isList then
          updatedPlan.dget "final_recommendations"
        else plan.final_recommendations }
  let extra := pyOr plan.extra_data (.pdict [])
  if !extra.isDict then throw "TypeError: item assignment" else
  let newEdits := lastN 20 (aiEditsList plan ++ [auditRecord aiEdit agentResult now])
  pure
    { p with
      extra_data := extra.dset "ai_edits" (.plist newEdits)
      updated_at := now }

/-- `PATCH /plans/{plan_id}`. `agent` models `gpt_backend_client.edit_plan`
(`.error` = the call raised, mapped to 502). -/
def patch_plan (db : List PlanRow) (userId planId : String) (payload : PlanPatch)
    (agent : PyVal → Except String PyVal) (now : Nat) :
    Except HttpError PlanRow × List PlanRow :=
  match findPlan db planId userId with
  | none => (.error ⟨404, .pstr "Plan not found"⟩, db)
  | some plan =>
    match payload.ai_edit with
    | some aiEdit =>
      match agent (aiEditAgentPayload userId plan aiEdit) with
      | .error exc =>
        (.error ⟨502, .pstr ("Failed to reach agent for plan edit: " ++ exc)⟩, db)
      | .ok agentResult =>
        if !agentResult.isDict then
          (.error ⟨500, .pstr "Internal Server Error"⟩, db)
        else if !(agentResult.dget "success").truthy then
          (.error ⟨400, pyOr (agentResult.dget "error") (.pstr "Plan edit failed")⟩, db)
        else
          match applyAiEdit plan aiEdit agentResult now with
          | .error _ => (.error ⟨500, .pstr "Internal Server Error"⟩, db)
          | .ok row => (.ok row, replaceRow db planId userId row)
    | none =>
      let row : PlanRow :=
        { plan with
          name := match payload.name with | some s => .pstr s | none => plan.name
          description :=
            match payload.description with | some s => .pstr s | none => plan.description
          category := match payload.category with | some s => .pstr s | none => plan.category
          state := payload.state.getD plan.state
          vibes := payload.vibes.getD plan.vibes
          tags := payload.tags.getD plan.tags
          execution := payload.execution.getD plan.execution
          stops := payload.stops.getD plan.stops
          summary := payload.summary.getD plan.summary
          final_recommendations :=
            payload.final_recommendations.getD plan.final_recommendations
          extra_data := payload.metadata.getD plan.extra_data
          updated_at := now }
      (.ok row, replaceRow db planId userId row)

/-! ### `json.loads` / `json.dumps` (executable models with default settings) -/

/-- JSON whitespace. -/
def skipJWS (cs : List Char) : List Char :=
  cs.dropWhile (fun c => c == ' ' || c == '\t' || c == '\n' || c == '\r')

/-- Hex digit value. -/
def hexVal (c : Char) : Option Nat :=
  if '0' ≤ c ∧ c ≤ '9' then some (c.toNat - 48)
  else if 'a' ≤ c ∧ c ≤ 'f' then some (c.toNat - 87)
  else if 'A' ≤ c ∧ c ≤ 'F' then some (c.toNat - 55)
  else none

/-- Parse a JSON string body (after the opening quote). -/
def parseJStr : Nat → List Char → Option (String × List Char)
  | 0, _ => none
  | _, [] => none
  | fuel + 1, c :: rest =>
    if c = '"' then some ("", rest)
    else if c = '\\' then
      match rest with
      | [] => none
      | e :: rest2 =>
        let esc : Option (Char × List Char) :=
          if e = '"' then some ('"', rest2)
          else if e = '\\' then some ('\\', rest2)
          else if e = '/' then some ('/', rest2)
          else if e = 'b' then some (Char.ofNat 8, rest2)
          else if e = 'f' then some (Char.ofNat 12, rest2)
          else if e = 'n' then some ('\n', rest2)
          else if e = 'r' then some ('\r', rest2)
          else if e = 't' then some ('\t', rest2)
          else if e = 'u' then
            match rest2 with
            | h1 :: h2 :: h3 :: h4 :: rest3 =>
              match hexVal h1, hexVal h2, hexVal h3, hexVal h4 with
              | some a, some b, some c2, some d =>
                some (Char.ofNat (a * 4096 + b * 256 + c2 * 16 + d), rest3)
              | _, _, _, _ => none
            | _ => none
          else none
        match esc with
        | some (ch, rest') =>
          (parseJStr fuel rest').map (fun p => (String.mk (ch :: p.1.data), p.2))
        | none => none
    else (parseJStr fuel rest).map (fun p => (String.mk (c :: p.1.data), p.2))

/-- Parse a JSON number. -/
def parseJNum (cs : List Char) : Option (PyVal × List Char) :=
  let (neg, cs1) := match cs with
    | '-' :: rest => (true, rest)
    | _ => (false, cs)
  let intPart := cs1.takeWhile Char.isDigit
  let cs2 := cs1.dropWhile Char.isDigit
  if intPart.isEmpty then none
  else
    let iv : Nat := (digitsToNat intPart).getD 0
    let (fracDigits, cs3) := match cs2 with
      | '.' :: rest => (rest.takeWhile Char.isDigit, rest.dropWhile Char.isDigit)
      | _ => ([], cs2)
    match cs2 with
    | '.' :: _ =>
      if fracDigits.isEmpty then none
      else
        let fv : Nat := (digitsToNat fracDigits).getD 0
        let mant : ℚ := (iv : ℚ) + (fv : ℚ) / (10 : ℚ) ^ fracDigits.length
        let (expQ, cs4) := match cs3 with
          | 'e' :: rest => jExp rest
          | 'E' :: rest => jExp rest
          | _ => (some (1 : ℚ), cs3)
        match expQ with
        | some m => some (.pfloat ((if neg then -mant else mant) * m), cs4)
        | none => none
    | _ =>
      match cs3 with
      | 'e' :: rest =>
        match jExp rest with
        | (some m, cs4) => some (.pfloat ((if neg then -(iv : ℚ) else (iv : ℚ)) * m), cs4)
        | (none, _) => none
      | 'E' :: rest =>
        match jExp rest with
        | (some m, cs4) => some (.pfloat ((if neg then -(iv : ℚ) else (iv : ℚ)) * m), cs4)
        | (none, _) => none
      | _ => some (.pint (if neg then -(iv : Int) else (iv : Int)), cs3)
where
  /-- Exponent part after `e`/`E`: the factor `10^exp`. -/
  jExp (cs : List Char) : Option ℚ × List Char :=
    let (eneg, cs1) := match cs with
      | '-' :: rest => (true, rest)
      | '+' :: rest => (false, rest)
      | _ => (false, cs)
    let ds := cs1.takeWhile Char.isDigit
    let rest := cs1.dropWhile Char.isDigit
    if ds.isEmpty then (none, rest)
    else
      let e : Nat := (digitsToNat ds).getD 0
      ((some (if eneg then ((1 : ℚ) / (10 : ℚ) ^ e) else (10 : ℚ) ^ e)), rest)

mutual
/-- Parse one JSON value. -/
def parseJVal : Nat → List Char → Option (PyVal × List Char)
  | 0, _ => none
  | fuel + 1, cs =>
    match skipJWS cs with
    | [] => none
    | c :: rest =>
      if c = '"' then (parseJStr (fuel + 1) rest).map (fun p => (.pstr p.1, p.2))
      else if c = '\x7b' then parseJObj fuel (skipJWS rest) []
      else if c = '[' then parseJArr fuel (skipJWS rest) []
      else if c = 't' then
        match rest with
        | 'r' :: 'u' :: 'e' :: rest' => some (.pbool true, rest')
        | _ => none
      else if c = 'f' then
        match rest with
        | 'a' :: 'l' :: 's' :: 'e' :: rest' => some (.pbool false, rest')
        | _ => none
      else if c = 'n' then
        match rest with
        | 'u' :: 'l' :: 'l' :: rest' => some (.pnone, rest')
        | _ => none
      else parseJNum (c :: rest)

/-- Parse array elements (cursor just past `[` or past a comma). -/
def parseJArr : Nat → List Char → List PyVal → Option (PyVal × List Char)
  | 0, _, _ => none
  | _ + 1, [], _ => none
  | fuel + 1, c :: rest, acc =>
    if c = ']' ∧ acc.isEmpty then some (.plist [], rest)
    else
      match parseJVal fuel (c :: rest) with
      | none => none
      | some (v, rest1) =>
        match skipJWS rest1 with
        | ',' :: rest2 => parseJArr fuel (skipJWS rest2) (acc ++ [v])
        | ']' :: rest2 => some (.plist (acc ++ [v]), rest2)
        | _ => none

/-- Parse object members (cursor just past the opening brace or past a comma);
duplicate keys overwrite in place as in Python. -/
def parseJObj : Nat → List Char → List (String × PyVal) → Option (PyVal × List Char)
  | 0, _, _ => none
  | _ + 1, [], _ => none
  | fuel + 1, c :: rest, acc =>
    if c = '\x7d' ∧ acc.isEmpty then some (.pdict [], rest)
    else if c = '"' then
      match parseJStr fuel rest with
      | none => none
      | some (k, rest1) =>
        match skipJWS rest1 with
        | ':' :: rest2 =>
          match parseJVal fuel rest2 with
          | none => none
          | some (v, rest3) =>
            let acc' := PyVal.alistSet acc k v
            match skipJWS rest3 with
            | ',' :: rest4 => parseJObj fuel (skipJWS rest4) acc'
            | '\x7d' :: rest4 => some (.pdict acc', rest4)
            | _ => none
        | _ => none
    else none
end

/-- `json.loads`. -/
def json_loads (s : String) : Except String PyVal :=
  match parseJVal (s.data.length + 1) s.data with
  | some (v, rest) =>
    if (skipJWS rest).isEmpty then .ok v else .error "JSONDecodeError: Extra data"
  | none => .error "JSONDecodeError"

/-- Hex digit (lower case). -/
def hexDigit (n : Nat) : Char := Char.ofNat (if n < 10 then 48 + n else 87 + n)

/-- Four-digit hex rendering. -/
def hex4 (n : Nat) : String :=
  String.mk [hexDigit (n / 4096 % 16), hexDigit (n / 256 % 16),
             hexDigit (n / 16 % 16), hexDigit (n % 16)]

/-- String escaping of `json.dumps` with `ensure_ascii=True`. -/
def jEscapeChar (c : Char) : String :=
  if c = '"' then "\\\""
  else if c = '\\' then "\\\\"
  else if c = '\n' then "\\n"
  else if c = '\r' then "\\r"
  else if c = '\t' then "\\t"
  else if c.toNat = 8 then "\\b"
  else if c.toNat = 12 then "\\f"
  else if c.toNat < 32 then "\\u" ++ hex4 c.toNat
  else if c.toNat < 127 then String.mk [c]
  else if c.toNat ≤ 65535 then "\\u" ++ hex4 c.toNat
  else
    let v := c.toNat - 65536
    "\\u" ++ hex4 (55296 + v / 1024) ++ "\\u" ++ hex4 (56320 + v % 1024)

def jEscape (s : String) : String := strConcat (s.data.map jEscapeChar)

mutual
/-- `json.dumps` with the default separators `", "` and `": "`. -/
def json_dumps : PyVal → String
  | .pnone => "null"
  | .pbool b => if b then "true" else "false"
  | .pint n => intDec n
  | .pfloat q => ratRepr q
  | .pstr s => "\"" ++ jEscape s ++ "\""
  | .plist xs => "[" ++ jDumpList xs ++ "]"
  | .pdict kvs => "\x7b" ++ jDumpKvs kvs ++ "\x7d"

def jDumpList : List PyVal → String
  | [] => ""
  | [x] => json_dumps x
  | x :: rest => json_dumps x ++ ", " ++ jDumpList rest

def jDumpKvs : List (String × PyVal) → String
  | [] => ""
  | [(k, v)] => "\"" ++ jEscape k ++ "\": " ++ json_dumps v
  | (k, v) :: rest => "\"" ++ jEscape k ++ "\": " ++ json_dumps v ++ ", " ++ jDumpKvs rest
end

/-! ### `stream_chat_sse` (the SSE relay loop of `app/services/gpt_backend_client.py`) -/

/-- The `end`-event payload rewrite: normalize embedded `places` and `plan`.
Any failure inside is caught by the relay, which then forwards the original
line unchanged. -/
def transformEnd (d : PyVal) : Except String PyVal :=
  match d with
  | .pdict _ => do
    let d1 ←
      if (d.dget "places").truthy then
        (normalize_places (d.dget "places")).map (fun ps => d.dset "places" ps)
      else pure d
    if (d1.dget "plan").truthy then
      (normalize_plan (d1.dget "plan")).map (fun p => d1.dset "plan" p)
    else pure d1
  | _ => .error "AttributeError: get"

/-- One iteration of the relay loop: current tracked event type and one input
line (without terminator), yielding the new state and the emitted chunks. -/
def relayStep (currentEvent : Option String) (line : String) :
    Option String × List String :=
  if line = "" then (currentEvent, ["\n"])
  else if strStarts line "event:" then
    (some (strTrim (afterFirst ':' line)), [line ++ "\n"])
  else if strStarts line "data:" then
    let out :=
      if currentEvent = some "end" then
        match json_loads (strTrim (strDrop line 5)) with
        | .ok d =>
          match transformEnd d with
          | .ok d' => ["data: " ++ json_dumps d' ++ "\n"]
          | .error _ => [line ++ "\n"]
        | .error _ => [line ++ "\n"]
      else [line ++ "\n"]
    (none, out)
  else (currentEvent, [line ++ "\n"])

/-- The relay over a whole line stream. -/
def relayLines (st : Option String) : List String → List String
  | [] => []
  | l :: rest =>
    let (st', out) := relayStep st l
    out ++ relayLines st' rest

/-- `stream_chat_sse` as a function of the upstream body's lines. -/
def stream_chat_sse (lines : List String) : List String := relayLines none lines

/-! ### Helper definitions for the verification statements -/

/-- Iterated successful `ai_edit` application to one row (clock ticks per step). -/
def applyAiEditIter (aiEdit agentResult : PyVal) : Nat → PlanRow → Except String PlanRow
  | 0, r => .ok r
  | n + 1, r => do
    let r' ← applyAiEdit r aiEdit agentResult n
    applyAiEditIter aiEdit agentResult n r'

/-- The `priceLevel` field of a successfully normalized place. -/
def priceLevelOf (raw : PyVal) : Option PyVal :=
  match normalize_place raw with
  | .ok (some p) => p.lookup "priceLevel"
  | _ => none

/-- The second-pass transformation of the normalized fields: what feeding a
normalized place back into `normalize_place` produces. -/
def secondPass (f : NormFields) : NormFields :=
  { f with
    idV := if f.idV.isNone then f.placeIdV else f.idV
    descriptionV := .pstr ""
    ratingV :=
      match f.ratingV with
      | .pfloat q => if q = 0 then .pint 0 else .pfloat q
      | other => other
    imagesV :=
      if (f.imagesV.filter keepImg).isEmpty then [.pstr IMAGE_PLACEHOLDER]
      else f.imagesV.filter keepImg
    currentStatusV := optVal f.currentStatusV
    phoneV := optVal f.phoneV
    websiteV := optVal f.websiteV
    emailV := optVal f.emailV
    openingHoursV := .pnone
    weeklyHoursV := .pnone
    amenitiesV := optVal f.amenitiesV
    featuresV := optVal f.featuresV
    reviewsV := optVal f.reviewsV
    socialMediaV := optVal f.socialMediaV }

/-- The invariants every first-pass `NormFields` satisfies, as needed to run
the second pass. -/
def NormWF (f : NormFields) : Prop :=
  f.nameV.truthy = true ∧
  f.categoryV.truthy = true ∧
  (f.idV = .pnone ∨ ∃ s, f.idV = .pstr s ∧ s ≠ "") ∧
  (f.placeIdV = .pnone ∨ ∃ s, f.placeIdV = .pstr s ∧ s ≠ "") ∧
  (f.idV ≠ .pnone → f.placeIdV ≠ .pnone) ∧
  ((∃ n : Int, f.priceLevelV = .pint n ∧ 1 ≤ n ∧ n ≤ 4) ∨ f.priceLevelV = .pbool true) ∧
  (f.ratingV = .pint 0 ∨ ∃ q : ℚ, f.ratingV = .pfloat q) ∧
  (∃ n : Int, f.reviewCountV = .pint n) ∧
  (f.addressV.truthy = true ∨ f.addressV = .pstr "") ∧
  (f.neighborhoodV = .pnone ∨ f.neighborhoodV.truthy = true) ∧
  (f.neighborhoodV = .pnone →
    ∃ r, extractNeighborhood f.addressV = .ok r ∧ r.truthy = false) ∧
  f.crowdLevelV.truthy = true ∧
  f.musicTypeV.truthy = true ∧
  f.imagesV ≠ [] ∧
  syncLocation f.locationV = .ok f.locationV

/-- The well-formed close-time reading of one `periods` entry: a dict whose
`close` is a dict carrying an integer `time`. -/
def periodCloseTime (p : PyVal) : Option Int :=
  match p with
  | .pdict _ =>
    match p.lookup "close" with
    | some (.pdict kvs) =>
      match (PyVal.pdict kvs).dget "time" with
      | .pint n => some n
      | _ => none
    | _ => none
  | _ => none

/-- A place payload whose opening hours contain a period without a close time
(typical for venues Google marks as open-ended). -/
def placeNoClose : PyVal :=
  .pdict [("types", .plist [.pstr "bar"]),
          ("opening_hours", .pdict [("periods",
             .plist [.pdict [("open", .pdict [("time", .pstr "1000")])]])])]

/-- A sample stored plan row (used to instantiate the router statements). -/
def sampleRow : PlanRow :=
  { id := "p1", user_id := "alice", name := .pstr "Evening"
    description := .pnone, category := .pnone, state := "saved"
    vibes := .plist [.pstr "chill"], tags := .plist [.pstr "jazz"]
    execution := .pdict [("city", .pstr "Zaragoza")]
    stops := .plist [.pdict [("name", .pstr "Bar X")]]
    summary := .pdict [("total_duration", .pstr "2h")]
    final_recommendations := .plist [], extra_data := .pdict []
    executed := 0, execution_date := none, rating_post_execution := none
    feedback := none, created_at := 0, updated_at := 0
    vibe := none, total_duration := none, total_distance := none }

/-- A sample full-replace payload (used to instantiate the router statements). -/
def samplePut : PlanCreate := { name := "Replaced" }

/-- A sample agent call that always reports success with no updated plan. -/
def sampleAgent : PyVal → Except String PyVal :=
  fun _ => .ok (.pdict [("success", .pbool true), ("summary", .pstr "done")])

/-- A concrete SSE `data:` line whose JSON carries a two-item `places` array,
the second item lacking a `name`. -/
def endLineC3 : String :=
  "data: \x7b\"places\": [\x7b\"name\": \"Bar X\"\x7d, \x7b\"rating\": 4\x7d]\x7d"

/-- The parse of `endLineC3`'s payload. -/
def dRawC3 : PyVal :=
  .pdict [("places", .plist [.pdict [("name", .pstr "Bar X")],
                             .pdict [("rating", .pint 4)]])]

/-- The re-normalized payload of `endLineC3`: the nameless item is dropped and
the named one expanded to the normalized shape. -/
def dNormC3 : PyVal :=
  .pdict [("places", .plist [.pdict [("name", .pstr "Bar X"),
    ("category", .pstr "place"), ("description", .pstr ""), ("vibe", .plist []),
    ("crowdLevel", .pstr "moderate"), ("musicType", .pstr "ambient"),
    ("priceLevel", .pint 2), ("rating", .pint 0), ("reviewCount", .pint 0),
    ("address", .pstr ""), ("openNow", .pbool true),
    ("images", .plist [.pstr IMAGE_PLACEHOLDER])]])]

/-- The normalized fields of the two-key payload `\x7b"name": "X", price-key: v\x7d`:
every field is forced except `priceLevel`. -/
def mkPriceFields (pl : PyVal) : NormFields :=
  { idV := .pnone, placeIdV := .pnone, nameV := .pstr "X", categoryV := .pstr "place",
    descriptionV := .pstr "", vibeV := [], crowdLevelV := .pstr "moderate",
    musicTypeV := .pstr "ambient", priceLevelV := pl, ratingV := .pint 0,
    reviewCountV := .pint 0, addressV := .pstr "", neighborhoodV := .pnone,
    distanceV := .pnone, openNowV := true, imagesV := [.pstr IMAGE_PLACEHOLDER],
    locationV := .pnone, currentStatusV := .pnone, phoneV := .pnone, websiteV := .pnone,
    emailV := .pnone, openingHoursV := .pnone, weeklyHoursV := .pnone, amenitiesV := .pnone,
    featuresV := .pnone, reviewsV := .pnone, socialMediaV := .pnone }

/-- The C4 counterexample input: a minimal place whose description arrives via
`summary`. -/
def rawC4 : PyVal := .pdict [("name", .pstr "X"), ("summary", .pstr "Great place")]

/-- The first-pass fields of `rawC4`. -/
def fC4 : NormFields := { mkPriceFields (.pint 2) with descriptionV := .pstr "Great place" }

/-- The first-pass output of `normalize_place rawC4`. -/
def firstC4 : PyVal :=
  .pdict [("name", .pstr "X"), ("category", .pstr "place"),
    ("description", .pstr "Great place"), ("vibe", .plist []),
    ("crowdLevel", .pstr "moderate"), ("musicType", .pstr "ambient"),
    ("priceLevel", .pint 2), ("rating", .pint 0), ("reviewCount", .pint 0),
    ("address", .pstr ""), ("openNow", .pbool true),
    ("images", .plist [.pstr IMAGE_PLACEHOLDER])]

/-- The second-pass output on `firstC4`: the same object except that
`description` has been reset to the empty string. -/
def secondC4 : PyVal :=
  .pdict [("name", .pstr "X"), ("category", .pstr "place"),
    ("description", .pstr ""), ("vibe", .plist []),
    ("crowdLevel", .pstr "moderate"), ("musicType", .pstr "ambient"),
    ("priceLevel", .pint 2), ("rating", .pint 0), ("reviewCount", .pint 0),
    ("address", .pstr ""), ("openNow", .pbool true),
    ("images", .plist [.pstr IMAGE_PLACEHOLDER])]

/-! ## Shared lemmas -/

theorem findPlan_none_of_cross {db : List PlanRow} {row : PlanRow} {userB : String}
    (huniq : ∀ r ∈ db, r.id = row.id → r = row) (hne : userB ≠ row.user_id) :
    findPlan db row.id userB = none := by
  apply List.find?_eq_none.mpr
  intro r hr hpred
  simp only [Bool.and_eq_true, decide_eq_true_eq] at hpred
  exact hne ((huniq r hr hpred.1) ▸ hpred.2).symm

theorem findPlan_self {db : List PlanRow} {row : PlanRow}
    (hmem : row ∈ db) (huniq : ∀ r ∈ db, r.id = row.id → r = row) :
    findPlan db row.id row.user_id = some row := by
  induction db with
  | nil => cases hmem
  | cons a t ih =>
    by_cases hp : (a.id = row.id && a.user_id = row.user_id) = true
    · have hp' := hp
      simp only [Bool.and_eq_true, decide_eq_true_eq] at hp'
      have ha : a = row := huniq a (List.mem_cons_self a t) hp'.1
      simp [findPlan, List.find?, hp, ha]
    · have hat : row ∈ t := by
        rcases List.mem_cons.mp hmem with h | h
        · exact absurd (by simp [h.symm]) hp
        · exact h
      have := ih hat (fun r hr => huniq r (List.mem_cons_of_mem a hr))
      simpa [findPlan, List.find?, hp] using this

theorem exceptBind_error {α β : Type} (e : String) (f : α → Except String β) :
    (Except.error e >>= f) = Except.error e := rfl

theorem exceptBind_okv {α β : Type} (a : α) (f : α → Except String β) :
    (Except.ok a >>= f) = f a := rfl

theorem exceptBind_pure {α β : Type} (a : α) (f : α → Except String β) :
    ((pure a : Except String α) >>= f) = f a := rfl

theorem alistSet_ne_nil (kvs : List (String × PyVal)) (k : String) (v : PyVal) :
    PyVal.alistSet kvs k v ≠ [] := by
  cases kvs with
  | nil => simp [PyVal.alistSet]
  | cons a t =>
    by_cases h : a.1 = k <;> simp [PyVal.alistSet, h]

theorem dget_alistSet_self (kvs : List (String × PyVal)) (k : String) (v : PyVal) :
    (PyVal.pdict (PyVal.alistSet kvs k v)).dget k = v := by
  induction kvs with
  | nil => simp [PyVal.alistSet, PyVal.dget, List.find?]
  | cons a t ih =>
    by_cases h : a.1 = k
    · simp [PyVal.alistSet, h, PyVal.dget, List.find?]
    · simpa [PyVal.alistSet, h, PyVal.dget, List.find?] using ih

theorem length_lastN (n : Nat) (l : List PyVal) : (lastN n l).length = min l.length n := by
  simp [lastN]
  omega

/-- What one successful `ai_edit` row update does to `metadata.ai_edits`. -/
theorem applyAiEdit_spec (plan : PlanRow) (e res : PyVal) (now : Nat)
    (hupd : (pyOr (res.dget "updated_plan") (.pdict [])).isDict = true)
    (hextra : (pyOr plan.extra_data (.pdict [])).isDict = true) :
    ∃ row', applyAiEdit plan e res now = .ok row' ∧
      aiEditsList row' = lastN 20 (aiEditsList plan ++ [auditRecord e res now]) ∧
      (pyOr row'.extra_data (.pdict [])).isDict = true := by
  obtain ⟨kvs, hkvs⟩ : ∃ kvs, pyOr plan.extra_data (.pdict []) = .pdict kvs := by
    cases h : pyOr plan.extra_data (.pdict []) <;> simp_all [PyVal.isDict]
  have hrun : ∃ row', applyAiEdit plan e res now = .ok row' ∧
      row'.extra_data = (PyVal.pdict kvs).dset "ai_edits"
        (.plist (lastN 20 (aiEditsList plan ++ [auditRecord e res now]))) := by
    simp only [applyAiEdit, hkvs]
    rw [hupd]
    simp only [PyVal.isDict, Bool.not_true, Bool.false_eq_true, if_false]
    exact ⟨_, rfl, rfl⟩
  obtain ⟨row', hrow, hex⟩ := hrun
  set L := lastN 20 (aiEditsList plan ++ [auditRecord e res now]) with hldef
  have hne := alistSet_ne_nil kvs "ai_edits" (.plist L)
  have hget := dget_alistSet_self kvs "ai_edits" (.plist L)
  refine ⟨row', hrow, ?_, ?_⟩
  · show aiEditsList row' = L
    have hie : (PyVal.alistSet kvs "ai_edits" (.plist L)).isEmpty = false := by
      simpa [List.isEmpty_iff] using hne
    simp only [aiEditsList, hex, PyVal.dset, pyOr, PyVal.truthy, hie, Bool.not_false,
      if_true]
    rw [hget]
    cases L with
    | nil => simp
    | cons x xs => simp
  · simp only [hex, PyVal.dset]
    simp [pyOr, PyVal.truthy, PyVal.isDict, hne]

/-- On the two-key payload with snake-case `price_level`, `normalize_place`
reduces to the forced record with the clamped price. -/
theorem priceLevelOf_snake (v : PyVal) :
    priceLevelOf (.pdict [("name", .pstr "X"), ("price_level", v)]) =
      (emitNorm (mkPriceFields (clampPrice (pyOr v (.pint 2))))).lookup "priceLevel" := rfl

/-- Same, for the camel-case `priceLevel` key. -/
theorem priceLevelOf_camel (v : PyVal) :
    priceLevelOf (.pdict [("name", .pstr "X"), ("priceLevel", v)]) =
      (emitNorm (mkPriceFields (clampPrice (pyOr v (.pint 2))))).lookup "priceLevel" := rfl

/-- Reading `priceLevel` back out of the emitted dict. -/
theorem emit_price_pint (n : Int) :
    (emitNorm (mkPriceFields (.pint n))).lookup "priceLevel" = some (.pint n) := rfl

/-- A falsy price value falls through `or` to the default 2. -/
theorem clamp_untruthy (v : PyVal) (hv : v.truthy = false) :
    clampPrice (pyOr v (.pint 2)) = .pint 2 := by
  unfold pyOr; rw [hv]; rfl

/-- A truthy but non-integer price value fails `isinstance(price, int)` and
is replaced by 2. -/
theorem clamp_truthy_nonint (v : PyVal) (hv : v.truthy = true) (hi : v.isInt = false) :
    clampPrice (pyOr v (.pint 2)) = .pint 2 := by
  unfold pyOr; rw [hv]
  cases v with
  | pint n => simp [PyVal.isInt] at hi
  | pbool b => simp [PyVal.isInt] at hi
  | pnone => rfl
  | pfloat q => rfl
  | pstr s => rfl
  | plist xs => rfl
  | pdict kvs => rfl

theorem isNone_eq_true_iff (v : PyVal) : v.isNone = true ↔ v = .pnone := by
  cases v <;> simp [PyVal.isNone]

theorem dget_filter_cons_ne (k k1 : String) (v1 : PyVal) (l : List (String × PyVal))
    (h : k1 ≠ k) :
    PyVal.dget (.pdict (((k1, v1) :: l).filter (fun kv => !kv.2.isNone))) k =
      PyVal.dget (.pdict (l.filter (fun kv => !kv.2.isNone))) k := by
  rcases hp : (!v1.isNone) with _ | _
  · rw [List.filter_cons, if_neg (by simp [hp])]
  · rw [List.filter_cons, if_pos (by simp [hp])]
    simp only [PyVal.dget]
    rw [List.find?_cons_of_neg _ (by simp [h])]

theorem dget_filter_cons_self (k : String) (v : PyVal) (l : List (String × PyVal))
    (hrest : ∀ kv ∈ l, kv.1 ≠ k) :
    PyVal.dget (.pdict (((k, v) :: l).filter (fun kv => !kv.2.isNone))) k = v := by
  rcases hn : v.isNone with _ | _
  · rw [List.filter_cons, if_pos (by simp [hn])]
    simp only [PyVal.dget]
    rw [List.find?_cons_of_pos _ (by simp)]
  · have hv : v = .pnone := (isNone_eq_true_iff v).mp hn
    subst hv
    rw [List.filter_cons, if_neg (by simp [PyVal.isNone])]
    simp only [PyVal.dget]
    have hnone : (l.filter (fun kv => !kv.2.isNone)).find? (fun kv => kv.1 = k) = none := by
      apply List.find?_eq_none.mpr
      intro x hx
      have hne := hrest x (List.mem_filter.mp hx).1
      simp [hne]
    rw [hnone]

theorem dget_emit_id (f : NormFields) : (emitNorm f).dget "id" = f.idV := by
  unfold emitNorm
  rw [dget_filter_cons_self _ _ _ (by simp)]

theorem dget_emit_place_id (f : NormFields) : (emitNorm f).dget "place_id" = f.placeIdV := by
  unfold emitNorm
  rw [dget_filter_cons_ne _ _ _ _ (by decide),
    dget_filter_cons_self _ _ _ (by simp)]

theorem dget_emit_name (f : NormFields) : (emitNorm f).dget "name" = f.nameV := by
  unfold emitNorm
  rw [dget_filter_cons_ne _ _ _ _ (by decide),
    dget_filter_cons_ne _ _ _ _ (by decide),
    dget_filter_cons_self _ _ _ (by simp)]

theorem dget_emit_category (f : NormFields) : (emitNorm f).dget "category" = f.categoryV := by
  unfold emitNorm
  rw [dget_filter_cons_ne _ _ _ _ (by decide),
    dget_filter_cons_ne _ _ _ _ (by decide),
    dget_filter_cons_ne _ _ _ _ (by decide),
    dget_filter_cons_self _ _ _ (by simp)]

theorem dget_emit_description (f : NormFields) : (emitNorm f).dget "description" = f.descriptionV := by
  unfold emitNorm
  rw [dget_filter_cons_ne _ _ _ _ (by decide),
    dget_filter_cons_ne _ _ _ _ (by decide),
    dget_filter_cons_ne _ _ _ _ (by decide),
    dget_filter_cons_ne _ _ _ _ (by decide),
    dget_filter_cons_self _ _ _ (by simp)]

theorem dget_emit_vibe (f : NormFields) : (emitNorm f).dget "vibe" = .plist f.vibeV := by
  unfold emitNorm
  rw [dget_filter_cons_ne _ _ _ _ (by decide),
    dget_filter_cons_ne _ _ _ _ (by decide),
    dget_filter_cons_ne _ _ _ _ (by decide),
    dget_filter_cons_ne _ _ _ _ (by decide),
    dget_filter_cons_ne _ _ _ _ (by decide),
    dget_filter_cons_self _ _ _ (by simp)]

theorem dget_emit_crowdLevel (f : NormFields) : (emitNorm f).dget "crowdLevel" = f.crowdLevelV := by
  unfold emitNorm
  rw [dget_filter_cons_ne _ _ _ _ (by decide),
    dget_filter_cons_ne _ _ _ _ (by decide),
    dget_filter_cons_ne _ _ _ _ (by decide),
    dget_filter_cons_ne _ _ _ _ (by decide),
    dget_filter_cons_ne _ _ _ _ (by decide),
    dget_filter_cons_ne _ _ _ _ (by decide),
    dget_filter_cons_self _ _ _ (by simp)]

theorem dget_emit_musicType (f : NormFields) : (emitNorm f).dget "musicType" = f.musicTypeV := by
  unfold emitNorm
  rw [dget_filter_cons_ne _ _ _ _ (by decide),
    dget_filter_cons_ne _ _ _ _ (by decide),
    dget_filter_cons_ne _ _ _ _ (by decide),
    dget_filter_cons_ne _ _ _ _ (by decide),
    dget_filter_cons_ne _ _ _ _ (by decide),
    dget_filter_cons_ne _ _ _ _ (by decide),
    dget_filter_cons_ne _ _ _ _ (by decide),
    dget_filter_cons_self _ _ _ (by simp)]

theorem dget_emit_priceLevel (f : NormFields) : (emitNorm f).dget "priceLevel" = f.priceLevelV := by
  unfold emitNorm
  rw [dget_filter_cons_ne _ _ _ _ (by decide),
    dget_filter_cons_ne _ _ _ _ (by decide),
    dget_filter_cons_ne _ _ _ _ (by decide),
    dget_filter_cons_ne _ _ _ _ (by decide),
    dget_filter_cons_ne _ _ _ _ (by decide),
    dget_filter_cons_ne _ _ _ _ (by decide),
    dget_filter_cons_ne _ _ _ _ (by decide),
    dget_filter_cons_ne _ _ _ _ (by decide),
    dget_filter_cons_self _ _ _ (by simp)]

theorem dget_emit_rating (f : NormFields) : (emitNorm f).dget "rating" = f.ratingV := by
  unfold emitNorm
  rw [dget_filter_cons_ne _ _ _ _ (by decide),
    dget_filter_cons_ne _ _ _ _ (by decide),
    dget_filter_cons_ne _ _ _ _ (by decide),
    dget_filter_cons_ne _ _ _ _ (by decide),
    dget_filter_cons_ne _ _ _ _ (by decide),
    dget_filter_cons_ne _ _ _ _ (by decide),
    dget_filter_cons_ne _ _ _ _ (by decide),
    dget_filter_cons_ne _ _ _ _ (by decide),
    dget_filter_cons_ne _ _ _ _ (by decide),
    dget_filter_cons_self _ _ _ (by simp)]

theorem dget_emit_reviewCount (f : NormFields) : (emitNorm f).dget "reviewCount" = f.reviewCountV := by
  unfold emitNorm
  rw [dget_filter_cons_ne _ _ _ _ (by decide),
    dget_filter_cons_ne _ _ _ _ (by decide),
    dget_filter_cons_ne _ _ _ _ (by decide),
    dget_filter_cons_ne _ _ _ _ (by decide),
    dget_filter_cons_ne _ _ _ _ (by decide),
    dget_filter_cons_ne _ _ _ _ (by decide),
    dget_filter_cons_ne _ _ _ _ (by decide),
    dget_filter_cons_ne _ _ _ _ (by decide),
    dget_filter_cons_ne _ _ _ _ (by decide),
    dget_filter_cons_ne _ _ _ _ (by decide),
    dget_filter_cons_self _ _ _ (by simp)]

theorem dget_emit_address (f : NormFields) : (emitNorm f).dget "address" = f.addressV := by
  unfold emitNorm
  rw [dget_filter_cons_ne _ _ _ _ (by decide),
    dget_filter_cons_ne _ _ _ _ (by decide),
    dget_filter_cons_ne _ _ _ _ (by decide),
    dget_filter_cons_ne _ _ _ _ (by decide),
    dget_filter_cons_ne _ _ _ _ (by decide),
    dget_filter_cons_ne _ _ _ _ (by decide),
    dget_filter_cons_ne _ _ _ _ (by decide),
    dget_filter_cons_ne _ _ _ _ (by decide),
    dget_filter_cons_ne _ _ _ _ (by decide),
    dget_filter_cons_ne _ _ _ _ (by decide),
    dget_filter_cons_ne _ _ _ _ (by decide),
    dget_filter_cons_self _ _ _ (by simp)]

theorem dget_emit_neighborhood (f : NormFields) : (emitNorm f).dget "neighborhood" = f.neighborhoodV := by
  unfold emitNorm
  rw [dget_filter_cons_ne _ _ _ _ (by decide),
    dget_filter_cons_ne _ _ _ _ (by decide),
    dget_filter_cons_ne _ _ _ _ (by decide),
    dget_filter_cons_ne _ _ _ _ (by decide),
    dget_filter_cons_ne _ _ _ _ (by decide),
    dget_filter_cons_ne _ _ _ _ (by decide),
    dget_filter_cons_ne _ _ _ _ (by decide),
    dget_filter_cons_ne _ _ _ _ (by decide),
    dget_filter_cons_ne _ _ _ _ (by decide),
    dget_filter_cons_ne _ _ _ _ (by decide),
    dget_filter_cons_ne _ _ _ _ (by decide),
    dget_filter_cons_ne _ _ _ _ (by decide),
    dget_filter_cons_self _ _ _ (by simp)]

theorem dget_emit_distance (f : NormFields) : (emitNorm f).dget "distance" = f.distanceV := by
  unfold emitNorm
  rw [dget_filter_cons_ne _ _ _ _ (by decide),
    dget_filter_cons_ne _ _ _ _ (by decide),
    dget_filter_cons_ne _ _ _ _ (by decide),
    dget_filter_cons_ne _ _ _ _ (by decide),
    dget_filter_cons_ne _ _ _ _ (by decide),
    dget_filter_cons_ne _ _ _ _ (by decide),
    dget_filter_cons_ne _ _ _ _ (by decide),
    dget_filter_cons_ne _ _ _ _ (by decide),
    dget_filter_cons_ne _ _ _ _ (by decide),
    dget_filter_cons_ne _ _ _ _ (by decide),
    dget_filter_cons_ne _ _ _ _ (by decide),
    dget_filter_cons_ne _ _ _ _ (by decide),
    dget_filter_cons_ne _ _ _ _ (by decide),
    dget_filter_cons_self _ _ _ (by simp)]

theorem dget_emit_openNow (f : NormFields) : (emitNorm f).dget "openNow" = .pbool f.openNowV := by
  unfold emitNorm
  rw [dget_filter_cons_ne _ _ _ _ (by decide),
    dget_filter_cons_ne _ _ _ _ (by decide),
    dget_filter_cons_ne _ _ _ _ (by decide),
    dget_filter_cons_ne _ _ _ _ (by decide),
    dget_filter_cons_ne _ _ _ _ (by decide),
    dget_filter_cons_ne _ _ _ _ (by decide),
    dget_filter_cons_ne _ _ _ _ (by decide),
    dget_filter_cons_ne _ _ _ _ (by decide),
    dget_filter_cons_ne _ _ _ _ (by decide),
    dget_filter_cons_ne _ _ _ _ (by decide),
    dget_filter_cons_ne _ _ _ _ (by decide),
    dget_filter_cons_ne _ _ _ _ (by decide),
    dget_filter_cons_ne _ _ _ _ (by decide),
    dget_filter_cons_ne _ _ _ _ (by decide),
    dget_filter_cons_self _ _ _ (by simp)]

theorem dget_emit_images (f : NormFields) : (emitNorm f).dget "images" = .plist f.imagesV := by
  unfold emitNorm
  rw [dget_filter_cons_ne _ _ _ _ (by decide),
    dget_filter_cons_ne _ _ _ _ (by decide),
    dget_filter_cons_ne _ _ _ _ (by decide),
    dget_filter_cons_ne _ _ _ _ (by decide),
    dget_filter_cons_ne _ _ _ _ (by decide),
    dget_filter_cons_ne _ _ _ _ (by decide),
    dget_filter_cons_ne _ _ _ _ (by decide),
    dget_filter_cons_ne _ _ _ _ (by decide),
    dget_filter_cons_ne _ _ _ _ (by decide),
    dget_filter_cons_ne _ _ _ _ (by decide),
    dget_filter_cons_ne _ _ _ _ (by decide),
    dget_filter_cons_ne _ _ _ _ (by decide),
    dget_filter_cons_ne _ _ _ _ (by decide),
    dget_filter_cons_ne _ _ _ _ (by decide),
    dget_filter_cons_ne _ _ _ _ (by decide),
    dget_filter_cons_self _ _ _ (by simp)]

theorem dget_emit_location (f : NormFields) : (emitNorm f).dget "location" = f.locationV := by
  unfold emitNorm
  rw [dget_filter_cons_ne _ _ _ _ (by decide),
    dget_filter_cons_ne _ _ _ _ (by decide),
    dget_filter_cons_ne _ _ _ _ (by decide),
    dget_filter_cons_ne _ _ _ _ (by decide),
    dget_filter_cons_ne _ _ _ _ (by decide),
    dget_filter_cons_ne _ _ _ _ (by decide),
    dget_filter_cons_ne _ _ _ _ (by decide),
    dget_filter_cons_ne _ _ _ _ (by decide),
    dget_filter_cons_ne _ _ _ _ (by decide),
    dget_filter_cons_ne _ _ _ _ (by decide),
    dget_filter_cons_ne _ _ _ _ (by decide),
    dget_filter_cons_ne _ _ _ _ (by decide),
    dget_filter_cons_ne _ _ _ _ (by decide),
    dget_filter_cons_ne _ _ _ _ (by decide),
    dget_filter_cons_ne _ _ _ _ (by decide),
    dget_filter_cons_ne _ _ _ _ (by decide),
    dget_filter_cons_self _ _ _ (by simp)]

theorem dget_emit_currentStatus (f : NormFields) : (emitNorm f).dget "currentStatus" = optVal f.currentStatusV := by
  unfold emitNorm
  rw [dget_filter_cons_ne _ _ _ _ (by decide),
    dget_filter_cons_ne _ _ _ _ (by decide),
    dget_filter_cons_ne _ _ _ _ (by decide),
    dget_filter_cons_ne _ _ _ _ (by decide),
    dget_filter_cons_ne _ _ _ _ (by decide),
    dget_filter_cons_ne _ _ _ _ (by decide),
    dget_filter_cons_ne _ _ _ _ (by decide),
    dget_filter_cons_ne _ _ _ _ (by decide),
    dget_filter_cons_ne _ _ _ _ (by decide),
    dget_filter_cons_ne _ _ _ _ (by decide),
    dget_filter_cons_ne _ _ _ _ (by decide),
    dget_filter_cons_ne _ _ _ _ (by decide),
    dget_filter_cons_ne _ _ _ _ (by decide),
    dget_filter_cons_ne _ _ _ _ (by decide),
    dget_filter_cons_ne _ _ _ _ (by decide),
    dget_filter_cons_ne _ _ _ _ (by decide),
    dget_filter_cons_ne _ _ _ _ (by decide),
    dget_filter_cons_self _ _ _ (by simp)]

theorem dget_emit_phone (f : NormFields) : (emitNorm f).dget "phone" = optVal f.phoneV := by
  unfold emitNorm
  rw [dget_filter_cons_ne _ _ _ _ (by decide),
    dget_filter_cons_ne _ _ _ _ (by decide),
    dget_filter_cons_ne _ _ _ _ (by decide),
    dget_filter_cons_ne _ _ _ _ (by decide),
    dget_filter_cons_ne _ _ _ _ (by decide),
    dget_filter_cons_ne _ _ _ _ (by decide),
    dget_filter_cons_ne _ _ _ _ (by decide),
    dget_filter_cons_ne _ _ _ _ (by decide),
    dget_filter_cons_ne _ _ _ _ (by decide),
    dget_filter_cons_ne _ _ _ _ (by decide),
    dget_filter_cons_ne _ _ _ _ (by decide),
    dget_filter_cons_ne _ _ _ _ (by decide),
    dget_filter_cons_ne _ _ _ _ (by decide),
    dget_filter_cons_ne _ _ _ _ (by decide),
    dget_filter_cons_ne _ _ _ _ (by decide),
    dget_filter_cons_ne _ _ _ _ (by decide),
    dget_filter_cons_ne _ _ _ _ (by decide),
    dget_filter_cons_ne _ _ _ _ (by decide),
    dget_filter_cons_self _ _ _ (by simp)]

theorem dget_emit_website (f : NormFields) : (emitNorm f).dget "website" = optVal f.websiteV := by
  unfold emitNorm
  rw [dget_filter_cons_ne _ _ _ _ (by decide),
    dget_filter_cons_ne _ _ _ _ (by decide),
    dget_filter_cons_ne _ _ _ _ (by decide),
    dget_filter_cons_ne _ _ _ _ (by decide),
    dget_filter_cons_ne _ _ _ _ (by decide),
    dget_filter_cons_ne _ _ _ _ (by decide),
    dget_filter_cons_ne _ _ _ _ (by decide),
    dget_filter_cons_ne _ _ _ _ (by decide),
    dget_filter_cons_ne _ _ _ _ (by decide),
    dget_filter_cons_ne _ _ _ _ (by decide),
    dget_filter_cons_ne _ _ _ _ (by decide),
    dget_filter_cons_ne _ _ _ _ (by decide),
    dget_filter_cons_ne _ _ _ _ (by decide),
    dget_filter_cons_ne _ _ _ _ (by decide),
    dget_filter_cons_ne _ _ _ _ (by decide),
    dget_filter_cons_ne _ _ _ _ (by decide),
    dget_filter_cons_ne _ _ _ _ (by decide),
    dget_filter_cons_ne _ _ _ _ (by decide),
    dget_filter_cons_ne _ _ _ _ (by decide),
    dget_filter_cons_self _ _ _ (by simp)]

theorem dget_emit_email (f : NormFields) : (emitNorm f).dget "email" = optVal f.emailV := by
  unfold emitNorm
  rw [dget_filter_cons_ne _ _ _ _ (by decide),
    dget_filter_cons_ne _ _ _ _ (by decide),
    dget_filter_cons_ne _ _ _ _ (by decide),
    dget_filter_cons_ne _ _ _ _ (by decide),
    dget_filter_cons_ne _ _ _ _ (by decide),
    dget_filter_cons_ne _ _ _ _ (by decide),
    dget_filter_cons_ne _ _ _ _ (by decide),
    dget_filter_cons_ne _ _ _ _ (by decide),
    dget_filter_cons_ne _ _ _ _ (by decide),
    dget_filter_cons_ne _ _ _ _ (by decide),
    dget_filter_cons_ne _ _ _ _ (by decide),
    dget_filter_cons_ne _ _ _ _ (by decide),
    dget_filter_cons_ne _ _ _ _ (by decide),
    dget_filter_cons_ne _ _ _ _ (by decide),
    dget_filter_cons_ne _ _ _ _ (by decide),
    dget_filter_cons_ne _ _ _ _ (by decide),
    dget_filter_cons_ne _ _ _ _ (by decide),
    dget_filter_cons_ne _ _ _ _ (by decide),
    dget_filter_cons_ne _ _ _ _ (by decide),
    dget_filter_cons_ne _ _ _ _ (by decide),
    dget_filter_cons_self _ _ _ (by simp)]

theorem dget_emit_openingHours (f : NormFields) : (emitNorm f).dget "openingHours" = optVal f.openingHoursV := by
  unfold emitNorm
  rw [dget_filter_cons_ne _ _ _ _ (by decide),
    dget_filter_cons_ne _ _ _ _ (by decide),
    dget_filter_cons_ne _ _ _ _ (by decide),
    dget_filter_cons_ne _ _ _ _ (by decide),
    dget_filter_cons_ne _ _ _ _ (by decide),
    dget_filter_cons_ne _ _ _ _ (by decide),
    dget_filter_cons_ne _ _ _ _ (by decide),
    dget_filter_cons_ne _ _ _ _ (by decide),
    dget_filter_cons_ne _ _ _ _ (by decide),
    dget_filter_cons_ne _ _ _ _ (by decide),
    dget_filter_cons_ne _ _ _ _ (by decide),
    dget_filter_cons_ne _ _ _ _ (by decide),
    dget_filter_cons_ne _ _ _ _ (by decide),
    dget_filter_cons_ne _ _ _ _ (by decide),
    dget_filter_cons_ne _ _ _ _ (by decide),
    dget_filter_cons_ne _ _ _ _ (by decide),
    dget_filter_cons_ne _ _ _ _ (by decide),
    dget_filter_cons_ne _ _ _ _ (by decide),
    dget_filter_cons_ne _ _ _ _ (by decide),
    dget_filter_cons_ne _ _ _ _ (by decide),
    dget_filter_cons_ne _ _ _ _ (by decide),
    dget_filter_cons_self _ _ _ (by simp)]

theorem dget_emit_weeklyHours (f : NormFields) : (emitNorm f).dget "weeklyHours" = optVal f.weeklyHoursV := by
  unfold emitNorm
  rw [dget_filter_cons_ne _ _ _ _ (by decide),
    dget_filter_cons_ne _ _ _ _ (by decide),
    dget_filter_cons_ne _ _ _ _ (by decide),
    dget_filter_cons_ne _ _ _ _ (by decide),
    dget_filter_cons_ne _ _ _ _ (by decide),
    dget_filter_cons_ne _ _ _ _ (by decide),
    dget_filter_cons_ne _ _ _ _ (by decide),
    dget_filter_cons_ne _ _ _ _ (by decide),
    dget_filter_cons_ne _ _ _ _ (by decide),
    dget_filter_cons_ne _ _ _ _ (by decide),
    dget_filter_cons_ne _ _ _ _ (by decide),
    dget_filter_cons_ne _ _ _ _ (by decide),
    dget_filter_cons_ne _ _ _ _ (by decide),
    dget_filter_cons_ne _ _ _ _ (by decide),
    dget_filter_cons_ne _ _ _ _ (by decide),
    dget_filter_cons_ne _ _ _ _ (by decide),
    dget_filter_cons_ne _ _ _ _ (by decide),
    dget_filter_cons_ne _ _ _ _ (by decide),
    dget_filter_cons_ne _ _ _ _ (by decide),
    dget_filter_cons_ne _ _ _ _ (by decide),
    dget_filter_cons_ne _ _ _ _ (by decide),
    dget_filter_cons_ne _ _ _ _ (by decide),
    dget_filter_cons_self _ _ _ (by simp)]

theorem dget_emit_amenities (f : NormFields) : (emitNorm f).dget "amenities" = optVal f.amenitiesV := by
  unfold emitNorm
  rw [dget_filter_cons_ne _ _ _ _ (by decide),
    dget_filter_cons_ne _ _ _ _ (by decide),
    dget_filter_cons_ne _ _ _ _ (by decide),
    dget_filter_cons_ne _ _ _ _ (by decide),
    dget_filter_cons_ne _ _ _ _ (by decide),
    dget_filter_cons_ne _ _ _ _ (by decide),
    dget_filter_cons_ne _ _ _ _ (by decide),
    dget_filter_cons_ne _ _ _ _ (by decide),
    dget_filter_cons_ne _ _ _ _ (by decide),
    dget_filter_cons_ne _ _ _ _ (by decide),
    dget_filter_cons_ne _ _ _ _ (by decide),
    dget_filter_cons_ne _ _ _ _ (by decide),
    dget_filter_cons_ne _ _ _ _ (by decide),
    dget_filter_cons_ne _ _ _ _ (by decide),
    dget_filter_cons_ne _ _ _ _ (by decide),
    dget_filter_cons_ne _ _ _ _ (by decide),
    dget_filter_cons_ne _ _ _ _ (by decide),
    dget_filter_cons_ne _ _ _ _ (by decide),
    dget_filter_cons_ne _ _ _ _ (by decide),
    dget_filter_cons_ne _ _ _ _ (by decide),
    dget_filter_cons_ne _ _ _ _ (by decide),
    dget_filter_cons_ne _ _ _ _ (by decide),
    dget_filter_cons_ne _ _ _ _ (by decide),
    dget_filter_cons_self _ _ _ (by simp)]

theorem dget_emit_features (f : NormFields) : (emitNorm f).dget "features" = optVal f.featuresV := by
  unfold emitNorm
  rw [dget_filter_cons_ne _ _ _ _ (by decide),
    dget_filter_cons_ne _ _ _ _ (by decide),
    dget_filter_cons_ne _ _ _ _ (by decide),
    dget_filter_cons_ne _ _ _ _ (by decide),
    dget_filter_cons_ne _ _ _ _ (by decide),
    dget_filter_cons_ne _ _ _ _ (by decide),
    dget_filter_cons_ne _ _ _ _ (by decide),
    dget_filter_cons_ne _ _ _ _ (by decide),
    dget_filter_cons_ne _ _ _ _ (by decide),
    dget_filter_cons_ne _ _ _ _ (by decide),
    dget_filter_cons_ne _ _ _ _ (by decide),
    dget_filter_cons_ne _ _ _ _ (by decide),
    dget_filter_cons_ne _ _ _ _ (by decide),
    dget_filter_cons_ne _ _ _ _ (by decide),
    dget_filter_cons_ne _ _ _ _ (by decide),
    dget_filter_cons_ne _ _ _ _ (by decide),
    dget_filter_cons_ne _ _ _ _ (by decide),
    dget_filter_cons_ne _ _ _ _ (by decide),
    dget_filter_cons_ne _ _ _ _ (by decide),
    dget_filter_cons_ne _ _ _ _ (by decide),
    dget_filter_cons_ne _ _ _ _ (by decide),
    dget_filter_cons_ne _ _ _ _ (by decide),
    dget_filter_cons_ne _ _ _ _ (by decide),
    dget_filter_cons_ne _ _ _ _ (by decide),
    dget_filter_cons_self _ _ _ (by simp)]

theorem dget_emit_reviews (f : NormFields) : (emitNorm f).dget "reviews" = optVal f.reviewsV := by
  unfold emitNorm
  rw [dget_filter_cons_ne _ _ _ _ (by decide),
    dget_filter_cons_ne _ _ _ _ (by decide),
    dget_filter_cons_ne _ _ _ _ (by decide),
    dget_filter_cons_ne _ _ _ _ (by decide),
    dget_filter_cons_ne _ _ _ _ (by decide),
    dget_filter_cons_ne _ _ _ _ (by decide),
    dget_filter_cons_ne _ _ _ _ (by decide),
    dget_filter_cons_ne _ _ _ _ (by decide),
    dget_filter_cons_ne _ _ _ _ (by decide),
    dget_filter_cons_ne _ _ _ _ (by decide),
    dget_filter_cons_ne _ _ _ _ (by decide),
    dget_filter_cons_ne _ _ _ _ (by decide),
    dget_filter_cons_ne _ _ _ _ (by decide),
    dget_filter_cons_ne _ _ _ _ (by decide),
    dget_filter_cons_ne _ _ _ _ (by decide),
    dget_filter_cons_ne _ _ _ _ (by decide),
    dget_filter_cons_ne _ _ _ _ (by decide),
    dget_filter_cons_ne _ _ _ _ (by decide),
    dget_filter_cons_ne _ _ _ _ (by decide),
    dget_filter_cons_ne _ _ _ _ (by decide),
    dget_filter_cons_ne _ _ _ _ (by decide),
    dget_filter_cons_ne _ _ _ _ (by decide),
    dget_filter_cons_ne _ _ _ _ (by decide),
    dget_filter_cons_ne _ _ _ _ (by decide),
    dget_filter_cons_ne _ _ _ _ (by decide),
    dget_filter_cons_self _ _ _ (by simp)]

theorem dget_emit_socialMedia (f : NormFields) : (emitNorm f).dget "socialMedia" = optVal f.socialMediaV := by
  unfold emitNorm
  rw [dget_filter_cons_ne _ _ _ _ (by decide),
    dget_filter_cons_ne _ _ _ _ (by decide),
    dget_filter_cons_ne _ _ _ _ (by decide),
    dget_filter_cons_ne _ _ _ _ (by decide),
    dget_filter_cons_ne _ _ _ _ (by decide),
    dget_filter_cons_ne _ _ _ _ (by decide),
    dget_filter_cons_ne _ _ _ _ (by decide),
    dget_filter_cons_ne _ _ _ _ (by decide),
    dget_filter_cons_ne _ _ _ _ (by decide),
    dget_filter_cons_ne _ _ _ _ (by decide),
    dget_filter_cons_ne _ _ _ _ (by decide),
    dget_filter_cons_ne _ _ _ _ (by decide),
    dget_filter_cons_ne _ _ _ _ (by decide),
    dget_filter_cons_ne _ _ _ _ (by decide),
    dget_filter_cons_ne _ _ _ _ (by decide),
    dget_filter_cons_ne _ _ _ _ (by decide),
    dget_filter_cons_ne _ _ _ _ (by decide),
    dget_filter_cons_ne _ _ _ _ (by decide),
    dget_filter_cons_ne _ _ _ _ (by decide),
    dget_filter_cons_ne _ _ _ _ (by decide),
    dget_filter_cons_ne _ _ _ _ (by decide),
    dget_filter_cons_ne _ _ _ _ (by decide),
    dget_filter_cons_ne _ _ _ _ (by decide),
    dget_filter_cons_ne _ _ _ _ (by decide),
    dget_filter_cons_ne _ _ _ _ (by decide),
    dget_filter_cons_ne _ _ _ _ (by decide),
    dget_filter_cons_self _ _ _ (by simp)]

theorem dget_emit_missing (f : NormFields) (k : String)
    (h : ∀ s ∈ ["id", "place_id", "name", "category", "description", "vibe", "crowdLevel", "musicType", "priceLevel", "rating", "reviewCount", "address", "neighborhood", "distance", "openNow", "images", "location", "currentStatus", "phone", "website", "email", "openingHours", "weeklyHours", "amenities", "features", "reviews", "socialMedia"], s ≠ k) :
    (emitNorm f).dget k = .pnone := by
  simp only [List.forall_mem_cons] at h
  unfold emitNorm
  rw [dget_filter_cons_ne _ _ _ _ h.1,
    dget_filter_cons_ne _ _ _ _ h.2.1,
    dget_filter_cons_ne _ _ _ _ h.2.2.1,
    dget_filter_cons_ne _ _ _ _ h.2.2.2.1,
    dget_filter_cons_ne _ _ _ _ h.2.2.2.2.1,
    dget_filter_cons_ne _ _ _ _ h.2.2.2.2.2.1,
    dget_filter_cons_ne _ _ _ _ h.2.2.2.2.2.2.1,
    dget_filter_cons_ne _ _ _ _ h.2.2.2.2.2.2.2.1,
    dget_filter_cons_ne _ _ _ _ h.2.2.2.2.2.2.2.2.1,
    dget_filter_cons_ne _ _ _ _ h.2.2.2.2.2.2.2.2.2.1,
    dget_filter_cons_ne _ _ _ _ h.2.2.2.2.2.2.2.2.2.2.1,
    dget_filter_cons_ne _ _ _ _ h.2.2.2.2.2.2.2.2.2.2.2.1,
    dget_filter_cons_ne _ _ _ _ h.2.2.2.2.2.2.2.2.2.2.2.2.1,
    dget_filter_cons_ne _ _ _ _ h.2.2.2.2.2.2.2.2.2.2.2.2.2.1,
    dget_filter_cons_ne _ _ _ _ h.2.2.2.2.2.2.2.2.2.2.2.2.2.2.1,
    dget_filter_cons_ne _ _ _ _ h.2.2.2.2.2.2.2.2.2.2.2.2.2.2.2.1,
    dget_filter_cons_ne _ _ _ _ h.2.2.2.2.2.2.2.2.2.2.2.2.2.2.2.2.1,
    dget_filter_cons_ne _ _ _ _ h.2.2.2.2.2.2.2.2.2.2.2.2.2.2.2.2.2.1,
    dget_filter_cons_ne _ _ _ _ h.2.2.2.2.2.2.2.2.2.2.2.2.2.2.2.2.2.2.1,
    dget_filter_cons_ne _ _ _ _ h.2.2.2.2.2.2.2.2.2.2.2.2.2.2.2.2.2.2.2.1,
    dget_filter_cons_ne _ _ _ _ h.2.2.2.2.2.2.2.2.2.2.2.2.2.2.2.2.2.2.2.2.1,
    dget_filter_cons_ne _ _ _ _ h.2.2.2.2.2.2.2.2.2.2.2.2.2.2.2.2.2.2.2.2.2.1,
    dget_filter_cons_ne _ _ _ _ h.2.2.2.2.2.2.2.2.2.2.2.2.2.2.2.2.2.2.2.2.2.2.1,
    dget_filter_cons_ne _ _ _ _ h.2.2.2.2.2.2.2.2.2.2.2.2.2.2.2.2.2.2.2.2.2.2.2.1,
    dget_filter_cons_ne _ _ _ _ h.2.2.2.2.2.2.2.2.2.2.2.2.2.2.2.2.2.2.2.2.2.2.2.2.1,
    dget_filter_cons_ne _ _ _ _ h.2.2.2.2.2.2.2.2.2.2.2.2.2.2.2.2.2.2.2.2.2.2.2.2.2.1,
    dget_filter_cons_ne _ _ _ _ h.2.2.2.2.2.2.2.2.2.2.2.2.2.2.2.2.2.2.2.2.2.2.2.2.2.2.1]
  rfl

theorem dgetD_filter_cons_ne (k k1 : String) (v1 : PyVal) (l : List (String × PyVal))
    (dflt : PyVal) (h : k1 ≠ k) :
    PyVal.dgetD (.pdict (((k1, v1) :: l).filter (fun kv => !kv.2.isNone))) k dflt =
      PyVal.dgetD (.pdict (l.filter (fun kv => !kv.2.isNone))) k dflt := by
  rcases hp : (!v1.isNone) with _ | _
  · rw [List.filter_cons, if_neg (by simp [hp])]
  · rw [List.filter_cons, if_pos (by simp [hp])]
    simp only [PyVal.dgetD]
    rw [List.find?_cons_of_neg _ (by simp [h])]

theorem dgetD_emit_missing (f : NormFields) (k : String) (dflt : PyVal)
    (h : ∀ s ∈ ["id", "place_id", "name", "category", "description", "vibe", "crowdLevel", "musicType", "priceLevel", "rating", "reviewCount", "address", "neighborhood", "distance", "openNow", "images", "location", "currentStatus", "phone", "website", "email", "openingHours", "weeklyHours", "amenities", "features", "reviews", "socialMedia"], s ≠ k) :
    (emitNorm f).dgetD k dflt = dflt := by
  simp only [List.forall_mem_cons] at h
  unfold emitNorm
  rw [dgetD_filter_cons_ne _ _ _ _ _ h.1,
    dgetD_filter_cons_ne _ _ _ _ _ h.2.1,
    dgetD_filter_cons_ne _ _ _ _ _ h.2.2.1,
    dgetD_filter_cons_ne _ _ _ _ _ h.2.2.2.1,
    dgetD_filter_cons_ne _ _ _ _ _ h.2.2.2.2.1,
    dgetD_filter_cons_ne _ _ _ _ _ h.2.2.2.2.2.1,
    dgetD_filter_cons_ne _ _ _ _ _ h.2.2.2.2.2.2.1,
    dgetD_filter_cons_ne _ _ _ _ _ h.2.2.2.2.2.2.2.1,
    dgetD_filter_cons_ne _ _ _ _ _ h.2.2.2.2.2.2.2.2.1,
    dgetD_filter_cons_ne _ _ _ _ _ h.2.2.2.2.2.2.2.2.2.1,
    dgetD_filter_cons_ne _ _ _ _ _ h.2.2.2.2.2.2.2.2.2.2.1,
    dgetD_filter_cons_ne _ _ _ _ _ h.2.2.2.2.2.2.2.2.2.2.2.1,
    dgetD_filter_cons_ne _ _ _ _ _ h.2.2.2.2.2.2.2.2.2.2.2.2.1,
    dgetD_filter_cons_ne _ _ _ _ _ h.2.2.2.2.2.2.2.2.2.2.2.2.2.1,
    dgetD_filter_cons_ne _ _ _ _ _ h.2.2.2.2.2.2.2.2.2.2.2.2.2.2.1,
    dgetD_filter_cons_ne _ _ _ _ _ h.2.2.2.2.2.2.2.2.2.2.2.2.2.2.2.1,
    dgetD_filter_cons_ne _ _ _ _ _ h.2.2.2.2.2.2.2.2.2.2.2.2.2.2.2.2.1,
    dgetD_filter_cons_ne _ _ _ _ _ h.2.2.2.2.2.2.2.2.2.2.2.2.2.2.2.2.2.1,
    dgetD_filter_cons_ne _ _ _ _ _ h.2.2.2.2.2.2.2.2.2.2.2.2.2.2.2.2.2.2.1,
    dgetD_filter_cons_ne _ _ _ _ _ h.2.2.2.2.2.2.2.2.2.2.2.2.2.2.2.2.2.2.2.1,
    dgetD_filter_cons_ne _ _ _ _ _ h.2.2.2.2.2.2.2.2.2.2.2.2.2.2.2.2.2.2.2.2.1,
    dgetD_filter_cons_ne _ _ _ _ _ h.2.2.2.2.2.2.2.2.2.2.2.2.2.2.2.2.2.2.2.2.2.1,
    dgetD_filter_cons_ne _ _ _ _ _ h.2.2.2.2.2.2.2.2.2.2.2.2.2.2.2.2.2.2.2.2.2.2.1,
    dgetD_filter_cons_ne _ _ _ _ _ h.2.2.2.2.2.2.2.2.2.2.2.2.2.2.2.2.2.2.2.2.2.2.2.1,
    dgetD_filter_cons_ne _ _ _ _ _ h.2.2.2.2.2.2.2.2.2.2.2.2.2.2.2.2.2.2.2.2.2.2.2.2.1,
    dgetD_filter_cons_ne _ _ _ _ _ h.2.2.2.2.2.2.2.2.2.2.2.2.2.2.2.2.2.2.2.2.2.2.2.2.2.1,
    dgetD_filter_cons_ne _ _ _ _ _ h.2.2.2.2.2.2.2.2.2.2.2.2.2.2.2.2.2.2.2.2.2.2.2.2.2.2.1]
  rfl

theorem pyOr_pnone_left (b : PyVal) : pyOr .pnone b = b := rfl

theorem pyOr_truthy_left (a b : PyVal) (h : a.truthy = true) : pyOr a b = a := by
  unfold pyOr; rw [if_pos h]

theorem pyOr_untruthy_left (a b : PyVal) (h : a.truthy = false) : pyOr a b = b := by
  unfold pyOr; rw [if_neg (by simp [h])]

theorem pyOr_truthy_right (a b : PyVal) (hb : b.truthy = true) : (pyOr a b).truthy = true := by
  rcases ha : a.truthy with _ | _
  · rw [pyOr_untruthy_left a b ha]; exact hb
  · rw [pyOr_truthy_left a b ha]; exact ha

theorem optVal_truthy_eq (v : PyVal) (h : v.truthy = true) : optVal v = v := by
  unfold optVal; rw [if_pos h]

theorem optVal_untruthy (v : PyVal) (h : v.truthy = false) : optVal v = .pnone := by
  unfold optVal; rw [if_neg (by simp [h])]

theorem pyOr_optVal (v : PyVal) : pyOr (optVal v) .pnone = optVal v := by
  rcases h : v.truthy with _ | _
  · rw [optVal_untruthy v h]; rfl
  · rw [optVal_truthy_eq v h, pyOr_truthy_left _ _ h]

theorem natDecAux_ne_nil (fuel n : Nat) : natDecAux (fuel + 1) n ≠ [] := by
  simp only [natDecAux]
  split <;> simp

theorem natDec_ne_empty (n : Nat) : natDec n ≠ "" := by
  unfold natDec
  intro hc
  exact natDecAux_ne_nil n n (congrArg String.data hc)

theorem str_append_ne_empty_right (a b : String) (hb : b ≠ "") : a ++ b ≠ "" := by
  intro hc
  have hd := congrArg String.data hc
  simp only [String.data_append] at hd
  rcases List.append_eq_nil.mp hd with ⟨-, h2⟩
  exact hb (congrArg String.mk h2)

theorem str_append_ne_empty_left (a b : String) (ha : a ≠ "") : a ++ b ≠ "" := by
  intro hc
  have hd := congrArg String.data hc
  simp only [String.data_append] at hd
  rcases List.append_eq_nil.mp hd with ⟨h1, -⟩
  exact ha (congrArg String.mk h1)

theorem pyStr_ne_empty (v : PyVal) (h : v.truthy = true) : pyStr v ≠ "" := by
  cases v with
  | pnone => simp [PyVal.truthy] at h
  | pbool b =>
    cases b
    · simp [PyVal.truthy] at h
    · decide
  | pint n =>
    show intDec n ≠ ""
    unfold intDec
    split
    · exact str_append_ne_empty_right _ _ (natDec_ne_empty _)
    · exact natDec_ne_empty _
  | pfloat q =>
    show ratRepr q ≠ ""
    unfold ratRepr
    split <;> dsimp only <;> split <;>
      first
        | exact str_append_ne_empty_right _ ".0" (by decide)
        | exact str_append_ne_empty_left _ _ (str_append_ne_empty_right _ "." (by decide))
  | pstr s =>
    show s ≠ ""
    simpa [PyVal.truthy] using h
  | plist xs =>
    show "[" ++ pyStrList xs ++ "]" ≠ ""
    exact str_append_ne_empty_right _ _ (by decide)
  | pdict kvs =>
    exact str_append_ne_empty_right _ _ (by decide)

theorem clampPrice_wf (p : PyVal) :
    (∃ n : Int, clampPrice p = .pint n ∧ 1 ≤ n ∧ n ≤ 4) ∨ clampPrice p = .pbool true := by
  cases p with
  | pint n =>
    rw [show clampPrice (PyVal.pint n) =
      (if n < 1 then PyVal.pint 2 else if n > 4 then PyVal.pint 4 else PyVal.pint n) from rfl]
    by_cases h1 : n < 1
    · rw [if_pos h1]; exact Or.inl ⟨2, rfl, by omega, by omega⟩
    · rw [if_neg h1]
      by_cases h4 : n > 4
      · rw [if_pos h4]; exact Or.inl ⟨4, rfl, by omega, by omega⟩
      · rw [if_neg h4]; exact Or.inl ⟨n, rfl, by omega, by omega⟩
  | pbool b =>
    cases b
    · exact Or.inl ⟨2, rfl, by omega, by omega⟩
    · exact Or.inr rfl
  | pnone => exact Or.inl ⟨2, rfl, by omega, by omega⟩
  | pfloat q => exact Or.inl ⟨2, rfl, by omega, by omega⟩
  | pstr s => exact Or.inl ⟨2, rfl, by omega, by omega⟩
  | plist xs => exact Or.inl ⟨2, rfl, by omega, by omega⟩
  | pdict kvs => exact Or.inl ⟨2, rfl, by omega, by omega⟩

theorem mapTypeToCategory_truthy (t : PyVal) (m : String) (h : mapTypeToCategory t = .ok m) :
    (PyVal.pstr m).truthy = true := by
  cases t with
  | pstr s =>
    simp only [mapTypeToCategory] at h
    repeat' split at h
    all_goals (injection h with hm; subst hm; decide)
  | pnone => simp [mapTypeToCategory] at h
  | pbool b => simp [mapTypeToCategory] at h
  | pint n => simp [mapTypeToCategory] at h
  | pfloat q => simp [mapTypeToCategory] at h
  | plist xs => simp [mapTypeToCategory] at h
  | pdict kvs => simp [mapTypeToCategory] at h

theorem catComp_ok_truthy (raw c : PyVal) (h : catComp raw = .ok c) : c.truthy = true := by
  simp only [catComp] at h
  split at h
  · next hcond =>
    have h2 : Except.ok (raw.dget "category") = Except.ok c := h
    injection h2 with h3
    subst h3; exact hcond
  · split at h
    · rcases hm : mapTypeToCategory (firstOrSelf (raw.dgetD "types" (.plist []))) with e | m
      · rw [hm] at h; exact absurd h (by simp [Except.map])
      · rw [hm] at h
        have h2 : Except.ok (PyVal.pstr m) = Except.ok c := h
        injection h2 with h3
        subst h3
        exact mapTypeToCategory_truthy _ _ hm
    · have h2 : Except.ok (PyVal.pstr "place") = Except.ok c := h
      injection h2 with h3
      subst h3; decide

theorem ratingComp_inv (raw re : PyVal) (h : ratingComp raw = .ok re) :
    re = .pint 0 ∨ ∃ q : ℚ, re = .pfloat q := by
  simp only [ratingComp] at h
  split at h
  · rcases hf : pyFloat (pyOr (raw.dget "rating")
      (pyOr (raw.dget "google_rating") (pyOr (raw.dget "googleRating") (.pint 0)))) with e | q
    · rw [hf] at h; exact absurd h (by simp [Except.map])
    · rw [hf] at h
      have h2 : Except.ok (PyVal.pfloat q) = Except.ok re := h
      injection h2 with h3
      exact Or.inr ⟨q, h3.symm⟩
  · have h2 : Except.ok (PyVal.pint 0) = Except.ok re := h
    injection h2 with h3
    exact Or.inl h3.symm

theorem rcComp_inv (raw rce : PyVal) (h : rcComp raw = .ok rce) :
    ∃ m : Int, rce = .pint m := by
  simp only [rcComp] at h
  split at h
  · rcases hf : pyIntFn (pyOr (raw.dget "reviewCount")
      (pyOr (raw.dget "user_ratings_total")
        (pyOr (raw.dget "google_rating_count")
          (pyOr (raw.dget "googleReviewCount") (.pint 0))))) with e | m
    · rw [hf] at h; exact absurd h (by simp [Except.map])
    · rw [hf] at h
      have h2 : Except.ok (PyVal.pint m) = Except.ok rce := h
      injection h2 with h3
      exact ⟨m, h3.symm⟩
  · have h2 : Except.ok (PyVal.pint 0) = Except.ok rce := h
    injection h2 with h3
    exact ⟨0, h3.symm⟩

theorem computeFields_inv (raw : PyVal) (f : NormFields) (h : computeFields raw = .ok f) :
    ∃ c n i l re rce, catComp raw = .ok c ∧ neighComp raw = .ok n ∧
      imagesComp raw = .ok i ∧ locComp raw = .ok l ∧ ratingComp raw = .ok re ∧
      rcComp raw = .ok rce ∧ f = recordOf raw c n i l re rce := by
  unfold computeFields at h
  rcases hc : catComp raw with e | c
  · rw [hc, exceptBind_error] at h; exact absurd h (by simp)
  rw [hc, exceptBind_okv] at h
  rcases hn : neighComp raw with e | n
  · rw [hn, exceptBind_error] at h; exact absurd h (by simp)
  rw [hn, exceptBind_okv] at h
  rcases hi : imagesComp raw with e | i
  · rw [hi, exceptBind_error] at h; exact absurd h (by simp)
  rw [hi, exceptBind_okv] at h
  rcases hl : locComp raw with e | l
  · rw [hl, exceptBind_error] at h; exact absurd h (by simp)
  rw [hl, exceptBind_okv] at h
  rcases hre : ratingComp raw with e | re
  · rw [hre, exceptBind_error] at h; exact absurd h (by simp)
  rw [hre, exceptBind_okv] at h
  rcases hrce : rcComp raw with e | rce
  · rw [hrce, exceptBind_error] at h; exact absurd h (by simp)
  rw [hrce, exceptBind_okv] at h
  have h2 : Except.ok (recordOf raw c n i l re rce) = Except.ok f := h
  injection h2 with h3
  exact ⟨c, n, i, l, re, rce, rfl, rfl, rfl, rfl, rfl, rfl, h3.symm⟩

theorem neighComp_inv (raw n : PyVal) (h : neighComp raw = .ok n) :
    n.truthy = true ∨
      (n = .pnone ∧ ∃ r, extractNeighborhood (pyOr (raw.dget "address")
        (pyOr (raw.dget "formatted_address")
          (pyOr (raw.dget "vicinity") (.pstr "")))) = .ok r ∧ r.truthy = false) := by
  simp only [neighComp] at h
  split at h
  · next hc =>
    have h2 : Except.ok (raw.dget "neighborhood") = Except.ok n := h
    injection h2 with h3
    subst h3; exact Or.inl hc
  · split at h
    · next hc =>
      have h2 : Except.ok (raw.dget "neighbourhood") = Except.ok n := h
      injection h2 with h3
      subst h3; exact Or.inl hc
    · rcases he : extractNeighborhood (pyOr (raw.dget "address")
        (pyOr (raw.dget "formatted_address")
          (pyOr (raw.dget "vicinity") (.pstr "")))) with e | r
      · rw [he, exceptBind_error] at h; exact absurd h (by simp)
      · rw [he, exceptBind_okv] at h
        split at h
        · next hr =>
          have h2 : Except.ok r = Except.ok n := h
          injection h2 with h3
          subst h3; exact Or.inl hr
        · next hr =>
          have h2 : Except.ok PyVal.pnone = Except.ok n := h
          injection h2 with h3
          subst h3
          exact Or.inr ⟨rfl, r, rfl, by simpa using hr⟩

theorem alistSet_any_self (kvs : List (String × PyVal)) (k : String) (v : PyVal) :
    (PyVal.alistSet kvs k v).any (fun kv => kv.1 = k) = true := by
  induction kvs with
  | nil => simp [PyVal.alistSet]
  | cons x rest ih =>
    by_cases hx : x.1 = k
    · simp only [PyVal.alistSet]
      rw [if_pos hx]
      simp
    · simp only [PyVal.alistSet]
      rw [if_neg hx]
      simp only [List.any_cons, ih, Bool.or_true]

theorem alistSet_any_ne (kvs : List (String × PyVal)) (k : String) (v : PyVal) (q : String)
    (hq : q ≠ k) :
    (PyVal.alistSet kvs k v).any (fun kv => kv.1 = q) = kvs.any (fun kv => kv.1 = q) := by
  induction kvs with
  | nil => simp [PyVal.alistSet, Ne.symm hq]
  | cons x rest ih =>
    by_cases hx : x.1 = k
    · simp only [PyVal.alistSet]
      rw [if_pos hx]
      simp only [List.any_cons]
      rw [show (decide ((k, v).1 = q)) = false by simp [Ne.symm hq],
        show (decide (x.1 = q)) = false by simp [hx, Ne.symm hq]]
    · simp only [PyVal.alistSet]
      rw [if_neg hx]
      simp only [List.any_cons, ih]

theorem syncLocation_idem (x l : PyVal) (h : syncLocation x = .ok l) :
    syncLocation l = .ok l := by
  unfold syncLocation at h
  split at h
  · next hc =>
    have h2 : Except.ok x = Except.ok l := h
    injection h2 with h3
    subst h3
    unfold syncLocation
    rw [if_pos hc]
    rfl
  · next hc =>
    cases x with
    | pnone => exact absurd rfl hc
    | pint m =>
      rw [show pyContains (.pint m) "lng" =
          Except.error "TypeError: argument of type is not iterable" from rfl,
        exceptBind_error] at h
      exact absurd h (by simp)
    | pfloat q =>
      rw [show pyContains (.pfloat q) "lng" =
          Except.error "TypeError: argument of type is not iterable" from rfl,
        exceptBind_error] at h
      exact absurd h (by simp)
    | pbool b =>
      rw [show pyContains (.pbool b) "lng" =
          Except.error "TypeError: argument of type is not iterable" from rfl,
        exceptBind_error] at h
      exact absurd h (by simp)
    | pstr s =>
      rw [show pyContains (.pstr s) "lng" = .ok (strContains s "lng") from rfl,
        exceptBind_okv,
        show pyContains (.pstr s) "lon" = .ok (strContains s "lon") from rfl,
        exceptBind_okv] at h
      split at h
      · exact absurd h (by simp [setItem])
      · split at h
        · exact absurd h (by simp [setItem])
        · next hc1 hc2 =>
          have h2 : Except.ok (PyVal.pstr s) = Except.ok l := h
          injection h2 with h3
          subst h3
          unfold syncLocation
          rw [if_neg (by simpa using hc)]
          rw [show pyContains (.pstr s) "lng" = .ok (strContains s "lng") from rfl,
            exceptBind_okv,
            show pyContains (.pstr s) "lon" = .ok (strContains s "lon") from rfl,
            exceptBind_okv, if_neg hc1, if_neg hc2]
          rfl
    | plist xs =>
      rw [show pyContains (.plist xs) "lng" =
          .ok (xs.any (fun x => match x with | .pstr t => t = "lng" | _ => false)) from rfl,
        exceptBind_okv,
        show pyContains (.plist xs) "lon" =
          .ok (xs.any (fun x => match x with | .pstr t => t = "lon" | _ => false)) from rfl,
        exceptBind_okv] at h
      split at h
      · exact absurd h (by simp [setItem])
      · split at h
        · exact absurd h (by simp [setItem])
        · next hc1 hc2 =>
          have h2 : Except.ok (PyVal.plist xs) = Except.ok l := h
          injection h2 with h3
          subst h3
          unfold syncLocation
          rw [if_neg (by simpa using hc)]
          rw [show pyContains (.plist xs) "lng" =
              .ok (xs.any (fun x => match x with | .pstr t => t = "lng" | _ => false)) from rfl,
            exceptBind_okv,
            show pyContains (.plist xs) "lon" =
              .ok (xs.any (fun x => match x with | .pstr t => t = "lon" | _ => false)) from rfl,
            exceptBind_okv, if_neg hc1, if_neg hc2]
          rfl
    | pdict kvs =>
      rw [show pyContains (.pdict kvs) "lng" =
          .ok (kvs.any (fun kv => kv.1 = "lng")) from rfl,
        exceptBind_okv,
        show pyContains (.pdict kvs) "lon" =
          .ok (kvs.any (fun kv => kv.1 = "lon")) from rfl,
        exceptBind_okv] at h
      split at h
      · next hc1 =>
        rw [show setItem (.pdict kvs) "lon" ((PyVal.pdict kvs).dget "lng") =
            .ok (.pdict (PyVal.alistSet kvs "lon" ((PyVal.pdict kvs).dget "lng"))) from rfl] at h
        have h2 := h
        injection h2 with h3
        subst h3
        unfold syncLocation
        rw [if_neg (by simp [PyVal.truthy, alistSet_ne_nil])]
        rw [show pyContains (.pdict (PyVal.alistSet kvs "lon" ((PyVal.pdict kvs).dget "lng"))) "lng" =
            .ok ((PyVal.alistSet kvs "lon" ((PyVal.pdict kvs).dget "lng")).any
              (fun kv => kv.1 = "lng")) from rfl,
          exceptBind_okv,
          show pyContains (.pdict (PyVal.alistSet kvs "lon" ((PyVal.pdict kvs).dget "lng"))) "lon" =
            .ok ((PyVal.alistSet kvs "lon" ((PyVal.pdict kvs).dget "lng")).any
              (fun kv => kv.1 = "lon")) from rfl,
          exceptBind_okv]
        rw [alistSet_any_ne kvs "lon" _ "lng" (by decide), alistSet_any_self]
        have hcc : kvs.any (fun kv => kv.1 = "lng") = true := by
          have h5 := hc1
          simp only [Bool.and_eq_true] at h5
          exact h5.1
        rw [hcc]
        rw [if_neg (by simp), if_neg (by simp)]
        rfl
      · split at h
        · next hc1 hc2 =>
          rw [show setItem (.pdict kvs) "lng" ((PyVal.pdict kvs).dget "lon") =
              .ok (.pdict (PyVal.alistSet kvs "lng" ((PyVal.pdict kvs).dget "lon"))) from rfl] at h
          have h2 := h
          injection h2 with h3
          subst h3
          unfold syncLocation
          rw [if_neg (by simp [PyVal.truthy, alistSet_ne_nil])]
          rw [show pyContains (.pdict (PyVal.alistSet kvs "lng" ((PyVal.pdict kvs).dget "lon"))) "lng" =
              .ok ((PyVal.alistSet kvs "lng" ((PyVal.pdict kvs).dget "lon")).any
                (fun kv => kv.1 = "lng")) from rfl,
            exceptBind_okv,
            show pyContains (.pdict (PyVal.alistSet kvs "lng" ((PyVal.pdict kvs).dget "lon"))) "lon" =
              .ok ((PyVal.alistSet kvs "lng" ((PyVal.pdict kvs).dget "lon")).any
                (fun kv => kv.1 = "lon")) from rfl,
            exceptBind_okv]
          rw [alistSet_any_ne kvs "lng" _ "lon" (by decide), alistSet_any_self]
          have hcc : kvs.any (fun kv => kv.1 = "lon") = true := by
            have h5 := hc2
            simp only [Bool.and_eq_true] at h5
            exact h5.1
          rw [hcc]
          rw [if_neg (by simp), if_neg (by simp)]
          rfl
        · next hc1 hc2 =>
          have h2 : Except.ok (PyVal.pdict kvs) = Except.ok l := h
          injection h2 with h3
          subst h3
          unfold syncLocation
          rw [if_neg (by simpa using hc)]
          rw [show pyContains (.pdict kvs) "lng" =
              .ok (kvs.any (fun kv => kv.1 = "lng")) from rfl,
            exceptBind_okv,
            show pyContains (.pdict kvs) "lon" =
              .ok (kvs.any (fun kv => kv.1 = "lon")) from rfl,
            exceptBind_okv, if_neg hc1, if_neg hc2]
          rfl

theorem locComp_idem (raw l : PyVal) (h : locComp raw = .ok l) :
    syncLocation l = .ok l := by
  unfold locComp at h
  exact syncLocation_idem _ _ h

theorem computeFields_wf (raw : PyVal) (f : NormFields)
    (hname : (raw.dget "name").truthy = true)
    (h : computeFields raw = .ok f) : NormWF f := by
  obtain ⟨c, n, i, l, re, rce, hc, hn, hi, hl, hre, hrce, hf⟩ := computeFields_inv raw f h
  subst hf
  unfold NormWF
  dsimp only [recordOf]
  refine ⟨hname, catComp_ok_truthy raw c hc, ?_, ?_, ?_, clampPrice_wf _,
    ratingComp_inv raw re hre, rcComp_inv raw rce hrce, ?_, ?_, ?_,
    pyOr_truthy_right _ _ (pyOr_truthy_right _ _ (by decide)),
    pyOr_truthy_right _ _ (pyOr_truthy_right _ _ (by decide)), ?_,
    locComp_idem raw l hl⟩
  · by_cases hp : (pyOr (raw.dget "db_id") (pyOr (raw.dget "id")
      (pyOr (raw.dget "place_id") (raw.dget "_id")))).truthy = true
    · rw [if_pos hp]
      exact Or.inr ⟨_, rfl, pyStr_ne_empty _ hp⟩
    · rw [if_neg hp]
      exact Or.inl rfl
  · by_cases hg : (pyOr (raw.dget "place_id") (pyOr (raw.dget "google_place_id")
      (if (raw.dget "db_id").truthy then PyVal.pnone else raw.dget "id"))).truthy = true
    · rw [if_pos hg]
      exact Or.inr ⟨_, rfl, pyStr_ne_empty _ hg⟩
    · rw [if_neg hg]
      by_cases hp : (pyOr (raw.dget "db_id") (pyOr (raw.dget "id")
        (pyOr (raw.dget "place_id") (raw.dget "_id")))).truthy = true
      · rw [if_pos hp]
        exact Or.inr ⟨_, rfl, pyStr_ne_empty _ hp⟩
      · rw [if_neg hp]
        exact Or.inl rfl
  · intro hid
    by_cases hp : (pyOr (raw.dget "db_id") (pyOr (raw.dget "id")
      (pyOr (raw.dget "place_id") (raw.dget "_id")))).truthy = true
    · by_cases hg : (pyOr (raw.dget "place_id") (pyOr (raw.dget "google_place_id")
        (if (raw.dget "db_id").truthy then PyVal.pnone else raw.dget "id"))).truthy = true
      · rw [if_pos hg]
        simp
      · rw [if_neg hg, if_pos hp]
        simp
    · rw [if_neg hp] at hid
      exact absurd rfl hid
  · rcases h1 : (raw.dget "address").truthy with _ | _
    · rw [pyOr_untruthy_left _ _ h1]
      rcases h2 : (raw.dget "formatted_address").truthy with _ | _
      · rw [pyOr_untruthy_left _ _ h2]
        rcases h3 : (raw.dget "vicinity").truthy with _ | _
        · rw [pyOr_untruthy_left _ _ h3]
          exact Or.inr rfl
        · rw [pyOr_truthy_left _ _ h3]
          exact Or.inl h3
      · rw [pyOr_truthy_left _ _ h2]
        exact Or.inl h2
    · rw [pyOr_truthy_left _ _ h1]
      exact Or.inl h1
  · rcases neighComp_inv raw n hn with ht | ⟨hpn, -⟩
    · exact Or.inr ht
    · exact Or.inl hpn
  · intro hpn0
    rcases neighComp_inv raw n hn with ht | ⟨-, r, her, hrf⟩
    · rw [hpn0] at ht
      simp [PyVal.truthy] at ht
    · exact ⟨r, her, hrf⟩
  · rcases i with _ | ⟨x, xs⟩
    · rw [if_neg (by decide)]
      simp
    · rw [if_pos (by simp)]
      simp

theorem truthy_plist_of_ne_nil (xs : List PyVal) (h : xs ≠ []) :
    (PyVal.plist xs).truthy = true := by
  cases xs with
  | nil => exact absurd rfl h
  | cons a as => rfl

theorem catComp_emit (f : NormFields) (hcat : f.categoryV.truthy = true) :
    catComp (emitNorm f) = .ok f.categoryV := by
  simp only [catComp, dget_emit_category]
  rw [if_pos hcat]
  rfl

theorem addr_emit_eq (f : NormFields) (haddr : f.addressV.truthy = true ∨ f.addressV = .pstr "") :
    pyOr f.addressV (pyOr .pnone (pyOr .pnone (.pstr ""))) = f.addressV := by
  rcases haddr with ht | he
  · exact pyOr_truthy_left _ _ ht
  · rw [he]
    rfl

theorem neighComp_emit (f : NormFields)
    (hnbd : f.neighborhoodV = .pnone ∨ f.neighborhoodV.truthy = true)
    (hnbe : f.neighborhoodV = .pnone →
      ∃ r, extractNeighborhood f.addressV = .ok r ∧ r.truthy = false)
    (haddr : f.addressV.truthy = true ∨ f.addressV = .pstr "") :
    neighComp (emitNorm f) = .ok f.neighborhoodV := by
  simp only [neighComp, dget_emit_neighborhood, dget_emit_address,
    dget_emit_missing f "neighbourhood" (by decide),
    dget_emit_missing f "formatted_address" (by decide),
    dget_emit_missing f "vicinity" (by decide)]
  rcases hnbd with hpn | ht
  · rw [if_neg (by simp [hpn, PyVal.truthy])]
    rw [if_neg (by simp [PyVal.truthy])]
    rw [addr_emit_eq f haddr]
    obtain ⟨r, her, hrf⟩ := hnbe hpn
    rw [her, exceptBind_okv, if_neg (by simp [hrf]), hpn]
    rfl
  · rw [if_pos ht]
    rfl

theorem imagesComp_emit (f : NormFields) (hne : f.imagesV ≠ []) :
    imagesComp (emitNorm f) = .ok (f.imagesV.filter keepImg) := by
  simp only [imagesComp, dget_emit_images]
  rw [if_pos (truthy_plist_of_ne_nil _ hne)]
  rfl

theorem locComp_emit (f : NormFields) (hsync : syncLocation f.locationV = .ok f.locationV) :
    locComp (emitNorm f) = .ok f.locationV := by
  simp only [locComp, dget_emit_location, dgetD_emit_missing f "geometry" _ (by decide)]
  have hloc1 : (if f.locationV.truthy = true then f.locationV
      else if ((PyVal.pdict []).isDict && (PyVal.pdict []).hasKey "location") = true then
        (PyVal.pdict []).dget "location" else f.locationV) = f.locationV := by
    by_cases hl : f.locationV.truthy = true
    · rw [if_pos hl]
    · rw [if_neg hl, if_neg (by decide)]
  rw [hloc1]
  exact hsync

theorem ratingComp_emit (f : NormFields)
    (hrat : f.ratingV = .pint 0 ∨ ∃ q : ℚ, f.ratingV = .pfloat q) :
    ratingComp (emitNorm f) = .ok ((secondPass f).ratingV) := by
  simp only [ratingComp, dget_emit_rating,
    dget_emit_missing f "google_rating" (by decide),
    dget_emit_missing f "googleRating" (by decide)]
  dsimp only [secondPass]
  rcases hrat with h0 | ⟨q, hq⟩
  · rw [h0]
    rfl
  · rw [hq]
    by_cases hq0 : q = 0
    · subst hq0
      rfl
    · have ht : (PyVal.pfloat q).truthy = true := by
        simp [PyVal.truthy, hq0]
      rw [pyOr_truthy_left _ _ ht, if_pos ht,
        show (match PyVal.pfloat q with
          | PyVal.pfloat q => if q = 0 then PyVal.pint 0 else PyVal.pfloat q
          | other => other) = if q = 0 then PyVal.pint 0 else PyVal.pfloat q from rfl,
        if_neg hq0]
      rfl

theorem rcComp_emit (f : NormFields) (hrc : ∃ m : Int, f.reviewCountV = .pint m) :
    rcComp (emitNorm f) = .ok f.reviewCountV := by
  obtain ⟨m, hm⟩ := hrc
  simp only [rcComp, dget_emit_reviewCount,
    dget_emit_missing f "user_ratings_total" (by decide),
    dget_emit_missing f "google_rating_count" (by decide),
    dget_emit_missing f "googleReviewCount" (by decide)]
  rw [hm]
  by_cases hm0 : m = 0
  · subst hm0
    rfl
  · have ht : (PyVal.pint m).truthy = true := by
      simp [PyVal.truthy, hm0]
    rw [pyOr_truthy_left _ _ ht, if_pos ht]
    rfl

theorem recordOf_emit (f : NormFields) (hwf : NormWF f) :
    recordOf (emitNorm f) f.categoryV f.neighborhoodV (f.imagesV.filter keepImg)
      f.locationV ((secondPass f).ratingV) f.reviewCountV = secondPass f := by
  obtain ⟨hname, hcat, hid, hpid, hid2, hprice, hrat, hrc, haddr, hnbd, hnbe,
    hcrowd, hmusic, himg, hsync⟩ := hwf
  unfold recordOf secondPass
  dsimp only
  rw [dget_emit_missing f "db_id" (by decide), dget_emit_id, dget_emit_place_id,
    dget_emit_missing f "_id" (by decide),
    dget_emit_missing f "google_place_id" (by decide),
    dget_emit_name, dget_emit_openNow,
    dget_emit_vibe, dget_emit_missing f "vibe_descriptor" (by decide),
    dget_emit_missing f "editorial_summary" (by decide),
    dget_emit_missing f "summary" (by decide),
    dget_emit_crowdLevel, dget_emit_missing f "crowd_level" (by decide),
    dget_emit_musicType, dget_emit_missing f "music_type" (by decide),
    dget_emit_priceLevel, dget_emit_missing f "price_level" (by decide),
    dget_emit_address, dget_emit_missing f "formatted_address" (by decide),
    dget_emit_missing f "vicinity" (by decide),
    dget_emit_distance, dget_emit_currentStatus,
    dget_emit_missing f "current_status" (by decide),
    dget_emit_phone, dget_emit_website, dget_emit_email,
    dget_emit_missing f "opening_hours" (by decide),
    dget_emit_missing f "weekly_hours" (by decide),
    dget_emit_amenities, dget_emit_features, dget_emit_reviews, dget_emit_socialMedia]
  congr 1
  case e_idV =>
    rw [pyOr_pnone_left]
    rcases hid with h0 | ⟨s, hs, hne⟩
    · rw [h0, pyOr_pnone_left]
      rcases hpid with p0 | ⟨t, ht2, htn⟩
      · rw [p0, pyOr_pnone_left]
        rw [if_neg (by simp [PyVal.truthy]), if_pos (show PyVal.pnone.isNone = true from rfl)]
      · rw [ht2]
        have htt : (PyVal.pstr t).truthy = true := by simp [PyVal.truthy, htn]
        rw [pyOr_truthy_left _ _ htt, if_pos htt, if_pos (show PyVal.pnone.isNone = true from rfl)]
        rfl
    · rw [hs]
      have hst : (PyVal.pstr s).truthy = true := by simp [PyVal.truthy, hne]
      rw [pyOr_truthy_left _ _ hst, if_pos hst, if_neg (by simp [PyVal.isNone])]
      rfl
  case e_placeIdV =>
    have hgp : (if PyVal.pnone.truthy = true then PyVal.pnone else f.idV) = f.idV := by
      rw [if_neg (by simp [PyVal.truthy])]
    rw [hgp]
    rcases hpid with p0 | ⟨t, ht2, htn⟩
    · have hidn : f.idV = .pnone := by
        by_contra hne2
        exact (hid2 hne2) p0
      rw [p0, hidn]
      rfl
    · rw [ht2]
      have htt : (PyVal.pstr t).truthy = true := by simp [PyVal.truthy, htn]
      rw [pyOr_truthy_left _ _ htt, if_pos htt]
      rfl
  case e_vibeV => cases f.vibeV <;> rfl
  case e_crowdLevelV => rw [pyOr_truthy_left _ _ hcrowd]
  case e_musicTypeV => rw [pyOr_truthy_left _ _ hmusic]
  case e_priceLevelV =>
    rcases hprice with ⟨n, hn, h1, h4⟩ | hb
    · rw [hn]
      have ht : (PyVal.pint n).truthy = true := by
        simp only [PyVal.truthy, bne_iff_ne, ne_eq, decide_eq_true_eq]
        omega
      rw [pyOr_truthy_left _ _ ht,
        show clampPrice (PyVal.pint n) =
          (if n < 1 then PyVal.pint 2 else if n > 4 then PyVal.pint 4 else PyVal.pint n)
          from rfl,
        if_neg (by omega), if_neg (by omega)]
    · rw [hb, pyOr_truthy_left _ _ (by decide)]
      rfl
  case e_addressV => exact addr_emit_eq f haddr
  case e_currentStatusV => exact pyOr_optVal _
  case e_imagesV =>
    rcases he : (f.imagesV.filter keepImg).isEmpty with _ | _
    · rw [if_pos (by decide), if_neg (by decide)]
    · rw [if_neg (by decide), if_pos rfl]

theorem second_pass_eval (f : NormFields) (hwf : NormWF f) :
    computeFields (emitNorm f) = .ok (secondPass f) := by
  obtain ⟨hname, hcat, hid, hpid, hid2, hprice, hrat, hrc, haddr, hnbd, hnbe,
    hcrowd, hmusic, himg, hsync⟩ := hwf
  unfold computeFields
  rw [catComp_emit f hcat, exceptBind_okv,
    neighComp_emit f (hnbd.imp_right id) hnbe haddr, exceptBind_okv,
    imagesComp_emit f himg, exceptBind_okv,
    locComp_emit f hsync, exceptBind_okv,
    ratingComp_emit f hrat, exceptBind_okv,
    rcComp_emit f hrc, exceptBind_okv,
    recordOf_emit f ⟨hname, hcat, hid, hpid, hid2, hprice, hrat, hrc, haddr, hnbd, hnbe,
      hcrowd, hmusic, himg, hsync⟩]
  rfl

theorem truthy_ne_pnone (v : PyVal) (h : v.truthy = true) : v ≠ .pnone := by
  intro hc
  rw [hc] at h
  simp [PyVal.truthy] at h

theorem emit_truthy (f : NormFields) (hname : f.nameV.truthy = true) :
    (emitNorm f).truthy = true := by
  have hin : ("name", f.nameV) ∈ ([("id", f.idV), ("place_id", f.placeIdV),
      ("name", f.nameV), ("category", f.categoryV), ("description", f.descriptionV),
      ("vibe", .plist f.vibeV), ("crowdLevel", f.crowdLevelV),
      ("musicType", f.musicTypeV), ("priceLevel", f.priceLevelV),
      ("rating", f.ratingV), ("reviewCount", f.reviewCountV),
      ("address", f.addressV), ("neighborhood", f.neighborhoodV),
      ("distance", f.distanceV), ("openNow", .pbool f.openNowV),
      ("images", .plist f.imagesV), ("location", f.locationV),
      ("currentStatus", optVal f.currentStatusV),
      ("phone", optVal f.phoneV),
      ("website", optVal f.websiteV),
      ("email", optVal f.emailV),
      ("openingHours", optVal f.openingHoursV),
      ("weeklyHours", optVal f.weeklyHoursV),
      ("amenities", optVal f.amenitiesV),
      ("features", optVal f.featuresV),
      ("reviews", optVal f.reviewsV),
      ("socialMedia", optVal f.socialMediaV)].filter
        (fun kv => !kv.2.isNone)) := by
    refine List.mem_filter.mpr ⟨by simp, ?_⟩
    have := truthy_ne_pnone f.nameV hname
    simp only [Bool.not_eq_true']
    rcases hn : f.nameV.isNone with _ | _
    · rfl
    · exact absurd ((isNone_eq_true_iff _).mp hn) this
  have hne := List.ne_nil_of_mem hin
  unfold emitNorm
  show (!(List.isEmpty _)) = true
  simp [List.isEmpty_eq_true, hne]

theorem normalize_place_eq_of_dict (v : PyVal) (hd : v.isDict = true)
    (ht : v.truthy = true) (hn : (v.dget "name").truthy = true) :
    normalize_place v = (computeFields v).map (fun f => some (emitNorm f)) := by
  unfold normalize_place
  rw [if_neg (by simp [ht])]
  cases v with
  | pdict kvs => rw [if_neg (by simp [hn])]
  | pnone => simp [PyVal.isDict] at hd
  | pbool b => simp [PyVal.isDict] at hd
  | pint n => simp [PyVal.isDict] at hd
  | pfloat q => simp [PyVal.isDict] at hd
  | pstr s => simp [PyVal.isDict] at hd
  | plist xs => simp [PyVal.isDict] at hd

theorem normalize_place_some_inv (raw p : PyVal)
    (h : normalize_place raw = .ok (some p)) :
    ∃ f, computeFields raw = .ok f ∧ p = emitNorm f ∧
      (raw.dget "name").truthy = true := by
  unfold normalize_place at h
  split at h
  · exact absurd h (by simp)
  · cases raw with
    | pdict kvs =>
      dsimp only at h
      by_cases hnt : ((PyVal.pdict kvs).dget "name").truthy = true
      · rw [if_neg (by simp [hnt])] at h
        rcases hcf : computeFields (.pdict kvs) with e | f
        · rw [hcf] at h
          exact absurd h (by simp [Except.map])
        · rw [hcf] at h
          have h2 : Except.ok (some (emitNorm f)) = Except.ok (some p) := h
          injection h2 with h3
          injection h3 with h4
          exact ⟨f, rfl, h4.symm, hnt⟩
      · have hf : ((PyVal.pdict kvs).dget "name").truthy = false := by
          revert hnt
          cases ((PyVal.pdict kvs).dget "name").truthy <;> simp
        rw [if_pos (by simp [hf])] at h
        exact absurd h (by simp)
    | pnone => exact absurd h (by simp)
    | pbool b => exact absurd h (by simp)
    | pint n => exact absurd h (by simp)
    | pfloat q => exact absurd h (by simp)
    | pstr s => exact absurd h (by simp)
    | plist xs => exact absurd h (by simp)

/-! ## Claim theorems -/

/-- **C5**: The popular-times heuristic emits, for every hour 0–23, one integer
score per day name, each in [0, 100] (scores are naturals, so the lower bound
is inherent); in the dinner band 19–22 the weekday (Monday) score is exactly
85 and the Saturday score is exactly 100 (85 + 10 weekend + 15 boost clamped). -/
theorem popular_times_heuristic_bounds (h : Nat) (hle : h ≤ 23) :
    (∀ p ∈ generate_mock_popular_times h, p.2 ≤ 100) ∧
    (19 ≤ h → h ≤ 22 →
      (generate_mock_popular_times h).lookup "Monday" = some 85 ∧
      (generate_mock_popular_times h).lookup "Saturday" = some 100) := by
  interval_cases h <;> exact ⟨by decide, by decide⟩

/-- Witness for C5 at dinner hour 20. -/
theorem popular_times_heuristic_bounds_witness :
    (∀ p ∈ generate_mock_popular_times 20, p.2 ≤ 100) ∧
    (19 ≤ 20 → 20 ≤ 22 →
      (generate_mock_popular_times 20).lookup "Monday" = some 85 ∧
      (generate_mock_popular_times 20).lookup "Saturday" = some 100) :=
  popular_times_heuristic_bounds 20 (by decide)

/-- **C2**: `get_optional_user` yields no identity without an `Authorization`
header, and yields no identity (never an error) whenever the bearer token
fails validation; the two runs are observationally identical. -/
theorem optional_user_bad_token_indistinguishable (env : Auth0Env) (t : String)
    (err : HttpError) (hv : verify_user_token env t = .error err) :
    get_optional_user env none = none ∧
    get_optional_user env (some t) = none ∧
    get_optional_user env (some t) = get_optional_user env none := by
  refine ⟨rfl, ?_, ?_⟩ <;> simp [get_optional_user, hv]

/-- Witness for C2: an environment with no configured Auth0 domain rejects
every token, and `get_optional_user` still resolves to "no identity". -/
theorem optional_user_bad_token_indistinguishable_witness :
    get_optional_user ⟨none, fun _ => .valid .pnone⟩ none = none ∧
    get_optional_user ⟨none, fun _ => .valid .pnone⟩ (some "tok") = none ∧
    get_optional_user ⟨none, fun _ => .valid .pnone⟩ (some "tok") =
      get_optional_user ⟨none, fun _ => .valid .pnone⟩ none :=
  optional_user_bad_token_indistinguishable ⟨none, fun _ => .valid .pnone⟩ "tok"
    ⟨401, .pstr "Authentication failed: 401: Auth0 not configured on server"⟩ rfl

/-- **C1**: a plan row owned by user A is invisible to any other caller B:
`GET`, `PUT`, `PATCH` and `DELETE` on its id all answer 404 with detail
"Plan not found" (never 403) and leave the database unchanged; the shared
lookup (`findPlan`) filters on both the plan id and the caller's user id. -/
theorem plans_cross_user_isolation (db : List PlanRow) (row : PlanRow) (userB : String)
    (putPayload : PlanCreate) (patchPayload : PlanPatch)
    (agent : PyVal → Except String PyVal) (now : Nat)
    (hmem : row ∈ db) (huniq : ∀ r ∈ db, r.id = row.id → r = row)
    (hne : userB ≠ row.user_id) :
    get_plan db userB row.id = .error ⟨404, .pstr "Plan not found"⟩ ∧
    update_plan db userB row.id putPayload now = (.error ⟨404, .pstr "Plan not found"⟩, db) ∧
    patch_plan db userB row.id patchPayload agent now =
      (.error ⟨404, .pstr "Plan not found"⟩, db) ∧
    delete_plan db userB row.id = (.error ⟨404, .pstr "Plan not found"⟩, db) := by
  have hf := findPlan_none_of_cross huniq hne
  exact ⟨by simp [get_plan, hf], by simp [update_plan, hf],
    by simp [patch_plan, hf], by simp [delete_plan, hf]⟩

/-- Witness for C1: user "bob" cannot see, replace, patch or delete
"alice"'s stored plan. -/
theorem plans_cross_user_isolation_witness :
    get_plan [sampleRow] "bob" sampleRow.id = .error ⟨404, .pstr "Plan not found"⟩ ∧
    update_plan [sampleRow] "bob" sampleRow.id samplePut 1 =
      (.error ⟨404, .pstr "Plan not found"⟩, [sampleRow]) ∧
    patch_plan [sampleRow] "bob" sampleRow.id {} sampleAgent 1 =
      (.error ⟨404, .pstr "Plan not found"⟩, [sampleRow]) ∧
    delete_plan [sampleRow] "bob" sampleRow.id =
      (.error ⟨404, .pstr "Plan not found"⟩, [sampleRow]) :=
  plans_cross_user_isolation [sampleRow] sampleRow "bob" samplePut {} sampleAgent 1
    (List.mem_singleton.mpr rfl) (fun r hr _ => List.mem_singleton.mp hr)
    (by decide)

/-- **C7**: a `PATCH /plans/{id}` whose body supplies only `name` rewrites only
the `name` column and the `updated_at` timestamp; `stops`, `tags`, `vibes`,
`execution`, `summary` and every other stored field are carried over
unchanged. -/
theorem patch_plan_name_only_frame (db : List PlanRow) (row : PlanRow) (newName : String)
    (agent : PyVal → Except String PyVal) (now : Nat)
    (hmem : row ∈ db) (huniq : ∀ r ∈ db, r.id = row.id → r = row) :
    patch_plan db row.user_id row.id { name := some newName } agent now =
      (.ok { row with name := .pstr newName, updated_at := now },
        replaceRow db row.id row.user_id
          { row with name := .pstr newName, updated_at := now }) ∧
    ∀ r' : PlanRow, r' = { row with name := .pstr newName, updated_at := now } →
      r'.stops = row.stops ∧ r'.tags = row.tags ∧ r'.vibes = row.vibes ∧
      r'.execution = row.execution ∧ r'.summary = row.summary ∧
      r'.description = row.description ∧ r'.category = row.category ∧
      r'.state = row.state ∧ r'.final_recommendations = row.final_recommendations ∧
      r'.extra_data = row.extra_data ∧ r'.created_at = row.created_at ∧
      r'.executed = row.executed ∧ r'.vibe = row.vibe ∧
      r'.total_duration = row.total_duration ∧ r'.total_distance = row.total_distance ∧
      r'.execution_date = row.execution_date ∧
      r'.rating_post_execution = row.rating_post_execution ∧
      r'.feedback = row.feedback ∧ r'.name = .pstr newName ∧ r'.updated_at = now := by
  have hf := findPlan_self hmem huniq
  constructor
  · simp [patch_plan, hf]
  · intro r' hr'
    subst hr'
    exact ⟨rfl, rfl, rfl, rfl, rfl, rfl, rfl, rfl, rfl, rfl, rfl, rfl, rfl, rfl,
      rfl, rfl, rfl, rfl, rfl, rfl⟩

/-- **C8**: every successful `ai_edit` PATCH appends one audit record
(timestamp, edit instruction, agent summary) to `metadata.ai_edits` and
truncates the list to its most recent 20 entries, keeping the original
(oldest-to-newest) order; iterating the row update 25 times leaves exactly
20 entries. -/
theorem ai_edit_audit_cap :
    (∀ (db : List PlanRow) (uid pid : String) (payload : PlanPatch) (e : PyVal)
       (agent : PyVal → Except String PyVal) (now : Nat) (row' : PlanRow)
       (db' : List PlanRow),
      payload.ai_edit = some e →
      patch_plan db uid pid payload agent now = (.ok row', db') →
      ∃ plan res, findPlan db pid uid = some plan ∧
        agent (aiEditAgentPayload uid plan e) = .ok res ∧
        aiEditsList row' = lastN 20 (aiEditsList plan ++ [auditRecord e res now]) ∧
        (aiEditsList row').length ≤ 20) ∧
    (∀ (plan : PlanRow) (e res : PyVal),
      (pyOr (res.dget "updated_plan") (.pdict [])).isDict = true →
      (pyOr plan.extra_data (.pdict [])).isDict = true →
      ∃ r, applyAiEditIter e res 25 plan = .ok r ∧ (aiEditsList r).length = 20) := by
  constructor
  · intro db uid pid payload e agent now row' db' hpay hpatch
    simp only [patch_plan, hpay] at hpatch
    cases hfind : findPlan db pid uid with
    | none => rw [hfind] at hpatch; simp at hpatch
    | some plan =>
      rw [hfind] at hpatch
      dsimp only at hpatch
      cases hagent : agent (aiEditAgentPayload uid plan e) with
      | error exc => rw [hagent] at hpatch; simp at hpatch
      | ok res =>
        rw [hagent] at hpatch
        dsimp only at hpatch
        refine ⟨plan, res, rfl, hagent, ?_⟩
        by_cases hdict : res.isDict = true
        · rw [if_neg (by simp [hdict])] at hpatch
          by_cases hsucc : (res.dget "success").truthy = true
          · rw [if_neg (by simp [hsucc])] at hpatch
            cases happly : applyAiEdit plan e res now with
            | error exc2 => rw [happly] at hpatch; cases hpatch
            | ok row2 =>
              rw [happly] at hpatch
              obtain ⟨h1, _⟩ := Prod.mk.injEq .. ▸ hpatch
              cases h1
              have hupd : (pyOr (res.dget "updated_plan") (.pdict [])).isDict = true := by
                by_contra hno
                simp only [applyAiEdit, Bool.not_eq_true] at happly
                rw [Bool.not_eq_true] at hno
                rw [hno] at happly
                simp at happly
              have hextra : (pyOr plan.extra_data (.pdict [])).isDict = true := by
                by_contra hno
                rw [Bool.not_eq_true] at hno
                simp only [applyAiEdit] at happly
                rw [hupd] at happly
                simp only [Bool.not_true, Bool.false_eq_true, if_false] at happly
                rw [hno] at happly
                simp at happly
              obtain ⟨row3, hrow3, hlist, _⟩ := applyAiEdit_spec plan e res now hupd hextra
              rw [hrow3] at happly
              cases happly
              rw [hlist]
              constructor
              · rfl
              · rw [length_lastN]; omega
          · rw [if_pos (by simp [hsucc])] at hpatch; cases hpatch
        · rw [if_pos (by simp [hdict])] at hpatch; cases hpatch
  · intro plan e res hupd hextra
    have step : ∀ (now : Nat) (p : PlanRow), (pyOr p.extra_data (.pdict [])).isDict = true →
        ∃ r, applyAiEdit p e res now = .ok r ∧
          (aiEditsList r).length = min ((aiEditsList p).length + 1) 20 ∧
          (pyOr r.extra_data (.pdict [])).isDict = true := by
      intro now p hp
      obtain ⟨r, hr, hl, hd⟩ := applyAiEdit_spec p e res now hupd hp
      exact ⟨r, hr, by rw [hl, length_lastN]; simp, hd⟩
    have iter : ∀ (k : Nat) (p : PlanRow), (pyOr p.extra_data (.pdict [])).isDict = true →
        ∃ r, applyAiEditIter e res k p = .ok r ∧
          (pyOr r.extra_data (.pdict [])).isDict = true ∧
          (1 ≤ k → (aiEditsList r).length = min ((aiEditsList p).length + k) 20) := by
      intro k
      induction k with
      | zero => intro p hp; exact ⟨p, rfl, hp, by omega⟩
      | succ n ih =>
        intro p hp
        obtain ⟨r1, hr1, hl1, hd1⟩ := step n p hp
        obtain ⟨r2, hr2, hd2, hl2⟩ := ih r1 hd1
        refine ⟨r2, ?_, hd2, ?_⟩
        · have hstep : applyAiEditIter e res (n + 1) p =
              (applyAiEdit p e res n).bind (applyAiEditIter e res n) := rfl
          rw [hstep, hr1]
          exact hr2
        · intro _
          cases n with
          | zero =>
            have hr12 : r1 = r2 := by
              have h0 : applyAiEditIter e res 0 r1 = .ok r1 := rfl
              rw [h0] at hr2
              exact Except.ok.inj hr2
            rw [← hr12, hl1]
          | succ m =>
            rw [hl2 (by omega), hl1]
            omega
    obtain ⟨r, hr, _, hl⟩ := iter 25 plan hextra
    exact ⟨r, hr, by rw [hl (by omega)]; omega⟩

/-- Witness for C8: one concrete `ai_edit` PATCH on the sample row appends the
audit record, and 25 iterated edits leave exactly 20 entries. -/
theorem ai_edit_audit_cap_witness :
    (∃ plan res, findPlan [sampleRow] sampleRow.id sampleRow.user_id = some plan ∧
      sampleAgent (aiEditAgentPayload sampleRow.user_id plan (.pstr "make it jazzier")) =
        .ok res ∧
      aiEditsList ((patch_plan [sampleRow] sampleRow.user_id sampleRow.id
          { ai_edit := some (.pstr "make it jazzier") } sampleAgent 3).1.toOption.getD
            sampleRow) =
        lastN 20 (aiEditsList plan ++ [auditRecord (.pstr "make it jazzier") res 3]) ∧
      (aiEditsList ((patch_plan [sampleRow] sampleRow.user_id sampleRow.id
          { ai_edit := some (.pstr "make it jazzier") } sampleAgent 3).1.toOption.getD
            sampleRow)).length ≤ 20) ∧
    (∃ r, applyAiEditIter (.pstr "make it jazzier")
        (.pdict [("success", .pbool true), ("summary", .pstr "done")]) 25 sampleRow =
          .ok r ∧
      (aiEditsList r).length = 20) := by
  constructor
  · obtain ⟨plan, res, h1, h2, h3, h4⟩ :=
      ai_edit_audit_cap.1 [sampleRow] sampleRow.user_id sampleRow.id
        { ai_edit := some (.pstr "make it jazzier") } (.pstr "make it jazzier")
        sampleAgent 3 _ _ rfl rfl
    exact ⟨plan, res, h1, h2, h3, h4⟩
  · exact ai_edit_audit_cap.2 sampleRow (.pstr "make it jazzier")
      (.pdict [("success", .pbool true), ("summary", .pstr "done")]) (by decide) (by decide)

/-- Evaluating the unparenthesised close-time condition on an integer close
time never raises and matches the intended predicate (a close time at/after
2400 or at/before 0400; the `close_time and ...` short-circuit changes
nothing for the value 0). -/
theorem closeTimeCond_int (n : Int) :
    closeTimeCond (.pint n) = .ok (decide (2400 ≤ n) || decide (n ≤ 400)) := by
  by_cases h : n = 0
  · subst h; rfl
  · have ht : (PyVal.pint n).truthy = true := by
      simp [PyVal.truthy, h]
    unfold closeTimeCond
    rw [ht]
    rfl

/-- The late-night scan is total on periods with integer close times, and
fires exactly when some close time is at/after 2400 or at/before 0400. -/
theorem lateNightScan_total (periods : List PyVal)
    (hwf : ∀ p ∈ periods, ∃ n, periodCloseTime p = some n) :
    ∃ b, lateNightScan periods = .ok b ∧
      (b = true ↔ ∃ p ∈ periods, ∃ n, periodCloseTime p = some n ∧
        (2400 ≤ n ∨ n ≤ 400)) := by
  induction periods with
  | nil => exact ⟨false, rfl, by simp⟩
  | cons p rest ih =>
    obtain ⟨n, hn⟩ := hwf p (List.mem_cons_self p rest)
    obtain ⟨kvs0, hplift⟩ : ∃ kvs0, p = .pdict kvs0 := by
      cases p with
      | pdict kvs0 => exact ⟨kvs0, rfl⟩
      | pnone => cases hn
      | pbool b => cases hn
      | pint m => cases hn
      | pfloat q => cases hn
      | pstr s => cases hn
      | plist l => cases hn
    subst hplift
    obtain ⟨kvs1, hclose, htime⟩ : ∃ kvs1,
        (PyVal.pdict kvs0).lookup "close" = some (.pdict kvs1) ∧
        (PyVal.pdict kvs1).dget "time" = .pint n := by
      simp only [periodCloseTime] at hn
      cases hc : (PyVal.pdict kvs0).lookup "close" with
      | none => rw [hc] at hn; cases hn
      | some c =>
        rw [hc] at hn
        cases c with
        | pdict kvs1 =>
          dsimp only at hn
          refine ⟨kvs1, rfl, ?_⟩
          cases ht : (PyVal.pdict kvs1).dget "time" with
          | pint m => rw [ht] at hn; cases hn; rfl
          | pnone => rw [ht] at hn; cases hn
          | pbool b => rw [ht] at hn; cases hn
          | pfloat q => rw [ht] at hn; cases hn
          | pstr s => rw [ht] at hn; cases hn
          | plist l => rw [ht] at hn; cases hn
          | pdict d => rw [ht] at hn; cases hn
        | pnone => cases hn
        | pbool b => cases hn
        | pint m => cases hn
        | pfloat q => cases hn
        | pstr s => cases hn
        | plist l => cases hn
    obtain ⟨b, hb, hiff⟩ :=
      ih (fun q hq => hwf q (List.mem_cons_of_mem (PyVal.pdict kvs0) hq))
    by_cases hfire : (2400 ≤ n ∨ n ≤ 400)
    · refine ⟨true, ?_, ?_⟩
      · have hd : (decide (2400 ≤ n) || decide (n ≤ 400)) = true := by
          rcases hfire with h | h <;> simp [h]
        simp only [lateNightScan, hclose, htime, exceptBind_pure, closeTimeCond_int, hd,
          exceptBind_okv, if_true]
        rfl
      · simp only [true_iff]
        exact ⟨.pdict kvs0, List.mem_cons_self _ rest, n, hn, hfire⟩
    · have hdec : (decide (2400 ≤ n) || decide (n ≤ 400)) = false := by
        push_neg at hfire
        simp only [Bool.or_eq_false_iff, decide_eq_false_iff_not, not_le]
        omega
      refine ⟨b, ?_, ?_⟩
      · simp only [lateNightScan, hclose, htime, exceptBind_pure, closeTimeCond_int, hdec,
          exceptBind_okv, Bool.false_eq_true, if_false]
        exact hb
      · rw [hiff]
        constructor
        · rintro ⟨q, hq, m, hm, hfire2⟩
          exact ⟨q, List.mem_cons_of_mem (PyVal.pdict kvs0) hq, m, hm, hfire2⟩
        · rintro ⟨q, hq, m, hm, hfire2⟩
          rcases List.mem_cons.mp hq with heq | hmem
          · subst heq
            rw [hn] at hm
            cases hm
            exact absurd hfire2 hfire
          · exact ⟨q, hmem, m, hm, hfire2⟩


/-- **C10 counterexample**: a place whose `opening_hours.periods` contain an
entry without a close time is *not* served bare of all enrichment: feature
inference raises (`int(None)`), the single router guard catches it, but the
amenity enrichment that already ran (and mutated the payload) survives, so
the place is served with amenities and only the inferred features are lost. -/
theorem opening_hours_guard_counterexample :
    infer_features_from_opening_hours
        (.pdict [("periods", .plist [.pdict [("open", .pdict [("time", .pstr "1000")])]])]) =
      .error "TypeError: int() argument" ∧
    placeDetailsEnrichedAttrs (fun xs => xs.dedup) placeNoClose =
      (none, some (.plist [.pstr "Bar", .pstr "Drinks"])) ∧
    (placeDetailsEnrichedAttrs (fun xs => xs.dedup) placeNoClose).2 ≠ none := by
  refine ⟨by decide, by decide, by decide⟩

/-- **C10 (amended)**: `infer_features_from_opening_hours` is total under the
precondition that every `periods` entry carries an (integer) close time —
then it adds "Late Night" exactly when some close time is at/after 2400 or
at/before 0400 — and for a period without a close time the unparenthesised
condition evaluates `int(None)` and raises; because `GET /places/{id}` wraps
amenity and feature enrichment in one guard, such a place is served with no
inferred features, while the amenities computed by the preceding (mutating)
amenity pass are retained. -/
theorem opening_hours_totality (kvs : List (String × PyVal)) (periods : List PyVal)
    (htr : (PyVal.pdict kvs).truthy = true)
    (hper : (PyVal.pdict kvs).dgetD "periods" (.plist []) = .plist periods)
    (hwf : ∀ p ∈ periods, ∃ n, periodCloseTime p = some n) :
    (∃ fs, infer_features_from_opening_hours (.pdict kvs) = .ok fs ∧
      ("Late Night" ∈ fs ↔ ∃ p ∈ periods, ∃ n, periodCloseTime p = some n ∧
        (2400 ≤ n ∨ n ≤ 400))) ∧
    infer_features_from_opening_hours
        (.pdict [("periods", .plist [.pdict [("open", .pdict [("time", .pstr "1000")])]])]) =
      .error "TypeError: int() argument" ∧
    placeDetailsEnrichedAttrs (fun xs => xs.dedup) placeNoClose =
      (none, some (.plist [.pstr "Bar", .pstr "Drinks"])) := by
  refine ⟨?_, by decide, by decide⟩
  obtain ⟨b, hb, hiff⟩ := lateNightScan_total periods hwf
  simp only [infer_features_from_opening_hours, htr, Bool.not_true, Bool.false_eq_true,
    if_false, hper]
  have hiter : toIter (.plist periods) = .ok periods := rfl
  rw [hiter, exceptBind_okv, hb, exceptBind_okv]
  cases hob : b with
  | true =>
    refine ⟨_, rfl, ?_⟩
    rw [← hiff, hob]
    simp
  | false =>
    refine ⟨_, rfl, ?_⟩
    rw [← hiff, hob]
    by_cases h24 : (PyVal.dget (.pdict kvs) "open_24_hours").truthy = true <;>
      simp [h24]

/-- Witness for C10 (amended): a dict with one integer close time 2330. -/
theorem opening_hours_totality_witness :
    (∃ fs, infer_features_from_opening_hours
        (.pdict [("periods", .plist [.pdict [("close", .pdict [("time", .pint 2330)])]])]) =
          .ok fs ∧
      ("Late Night" ∈ fs ↔ ∃ p ∈ [PyVal.pdict [("close", .pdict [("time", .pint 2330)])]],
        ∃ n, periodCloseTime p = some n ∧ (2400 ≤ n ∨ n ≤ 400))) ∧
    infer_features_from_opening_hours
        (.pdict [("periods", .plist [.pdict [("open", .pdict [("time", .pstr "1000")])]])]) =
      .error "TypeError: int() argument" ∧
    placeDetailsEnrichedAttrs (fun xs => xs.dedup) placeNoClose =
      (none, some (.plist [.pstr "Bar", .pstr "Drinks"])) :=
  opening_hours_totality [("periods", .plist [.pdict [("close", .pdict [("time", .pint 2330)])]])]
    [.pdict [("close", .pdict [("time", .pint 2330)])]] (by decide) (by decide)
    (by intro p hp; simp only [List.mem_singleton] at hp; subst hp; exact ⟨2330, rfl⟩)

/-- **C6 counterexample**: with a set-enumeration order that keeps insertion
order (a legitimate enumeration of a CPython `set`, whose order is
hash-seed-dependent and not alphabetical), a payload whose stored features
already contain "b" and whose photos infer "Well Documented" yields the
features list `["b", "Well Documented"]`, which is not alphabetically sorted
("Well Documented" sorts strictly before "b"); `enrich_place_with_features`
never sorts the merged list. -/
theorem enrich_features_sorted_counterexample :
    IsSetEnum (fun xs : List PyVal => xs.dedup) ∧
    enrich_place_with_features (fun xs => xs.dedup)
        (.pdict [("features", .plist [.pstr "b"]),
                 ("photos", .plist (List.replicate 10 PyVal.pnone))]) =
      .ok (.pdict [("features", .plist [.pstr "b", .pstr "Well Documented"]),
                   ("photos", .plist (List.replicate 10 PyVal.pnone))]) ∧
    strLt "Well Documented" "b" = true ∧
    sortStrings ["b", "Well Documented"] = ["Well Documented", "b"] := by
  refine ⟨fun xs => ⟨List.nodup_dedup xs, fun v => List.mem_dedup⟩, ?_, ?_, ?_⟩
  · decide
  · decide
  · decide

/-- **C6 (amended)**: for every set-enumeration order and every payload on
which it succeeds, `enrich_place_with_features` stores under `features` a
duplicate-free list holding exactly the union of the already-present features
and the inferred ones (existing entries are never removed) — but in the
enumeration order of `list(set(...))`, not alphabetically sorted; only
`infer_features`' own output is sorted. -/
theorem enrich_features_union (σ : List PyVal → List PyVal) (payload result : PyVal)
    (hσ : IsSetEnum σ) (hok : enrich_place_with_features σ payload = .ok result) :
    ∃ (xs : List PyVal) (inferred : List String) (l : List PyVal),
      payload.dgetD "features" (.plist []) = .plist xs ∧
      infer_features payload = .ok inferred ∧
      result.dget "features" = .plist l ∧
      l.Nodup ∧
      (∀ v, v ∈ l ↔ v ∈ xs ∨ ∃ s ∈ inferred, v = .pstr s) := by
  obtain ⟨kvs, hkvs⟩ : ∃ kvs, payload = .pdict kvs := by
    cases payload <;> simp_all [enrich_place_with_features]
  subst hkvs
  simp only [enrich_place_with_features, bind, Except.bind] at hok
  cases hinf : infer_features (.pdict kvs) with
  | error e => rw [hinf] at hok; simp at hok
  | ok inferred =>
    rw [hinf] at hok
    dsimp only at hok
    cases hex : (PyVal.pdict kvs).dgetD "features" (.plist []) with
    | plist xs =>
      rw [hex] at hok
      simp only [pure, Except.pure] at hok
      by_cases hhash : (xs ++ inferred.map PyVal.pstr).all hashable = true
      · rw [if_pos hhash] at hok
        have hres : result =
            (PyVal.pdict kvs).dset "features" (.plist (σ (xs ++ inferred.map PyVal.pstr))) := by
          exact (Except.ok.inj hok).symm
        refine ⟨xs, inferred, σ (xs ++ inferred.map PyVal.pstr), rfl, rfl, ?_, ?_, ?_⟩
        · rw [hres]
          exact dget_alistSet_self kvs "features" _
        · exact (hσ (xs ++ inferred.map PyVal.pstr)).1
        · intro v
          rw [(hσ (xs ++ inferred.map PyVal.pstr)).2 v]
          simp only [List.mem_append, List.mem_map]
          constructor
          · rintro (h | ⟨s, hs, heq⟩)
            · exact Or.inl h
            · exact Or.inr ⟨s, hs, heq.symm⟩
          · rintro (h | ⟨s, hs, heq⟩)
            · exact Or.inl h
            · exact Or.inr ⟨s, hs, heq.symm⟩
      · rw [if_neg hhash] at hok
        simp at hok
    | pnone => rw [hex] at hok; simp at hok
    | pbool b => rw [hex] at hok; simp at hok
    | pint n => rw [hex] at hok; simp at hok
    | pfloat q => rw [hex] at hok; simp at hok
    | pstr s => rw [hex] at hok; simp at hok
    | pdict kvs2 => rw [hex] at hok; simp at hok

/-- Witness for C6 (amended) on the counterexample payload. -/
theorem enrich_features_union_witness :
    ∃ (xs : List PyVal) (inferred : List String) (l : List PyVal),
      (PyVal.pdict [("features", .plist [.pstr "b"]),
        ("photos", .plist (List.replicate 10 PyVal.pnone))]).dgetD "features" (.plist [])
          = .plist xs ∧
      infer_features (.pdict [("features", .plist [.pstr "b"]),
        ("photos", .plist (List.replicate 10 PyVal.pnone))]) = .ok inferred ∧
      (PyVal.pdict [("features", .plist [.pstr "b", .pstr "Well Documented"]),
        ("photos", .plist (List.replicate 10 PyVal.pnone))]).dget "features" = .plist l ∧
      l.Nodup ∧
      (∀ v, v ∈ l ↔ v ∈ xs ∨ ∃ s ∈ inferred, v = .pstr s) :=
  enrich_features_union (fun xs => xs.dedup)
    (.pdict [("features", .plist [.pstr "b"]),
      ("photos", .plist (List.replicate 10 PyVal.pnone))])
    (.pdict [("features", .plist [.pstr "b", .pstr "Well Documented"]),
      ("photos", .plist (List.replicate 10 PyVal.pnone))])
    (fun xs => ⟨List.nodup_dedup xs, fun v => List.mem_dedup⟩) (by decide)

/-- Witness for C7 on the sample row. -/
theorem patch_plan_name_only_frame_witness :
    patch_plan [sampleRow] sampleRow.user_id sampleRow.id { name := some "New Name" }
        sampleAgent 7 =
      (.ok { sampleRow with name := .pstr "New Name", updated_at := 7 },
        replaceRow [sampleRow] sampleRow.id sampleRow.user_id
          { sampleRow with name := .pstr "New Name", updated_at := 7 }) ∧
    ∀ r' : PlanRow, r' = { sampleRow with name := .pstr "New Name", updated_at := 7 } →
      r'.stops = sampleRow.stops ∧ r'.tags = sampleRow.tags ∧
      r'.vibes = sampleRow.vibes ∧ r'.execution = sampleRow.execution ∧
      r'.summary = sampleRow.summary ∧ r'.description = sampleRow.description ∧
      r'.category = sampleRow.category ∧ r'.state = sampleRow.state ∧
      r'.final_recommendations = sampleRow.final_recommendations ∧
      r'.extra_data = sampleRow.extra_data ∧ r'.created_at = sampleRow.created_at ∧
      r'.executed = sampleRow.executed ∧ r'.vibe = sampleRow.vibe ∧
      r'.total_duration = sampleRow.total_duration ∧
      r'.total_distance = sampleRow.total_distance ∧
      r'.execution_date = sampleRow.execution_date ∧
      r'.rating_post_execution = sampleRow.rating_post_execution ∧
      r'.feedback = sampleRow.feedback ∧ r'.name = .pstr "New Name" ∧
      r'.updated_at = 7 :=
  patch_plan_name_only_frame [sampleRow] sampleRow "New Name" sampleAgent 7
    (List.mem_singleton.mpr rfl) (fun r hr _ => List.mem_singleton.mp hr)

/-- **C9**: `normalize_place` clamps the resolved price level into [1, 4] with
default 2: under either the `price_level` or the `priceLevel` key, 0 and -3
clamp to 2 (the default, not 1), 5 and 99 clamp to 4, an in-range integer is
kept, a missing price yields 2, and every non-integer value (Python
`isinstance(price, int)`, so excluding `int` and `bool`) yields 2. -/
theorem price_level_clamping (v : PyVal) (hv : v.isInt = false) :
    (priceLevelOf (.pdict [("name", .pstr "X"), ("price_level", .pint 0)]) = some (.pint 2) ∧
     priceLevelOf (.pdict [("name", .pstr "X"), ("price_level", .pint (-3))]) = some (.pint 2) ∧
     priceLevelOf (.pdict [("name", .pstr "X"), ("price_level", .pint 5)]) = some (.pint 4) ∧
     priceLevelOf (.pdict [("name", .pstr "X"), ("price_level", .pint 99)]) = some (.pint 4)) ∧
    (priceLevelOf (.pdict [("name", .pstr "X"), ("priceLevel", .pint 0)]) = some (.pint 2) ∧
     priceLevelOf (.pdict [("name", .pstr "X"), ("priceLevel", .pint (-3))]) = some (.pint 2) ∧
     priceLevelOf (.pdict [("name", .pstr "X"), ("priceLevel", .pint 5)]) = some (.pint 4) ∧
     priceLevelOf (.pdict [("name", .pstr "X"), ("priceLevel", .pint 99)]) = some (.pint 4)) ∧
    (∀ n : Int, 1 ≤ n → n ≤ 4 →
      priceLevelOf (.pdict [("name", .pstr "X"), ("price_level", .pint n)]) = some (.pint n)) ∧
    priceLevelOf (.pdict [("name", .pstr "X")]) = some (.pint 2) ∧
    priceLevelOf (.pdict [("name", .pstr "X"), ("price_level", v)]) = some (.pint 2) ∧
    priceLevelOf (.pdict [("name", .pstr "X"), ("priceLevel", v)]) = some (.pint 2) := by
  refine ⟨⟨rfl, rfl, rfl, rfl⟩, ⟨rfl, rfl, rfl, rfl⟩, ?_, rfl, ?_, ?_⟩
  · intro n h1 h4
    rw [priceLevelOf_snake]
    have ht : (PyVal.pint n).truthy = true := by
      simp only [PyVal.truthy, bne_iff_ne, ne_eq, decide_eq_true_eq]
      omega
    have hpo : pyOr (PyVal.pint n) (PyVal.pint 2) = PyVal.pint n := by
      unfold pyOr; rw [ht]; rfl
    have hcl : clampPrice (PyVal.pint n) = PyVal.pint n := by
      show (if n < 1 then PyVal.pint 2 else if n > 4 then PyVal.pint 4 else PyVal.pint n) =
        PyVal.pint n
      rw [if_neg (by omega), if_neg (by omega)]
    rw [hpo, hcl]; exact emit_price_pint n
  · rw [priceLevelOf_snake]
    rcases h : v.truthy with _ | _
    · rw [clamp_untruthy v h]; exact emit_price_pint 2
    · rw [clamp_truthy_nonint v h hv]; exact emit_price_pint 2
  · rw [priceLevelOf_camel]
    rcases h : v.truthy with _ | _
    · rw [clamp_untruthy v h]; exact emit_price_pint 2
    · rw [clamp_truthy_nonint v h hv]; exact emit_price_pint 2

/-- Witness for C9 at the non-integer price value `"3"` (a digit string is
not re-parsed: it falls back to the default 2). -/
theorem price_level_clamping_witness :
    (PyVal.pstr "3").isInt = false ∧
    priceLevelOf (.pdict [("name", .pstr "X"), ("price_level", .pstr "3")]) = some (.pint 2) :=
  ⟨rfl, (price_level_clamping (.pstr "3") rfl).2.2.2.2.1⟩

/-- **C3**: in the SSE relay, blank separator lines pass through with the
tracked event type kept; `event:` lines pass through while updating the
tracked type; a `data:` line under a non-`end` tracked type passes through
unmodified; a `data:` line under tracked type `end` whose payload parses is
re-serialized as `data: ` + the transformed JSON, where the transform replaces
a truthy `places` by `normalize_places` of it and a truthy `plan` by
`normalize_plan` of it; a dict item with a falsy `name` normalizes to `None`
and is therefore removed from the `places` list; every other line passes
through unmodified; and the stream is processed strictly in order. -/
theorem sse_end_frame_renormalization (st : Option String) (line : String)
    (rest : List String) :
    relayStep st "" = (st, ["\n"]) ∧
    (line ≠ "" → strStarts line "event:" = true →
      relayStep st line = (some (strTrim (afterFirst ':' line)), [line ++ "\n"])) ∧
    (line ≠ "" → strStarts line "event:" = false → strStarts line "data:" = true →
      st ≠ some "end" → relayStep st line = (none, [line ++ "\n"])) ∧
    (∀ d d', line ≠ "" → strStarts line "event:" = false → strStarts line "data:" = true →
      json_loads (strTrim (strDrop line 5)) = .ok d → transformEnd d = .ok d' →
      relayStep (some "end") line = (none, ["data: " ++ json_dumps d' ++ "\n"])) ∧
    (line ≠ "" → strStarts line "event:" = false → strStarts line "data:" = false →
      relayStep st line = (st, [line ++ "\n"])) ∧
    (∀ kvs ps, ((PyVal.pdict kvs).dget "places").truthy = true →
      normalize_places ((PyVal.pdict kvs).dget "places") = .ok ps →
      (((PyVal.pdict kvs).dset "places" ps).dget "plan").truthy = false →
      transformEnd (.pdict kvs) = .ok ((PyVal.pdict kvs).dset "places" ps)) ∧
    (∀ kvs pl, ((PyVal.pdict kvs).dget "places").truthy = false →
      ((PyVal.pdict kvs).dget "plan").truthy = true →
      normalize_plan ((PyVal.pdict kvs).dget "plan") = .ok pl →
      transformEnd (.pdict kvs) = .ok ((PyVal.pdict kvs).dset "plan" pl)) ∧
    (∀ kvs, ((PyVal.pdict kvs).dget "name").truthy = false →
      normalize_place (.pdict kvs) = .ok none) ∧
    (∀ p tl out, normalize_place p = .ok none → normalizePlacesList tl = .ok out →
      normalizePlacesList (p :: tl) = .ok out) ∧
    relayLines st (line :: rest) =
      (relayStep st line).2 ++ relayLines (relayStep st line).1 rest := by
  refine ⟨?_, ?_, ?_, ?_, ?_, ?_, ?_, ?_, ?_, ?_⟩
  · simp [relayStep]
  · intro h1 h2
    simp only [relayStep]
    rw [if_neg h1, if_pos h2]
  · intro h1 h2 h3 h4
    simp only [relayStep]
    rw [if_neg h1, if_neg (by rw [h2]; exact Bool.false_ne_true), if_pos h3,
      if_neg h4]
  · intro d d' h1 h2 h3 hj ht
    simp only [relayStep]
    rw [if_neg h1, if_neg (by rw [h2]; exact Bool.false_ne_true), if_pos h3,
      if_pos trivial, hj]
    dsimp only
    rw [ht]
  · intro h1 h2 h3
    simp only [relayStep]
    rw [if_neg h1, if_neg (by rw [h2]; exact Bool.false_ne_true),
      if_neg (by rw [h3]; exact Bool.false_ne_true)]
  · intro kvs ps hp hps hplan
    simp only [transformEnd]
    rw [if_pos hp, hps]
    dsimp only [Except.map]
    rw [exceptBind_okv]
    rw [if_neg (by rw [hplan]; exact Bool.false_ne_true)]
    rfl
  · intro kvs pl hp hplan hpl
    simp only [transformEnd]
    rw [if_neg (by rw [hp]; exact Bool.false_ne_true)]
    rw [exceptBind_pure]
    rw [if_pos hplan, hpl]
    rfl
  · intro kvs hname
    simp only [normalize_place]
    rcases ht : (PyVal.pdict kvs).truthy with _ | _
    · rw [if_pos (show (!false) = true from rfl)]
    · rw [if_neg (show ¬(!true) = true from by simp)]
      rw [if_pos (by simp [hname])]
  · intro p tl out hp htl
    simp only [normalizePlacesList, hp, htl, exceptBind_okv]
    rfl
  · simp only [relayLines]

/-- Witness for C3: a concrete `end`-event frame whose `places` holds one named
and one nameless item is re-serialized with the nameless item removed and the
named item normalized. -/
theorem sse_end_frame_renormalization_witness :
    json_loads (strTrim (strDrop endLineC3 5)) = .ok dRawC3 ∧
    transformEnd dRawC3 = .ok dNormC3 ∧
    relayStep (some "end") endLineC3 = (none, ["data: " ++ json_dumps dNormC3 ++ "\n"]) ∧
    normalize_place (.pdict [("rating", .pint 4)]) = .ok none :=
  ⟨rfl, rfl,
    (sse_end_frame_renormalization (some "end") endLineC3 []).2.2.2.1 dRawC3 dNormC3
      (by decide) rfl rfl rfl rfl,
    (sse_end_frame_renormalization (some "end") endLineC3 []).2.2.2.2.2.2.2.1
      [("rating", .pint 4)] rfl⟩

/-- **C4** (counterexample): `normalize_place` is not idempotent.  On
`\x7b"name": "X", "summary": "Great place"\x7d` the first pass emits
`description = "Great place"` (sourced from `summary`), but feeding that output
back in resets `description` to `""` — the second pass finds no
`editorial_summary`/`summary` key and the `description` key alone is never
consulted in the falsy-`editorial_summary` branch.  The two outputs differ in
`description` while their `images` agree, so the divergence is not the
tolerated default-image exception. -/
theorem normalize_place_idempotence_counterexample :
    normalize_place rawC4 = .ok (some firstC4) ∧
    normalize_place firstC4 = .ok (some secondC4) ∧
    firstC4.dget "description" = .pstr "Great place" ∧
    secondC4.dget "description" = .pstr "" ∧
    secondC4 ≠ firstC4 ∧
    firstC4.dget "images" = secondC4.dget "images" :=
  ⟨rfl, rfl, rfl, rfl, by decide, rfl⟩

/-- **C4** (amended): feeding any successful `normalize_place` output back in
succeeds and produces exactly `emitNorm (secondPass f)` of the first pass
fields `f`: the second pass re-filters `images` (re-substituting the
placeholder only when the filtered list is empty), backfills `id` from
`place_id`, converts a float rating equal to 0 to the integer 0, drops
`openingHours`/`weeklyHours` (they are re-read under snake_case keys), filters
falsy trailing fields, and — the idempotence violation — always resets
`description` to `""`; every other field survives unchanged. -/
theorem normalize_place_second_pass (raw p : PyVal)
    (h : normalize_place raw = .ok (some p)) :
    ∃ f : NormFields, p = emitNorm f ∧ NormWF f ∧
      normalize_place p = .ok (some (emitNorm (secondPass f))) := by
  obtain ⟨f, hcf, hp, hname0⟩ := normalize_place_some_inv raw p h
  have hwf : NormWF f := computeFields_wf raw f hname0 hcf
  refine ⟨f, hp, hwf, ?_⟩
  subst hp
  rw [normalize_place_eq_of_dict (emitNorm f) rfl (emit_truthy f hwf.1)
    (by rw [dget_emit_name]; exact hwf.1)]
  rw [second_pass_eval f hwf]
  rfl

/-- Witness for C4 (amended) at the concrete counterexample input. -/
theorem normalize_place_second_pass_witness :
    normalize_place rawC4 = .ok (some firstC4) ∧
    ∃ f : NormFields, firstC4 = emitNorm f ∧ NormWF f ∧
      normalize_place firstC4 = .ok (some (emitNorm (secondPass f))) :=
  ⟨rfl, normalize_place_second_pass rawC4 firstC4 rfl⟩

end Auphere
